import Mathlib

/-!
# Development Plan Lifecycle & Progress Engine — verification

A shallow embedding of `backend/app/services/plan_service.py` (the
Development Plan Lifecycle & Progress Engine) together with theorems that
settle the claims of the specification against it.

Modelling conventions:
* Python `float` scores become `ℚ`; all comparisons and arithmetic in the
  engine are exact, so this is faithful except for `round(x, 2)`, which we
  model with `round2` below (rounding the percentage to hundredths).
* Python dicts with a fixed key set become structures; a key that can be
  absent becomes an `Option` field.  String-keyed dicts built by the engine
  itself become association lists whose keys are inserted in engine order.
* Database rows (`Test`, `DevelopmentPlan`, completion events) become plain
  structures collected in lists inside a `Db` state; the autoincrement
  primary key is modelled as `maxId + 1`, and `ORDER BY id` / `ORDER BY
  generated_at DESC` as explicit sorts.
* `str.lower()` is modelled by `pyLower`, which lowercases exactly the
  character classes occurring in this code base (ASCII and Cyrillic);
  `str.strip()`, `str.split()`, `str.replace` and `str.join` become the
  explicit list recursions below; `"x" in s` becomes `strContains`.
* All string constants are reproduced byte-for-byte from the source file
  (as unicode escapes), including its transcoding artifacts.
-/

namespace PlanSpec

/-- Python `str.lower` restricted to the characters that occur in this code
base: ASCII letters and Cyrillic U+0400–U+042F.  All other characters
appearing in the engine's strings are fixed points of `str.lower`. -/
def pyLowerChar (c : Char) : Char :=
  if 'A' ≤ c ∧ c ≤ 'Z' then Char.ofNat (c.toNat + 32)
  else if 0x400 ≤ c.toNat ∧ c.toNat ≤ 0x40F then Char.ofNat (c.toNat + 0x50)
  else if 0x410 ≤ c.toNat ∧ c.toNat ≤ 0x42F then Char.ofNat (c.toNat + 0x20)
  else c

def pyLower (s : String) : String := String.mk (s.toList.map pyLowerChar)

/-- Python `str.strip()` (ASCII whitespace suffices for this code base). -/
def pyStrip (s : String) : String :=
  String.mk (((s.toList.dropWhile Char.isWhitespace).reverse.dropWhile
    Char.isWhitespace).reverse)

def listPrefixB : List Char → List Char → Bool
  | [], _ => true
  | _ :: _, [] => false
  | a :: as, b :: bs => a = b && listPrefixB as bs

def listInfixB (needle : List Char) : List Char → Bool
  | [] => listPrefixB needle []
  | b :: bs => listPrefixB needle (b :: bs) || listInfixB needle bs

/-- Python `needle in hay` on strings (substring containment). -/
def strContains (hay needle : String) : Bool := listInfixB needle.toList hay.toList

/-- Python `s.startswith(pre)`. -/
def strStartsWith (s pre : String) : Bool := listPrefixB pre.toList s.toList

/-- Worker of `pySplitWs`: split on whitespace runs, dropping empties. -/
def splitWsAux : List Char → List Char → List String
  | [], cur => if cur.isEmpty then [] else [String.mk cur.reverse]
  | c :: cs, cur =>
    if c.isWhitespace then
      (if cur.isEmpty then [] else [String.mk cur.reverse]) ++ splitWsAux cs []
    else splitWsAux cs (c :: cur)

/-- Python `s.split()`. -/
def pySplitWs (s : String) : List String := splitWsAux s.toList []

/-- Worker of `listReplace`; the fuel argument (initially the input
length) only makes the recursion structural — every step consumes at
least one character, so it never runs out before the input does. -/
def listReplaceFuel (needle repl : List Char) : Nat → List Char → List Char
  | 0, l => l
  | _ + 1, [] => []
  | fuel + 1, c :: cs =>
    if needle ≠ [] ∧ listPrefixB needle (c :: cs) then
      repl ++ listReplaceFuel needle repl fuel ((c :: cs).drop needle.length)
    else c :: listReplaceFuel needle repl fuel cs

/-- Non-overlapping left-to-right replacement (Python `str.replace`). -/
def listReplace (needle repl : List Char) (l : List Char) : List Char :=
  listReplaceFuel needle repl l.length l

/-- Python `s.replace(needle, repl)`. -/
def pyReplace (s needle repl : String) : String :=
  String.mk (listReplace needle.toList repl.toList s.toList)

/-- Python `sep.join(parts)`. -/
def joinSep (sep : String) : List String → String
  | [] => ""
  | [x] => x
  | x :: y :: xs => x ++ sep ++ joinSep sep (y :: xs)

/-- `_normalize_text`: `str(value or "").strip().lower()`. -/
def normalize_text (value : String) : String := pyLower (pyStrip value)

/-- `_strip_final_marker`. -/
def strip_final_marker (value : String) : String :=
  let cleaned := pyStrip (pyReplace (pyReplace value "[FINAL]" "") "[final]" "")
  joinSep " " (pySplitWs cleaned)

/-- `_normalize_difficulty`; `none` models a missing / non-string value
(`str(value or "")`). -/
def normalize_difficulty (value : Option String) : String :=
  let normalized := pyLower (pyStrip (value.getD ""))
  if normalized = "advanced" then "advanced"
  else if normalized = "intermediate" then "intermediate"
  else "beginner"

/-- One entry of the payload that `_final_test_questions` returns;
`options` keeps the texts of the option dicts, `qtype` the `type` key. -/
structure QuestionPayload where
  text : String
  qtype : String
  options : Option (List String)
deriving Repr, DecidableEq

/-- A row of the external `Test` table (`ttype` is the `type` column). -/
structure Test where
  id : Int
  title : String
  description : String
  ttype : String
deriving Repr, DecidableEq

/-- The five scores of a `SoftSkillsProfile` row. -/
structure ScoreProfile where
  communication_score : ℚ
  emotional_intelligence_score : ℚ
  critical_thinking_score : ℚ
  time_management_score : ℚ
  leadership_score : ℚ
deriving Repr, DecidableEq

/-- An entry of the static curated material catalog
(`_curated_material_library`); `mtype` is the `type` key. -/
structure LibEntry where
  id : String
  title : String
  url : String
  mtype : String
  skill : String
deriving Repr, DecidableEq

/-- A material dict inside `PlanContent.materials` (also the shape of
`MaterialItem`); `mtype` is the `type` key. -/
structure MaterialDict where
  id : String
  title : String := ""
  url : String := ""
  mtype : String := ""
  skill : String := ""
  difficulty : String := ""
deriving Repr, DecidableEq

/-- A task dict inside `PlanContent.tasks` (the shape of `TaskItem`). -/
structure TaskDict where
  id : String
  description : String := ""
  skill : String := ""
  status : String := "pending"
  completed_at : Option String := none
deriving Repr, DecidableEq

/-- The shape of `TestRecommendation`. -/
structure TestRec where
  test_id : Int
  title : String
  reason : String
deriving Repr, DecidableEq
-- Keyword table of skill_keywords; strings byte-for-byte from the source file.
def skill_keywords : List (String × List String) :=
[  ("communication", ["\u0420\u00a0\u0421\u201d\u0420\u00a0\u0421\u2022\u0420\u00a0\u0421\u0098\u0420\u00a0\u0421\u0098\u0420\u040e\u0421\u201c\u0420\u00a0\u0420\u2026\u0420\u00a0\u0421\u2018\u0420\u00a0\u0421\u201d", "\u0420\u00a0\u0421\u2022\u0420\u00a0\u0412\u00b1\u0420\u040e\u0432\u0402\u00b0\u0420\u00a0\u0412\u00b5\u0420\u00a0\u0420\u2026", "\u0420\u00a0\u0421\u2014\u0420\u00a0\u0412\u00b5\u0420\u040e\u0420\u201a\u0420\u00a0\u0412\u00b5\u0420\u00a0\u0421\u2013\u0420\u00a0\u0421\u2022\u0420\u00a0\u0420\u2020\u0420\u00a0\u0421\u2022\u0420\u040e\u0420\u201a", "\u0420\u00a0\u0422\u2018\u0420\u00a0\u0421\u2018\u0420\u00a0\u0412\u00b0\u0420\u00a0\u0412\u00bb\u0420\u00a0\u0421\u2022\u0420\u00a0\u0421\u2013", "communication", "conversation"]),
  ("emotional_intelligence", ["\u0420\u040e\u0420\u040a\u0420\u00a0\u0421\u0098\u0420\u00a0\u0421\u2022\u0420\u040e\u0432\u0402\u00a0\u0420\u00a0\u0421\u2018\u0420\u00a0\u0421\u2022\u0420\u00a0\u0420\u2026", "\u0420\u040e\u0420\u040a\u0420\u00a0\u0421\u0098\u0420\u00a0\u0421\u2014\u0420\u00a0\u0412\u00b0\u0420\u040e\u0432\u0402\u0459", "emotional", "intelligence", "ei"]),
  ("critical_thinking", ["\u0420\u00a0\u0421\u201d\u0420\u040e\u0420\u201a\u0420\u00a0\u0421\u2018\u0420\u040e\u0432\u0402\u0459", "\u0420\u00a0\u0421\u0098\u0420\u040e\u0432\u0402\u2116\u0420\u040e\u0432\u201a\u00ac\u0420\u00a0\u0412\u00bb\u0420\u00a0\u0412\u00b5\u0420\u00a0\u0420\u2026", "\u0420\u00a0\u0412\u00bb\u0420\u00a0\u0421\u2022\u0420\u00a0\u0421\u2013\u0420\u00a0\u0421\u2018\u0420\u00a0\u0421\u201d", "\u0420\u00a0\u0412\u00b0\u0420\u040e\u0420\u201a\u0420\u00a0\u0421\u2013\u0420\u040e\u0421\u201c\u0420\u00a0\u0421\u0098\u0420\u00a0\u0412\u00b5\u0420\u00a0\u0420\u2026\u0420\u040e\u0432\u0402\u0459", "critical", "thinking"]),
  ("time_management", ["\u0420\u040e\u0432\u0402\u0459\u0420\u00a0\u0412\u00b0\u0420\u00a0\u0432\u201e\u2013\u0420\u00a0\u0421\u0098", "\u0420\u00a0\u0420\u2020\u0420\u040e\u0420\u201a\u0420\u00a0\u0412\u00b5\u0420\u00a0\u0421\u0098\u0420\u00a0\u0412\u00b5\u0420\u00a0\u0420\u2026", "\u0420\u00a0\u0422\u2018\u0420\u00a0\u0412\u00b5\u0420\u00a0\u0422\u2018\u0420\u00a0\u0412\u00bb\u0420\u00a0\u0412\u00b0\u0420\u00a0\u0432\u201e\u2013\u0420\u00a0\u0420\u2026", "\u0420\u00a0\u0421\u2014\u0420\u040e\u0420\u201a\u0420\u00a0\u0421\u2018\u0420\u00a0\u0421\u2022\u0420\u040e\u0420\u201a\u0420\u00a0\u0421\u2018\u0420\u040e\u0432\u0402\u0459\u0420\u00a0\u0412\u00b5\u0420\u040e\u0432\u0402\u0459", "time", "management"]),
  ("leadership", ["\u0420\u00a0\u0412\u00bb\u0420\u00a0\u0421\u2018\u0420\u00a0\u0422\u2018\u0420\u00a0\u0412\u00b5\u0420\u040e\u0420\u201a", "\u0420\u00a0\u0421\u201d\u0420\u00a0\u0421\u2022\u0420\u00a0\u0421\u0098\u0420\u00a0\u0412\u00b0\u0420\u00a0\u0420\u2026\u0420\u00a0\u0422\u2018", "\u0420\u00a0\u0420\u2020\u0420\u00a0\u0412\u00bb\u0420\u00a0\u0421\u2018\u0420\u040e\u0420\u040f\u0420\u00a0\u0420\u2026\u0420\u00a0\u0421\u2018", "leadership", "lead"])]

-- The five skill display names, in the declaration order of identify_weaknesses:
-- time_management, critical_thinking, communication, emotional_intelligence, leadership.
def tm_name : String := "\u0420\u00a0\u0421\u045b\u0420\u00a0\u0412\u00b0\u0420\u00a0\u0432\u201e\u2013\u0420\u00a0\u0421\u0098-\u0420\u00a0\u0421\u0098\u0420\u00a0\u0412\u00b5\u0420\u00a0\u0420\u2026\u0420\u00a0\u0412\u00b5\u0420\u00a0\u0422\u2018\u0420\u00a0\u0412\u00b6\u0420\u00a0\u0421\u0098\u0420\u00a0\u0412\u00b5\u0420\u00a0\u0420\u2026\u0420\u040e\u0432\u0402\u0459"
def ct_name : String := "\u0420\u00a0\u0421\u2122\u0420\u040e\u0420\u201a\u0420\u00a0\u0421\u2018\u0420\u040e\u0432\u0402\u0459\u0420\u00a0\u0421\u2018\u0420\u040e\u0432\u0402\u040e\u0420\u00a0\u0412\u00b5\u0420\u040e\u0420\u0453\u0420\u00a0\u0421\u201d\u0420\u00a0\u0421\u2022\u0420\u00a0\u0412\u00b5 \u0420\u00a0\u0421\u0098\u0420\u040e\u0432\u0402\u2116\u0420\u040e\u0432\u201a\u00ac\u0420\u00a0\u0412\u00bb\u0420\u00a0\u0412\u00b5\u0420\u00a0\u0420\u2026\u0420\u00a0\u0421\u2018\u0420\u00a0\u0412\u00b5"
def comm_name : String := "\u0420\u00a0\u0421\u2122\u0420\u00a0\u0421\u2022\u0420\u00a0\u0421\u0098\u0420\u00a0\u0421\u0098\u0420\u040e\u0421\u201c\u0420\u00a0\u0420\u2026\u0420\u00a0\u0421\u2018\u0420\u00a0\u0421\u201d\u0420\u00a0\u0412\u00b0\u0420\u040e\u0432\u0402\u00a0\u0420\u00a0\u0421\u2018\u0420\u040e\u0420\u040f"
def ei_name : String := "\u0420\u00a0\u0412\u00ad\u0420\u00a0\u0421\u0098\u0420\u00a0\u0421\u2022\u0420\u040e\u0432\u0402\u00a0\u0420\u00a0\u0421\u2018\u0420\u00a0\u0421\u2022\u0420\u00a0\u0420\u2026\u0420\u00a0\u0412\u00b0\u0420\u00a0\u0412\u00bb\u0420\u040e\u0420\u0409\u0420\u00a0\u0420\u2026\u0420\u040e\u0432\u0402\u2116\u0420\u00a0\u0432\u201e\u2013 \u0420\u00a0\u0421\u2018\u0420\u00a0\u0420\u2026\u0420\u040e\u0432\u0402\u0459\u0420\u00a0\u0412\u00b5\u0420\u00a0\u0412\u00bb\u0420\u00a0\u0412\u00bb\u0420\u00a0\u0412\u00b5\u0420\u00a0\u0421\u201d\u0420\u040e\u0432\u0402\u0459"
def lead_name : String := "\u0420\u00a0\u0432\u0402\u0454\u0420\u00a0\u0421\u2018\u0420\u00a0\u0422\u2018\u0420\u00a0\u0412\u00b5\u0420\u040e\u0420\u201a\u0420\u040e\u0420\u0453\u0420\u040e\u0432\u0402\u0459\u0420\u00a0\u0420\u2020\u0420\u00a0\u0421\u2022"

def final_test_title_pre : String := "\u0420\u0098\u0421\u201a\u0420\u0455\u0420\u0456\u0420\u0455\u0420\u0406\u0421\u2039\u0420\u2116 \u0421\u201a\u0420\u00b5\u0421\u0403\u0421\u201a ("
def legacy_final_test_title_pre : String := "[FINAL] \u0420\u0098\u0421\u201a\u0420\u0455\u0420\u0456\u0420\u0455\u0420\u0406\u0421\u2039\u0420\u2116 \u0421\u201a\u0420\u00b5\u0421\u0403\u0421\u201a ("
def final_simulation_title_pre : String := "\u0420\u0098\u0421\u201a\u0420\u0455\u0420\u0456\u0420\u0455\u0420\u0406\u0420\u00b0\u0421\u040f \u0421\u0402\u0420\u0455\u0420\u00bb\u0420\u00b5\u0420\u0406\u0420\u00b0\u0421\u040f \u0420\u0451\u0420\u0456\u0421\u0402\u0420\u00b0 ("
def legacy_final_simulation_title_pre : String := "[FINAL] \u0420\u0098\u0421\u201a\u0420\u0455\u0420\u0456\u0420\u0455\u0420\u0406\u0420\u00b0\u0421\u040f \u0421\u0402\u0420\u0455\u0420\u00bb\u0420\u00b5\u0420\u0406\u0420\u00b0\u0421\u040f \u0420\u0451\u0420\u0456\u0421\u0402\u0420\u00b0 ("

-- _final_test_description: branch values in source order (advanced, intermediate, default beginner).
def final_test_description_advanced : String := "\u0420\u00a4\u0420\u0451\u0420\u0405\u0420\u00b0\u0420\u00bb\u0421\u040a\u0420\u0405\u0420\u00b0\u0421\u040f \u0420\u0457\u0421\u0402\u0420\u0455\u0420\u0406\u0420\u00b5\u0421\u0402\u0420\u0454\u0420\u00b0 \u0421\u0453\u0421\u0402\u0420\u0455\u0420\u0406\u0420\u0405\u0421\u040f advanced: \u0421\u0403\u0420\u00bb\u0420\u0455\u0420\u00b6\u0420\u0405\u0421\u2039\u0420\u00b5 \u0421\u0453\u0420\u0457\u0421\u0402\u0420\u00b0\u0420\u0406\u0420\u00bb\u0420\u00b5\u0420\u0405\u0421\u2021\u0420\u00b5\u0421\u0403\u0420\u0454\u0420\u0451\u0420\u00b5 \u0421\u0402\u0420\u00b5\u0421\u20ac\u0420\u00b5\u0420\u0405\u0420\u0451\u0421\u040f, \u0420\u0454\u0420\u0455\u0420\u0405\u0421\u201e\u0420\u00bb\u0420\u0451\u0420\u0454\u0421\u201a \u0420\u0451\u0420\u0405\u0421\u201a\u0420\u00b5\u0421\u0402\u0420\u00b5\u0421\u0403\u0420\u0455\u0420\u0406 \u0420\u0451 \u0420\u00bb\u0420\u0451\u0420\u0491\u0420\u00b5\u0421\u0402\u0421\u0403\u0421\u201a\u0420\u0406\u0420\u0455 \u0420\u0406 \u0421\u0453\u0421\u0403\u0420\u00bb\u0420\u0455\u0420\u0406\u0420\u0451\u0421\u040f\u0421\u2026 \u0420\u0491\u0420\u00b0\u0420\u0406\u0420\u00bb\u0420\u00b5\u0420\u0405\u0420\u0451\u0421\u040f."
def final_test_description_intermediate : String := "\u0420\u00a4\u0420\u0451\u0420\u0405\u0420\u00b0\u0420\u00bb\u0421\u040a\u0420\u0405\u0420\u00b0\u0421\u040f \u0420\u0457\u0421\u0402\u0420\u0455\u0420\u0406\u0420\u00b5\u0421\u0402\u0420\u0454\u0420\u00b0 \u0421\u0453\u0421\u0402\u0420\u0455\u0420\u0406\u0420\u0405\u0421\u040f intermediate: \u0420\u0454\u0420\u0455\u0420\u0455\u0421\u0402\u0420\u0491\u0420\u0451\u0420\u0405\u0420\u00b0\u0421\u2020\u0420\u0451\u0421\u040f \u0420\u0454\u0420\u0455\u0420\u0458\u0420\u00b0\u0420\u0405\u0420\u0491\u0421\u2039, \u0420\u0457\u0421\u0402\u0420\u0451\u0420\u0455\u0421\u0402\u0420\u0451\u0421\u201a\u0420\u0451\u0420\u00b7\u0420\u00b0\u0421\u2020\u0420\u0451\u0421\u040f \u0420\u0451 \u0420\u0454\u0420\u0455\u0420\u0458\u0420\u0458\u0421\u0453\u0420\u0405\u0420\u0451\u0420\u0454\u0420\u00b0\u0421\u2020\u0420\u0451\u0421\u040f \u0421\u0403 \u0420\u0405\u0420\u00b5\u0421\u0403\u0420\u0454\u0420\u0455\u0420\u00bb\u0421\u040a\u0420\u0454\u0420\u0451\u0420\u0458\u0420\u0451 \u0421\u0403\u0421\u201a\u0420\u0455\u0421\u0402\u0420\u0455\u0420\u0405\u0420\u00b0\u0420\u0458\u0420\u0451."
def final_test_description_beginner : String := "\u0420\u00a4\u0420\u0451\u0420\u0405\u0420\u00b0\u0420\u00bb\u0421\u040a\u0420\u0405\u0420\u00b0\u0421\u040f \u0420\u0457\u0421\u0402\u0420\u0455\u0420\u0406\u0420\u00b5\u0421\u0402\u0420\u0454\u0420\u00b0 \u0421\u0453\u0421\u0402\u0420\u0455\u0420\u0406\u0420\u0405\u0421\u040f beginner: \u0420\u00b1\u0420\u00b0\u0420\u00b7\u0420\u0455\u0420\u0406\u0420\u00b0\u0421\u040f \u0420\u0454\u0420\u0455\u0420\u0458\u0420\u0458\u0421\u0453\u0420\u0405\u0420\u0451\u0420\u0454\u0420\u00b0\u0421\u2020\u0420\u0451\u0421\u040f, \u0421\u040c\u0420\u0458\u0420\u0457\u0420\u00b0\u0421\u201a\u0420\u0451\u0421\u040f \u0420\u0451 \u0420\u0457\u0420\u00bb\u0420\u00b0\u0420\u0405\u0420\u0451\u0421\u0402\u0420\u0455\u0420\u0406\u0420\u00b0\u0420\u0405\u0420\u0451\u0420\u00b5 \u0420\u0406 \u0421\u0402\u0420\u00b0\u0420\u00b1\u0420\u0455\u0421\u2021\u0420\u0451\u0421\u2026 \u0421\u0403\u0420\u0451\u0421\u201a\u0421\u0453\u0420\u00b0\u0421\u2020\u0420\u0451\u0421\u040f\u0421\u2026."

-- _final_simulation_description: branch values in source order (advanced, intermediate, default beginner).
def final_simulation_description_advanced : String := "\u0420\u00a4\u0420\u0451\u0420\u0405\u0420\u00b0\u0420\u00bb\u0421\u040a\u0420\u0405\u0420\u00b0\u0421\u040f \u0421\u0402\u0420\u0455\u0420\u00bb\u0420\u00b5\u0420\u0406\u0420\u00b0\u0421\u040f \u0420\u0451\u0420\u0456\u0421\u0402\u0420\u00b0 \u0421\u0453\u0421\u0402\u0420\u0455\u0420\u0406\u0420\u0405\u0421\u040f advanced: \u0421\u0403\u0421\u201a\u0421\u0402\u0420\u00b5\u0421\u0403\u0421\u0403\u0420\u0455\u0420\u0406\u0420\u00b0\u0421\u040f \u0421\u0403\u0420\u0451\u0421\u201a\u0421\u0453\u0420\u00b0\u0421\u2020\u0420\u0451\u0421\u040f \u0421\u0403 \u0420\u0454\u0420\u0455\u0420\u0405\u0421\u201e\u0420\u00bb\u0420\u0451\u0420\u0454\u0421\u201a\u0420\u0455\u0420\u0458 \u0420\u0451\u0420\u0405\u0421\u201a\u0420\u00b5\u0421\u0402\u0420\u00b5\u0421\u0403\u0420\u0455\u0420\u0406, \u0420\u00bb\u0420\u0451\u0420\u0491\u0420\u00b5\u0421\u0402\u0421\u0403\u0421\u201a\u0420\u0406\u0420\u0455\u0420\u0458 \u0420\u0451 \u0420\u0457\u0421\u0402\u0420\u0451\u0420\u0405\u0421\u040f\u0421\u201a\u0420\u0451\u0420\u00b5\u0420\u0458 \u0421\u0402\u0420\u00b5\u0421\u20ac\u0420\u00b5\u0420\u0405\u0420\u0451\u0420\u2116 \u0420\u0406 \u0421\u0453\u0421\u0403\u0420\u00bb\u0420\u0455\u0420\u0406\u0420\u0451\u0421\u040f\u0421\u2026 \u0420\u0406\u0421\u2039\u0421\u0403\u0420\u0455\u0420\u0454\u0420\u0455\u0420\u2116 \u0420\u0405\u0420\u00b5\u0420\u0455\u0420\u0457\u0421\u0402\u0420\u00b5\u0420\u0491\u0420\u00b5\u0420\u00bb\u0421\u2018\u0420\u0405\u0420\u0405\u0420\u0455\u0421\u0403\u0421\u201a\u0420\u0451."
def final_simulation_description_intermediate : String := "\u0420\u00a4\u0420\u0451\u0420\u0405\u0420\u00b0\u0420\u00bb\u0421\u040a\u0420\u0405\u0420\u00b0\u0421\u040f \u0421\u0402\u0420\u0455\u0420\u00bb\u0420\u00b5\u0420\u0406\u0420\u00b0\u0421\u040f \u0420\u0451\u0420\u0456\u0421\u0402\u0420\u00b0 \u0421\u0453\u0421\u0402\u0420\u0455\u0420\u0406\u0420\u0405\u0421\u040f intermediate: \u0421\u0453\u0420\u0457\u0421\u0402\u0420\u00b0\u0420\u0406\u0420\u00bb\u0420\u00b5\u0420\u0405\u0420\u0451\u0420\u00b5 \u0420\u0454\u0420\u0455\u0420\u0458\u0420\u0458\u0421\u0453\u0420\u0405\u0420\u0451\u0420\u0454\u0420\u00b0\u0421\u2020\u0420\u0451\u0420\u00b5\u0420\u2116 \u0420\u0458\u0420\u00b5\u0420\u00b6\u0420\u0491\u0421\u0453 \u0420\u0454\u0420\u0455\u0420\u0458\u0420\u00b0\u0420\u0405\u0420\u0491\u0420\u0455\u0420\u2116 \u0420\u0451 \u0420\u00b7\u0420\u00b0\u0420\u0454\u0420\u00b0\u0420\u00b7\u0421\u2021\u0420\u0451\u0420\u0454\u0420\u0455\u0420\u0458 \u0420\u0457\u0421\u0402\u0420\u0451 \u0421\u0402\u0420\u0451\u0421\u0403\u0420\u0454\u0420\u00b5 \u0421\u0403\u0421\u0402\u0421\u2039\u0420\u0406\u0420\u00b0 \u0421\u0403\u0421\u0402\u0420\u0455\u0420\u0454\u0420\u0455\u0420\u0406."
def final_simulation_description_beginner : String := "\u0420\u00a4\u0420\u0451\u0420\u0405\u0420\u00b0\u0420\u00bb\u0421\u040a\u0420\u0405\u0420\u00b0\u0421\u040f \u0421\u0402\u0420\u0455\u0420\u00bb\u0420\u00b5\u0420\u0406\u0420\u00b0\u0421\u040f \u0420\u0451\u0420\u0456\u0421\u0402\u0420\u00b0 \u0421\u0453\u0421\u0402\u0420\u0455\u0420\u0406\u0420\u0405\u0421\u040f beginner: \u0420\u0457\u0421\u0402\u0420\u0455\u0420\u0406\u0420\u00b5\u0421\u0402\u0420\u0454\u0420\u00b0 \u0420\u00b1\u0420\u00b0\u0420\u00b7\u0420\u0455\u0420\u0406\u0420\u0455\u0420\u2116 \u0420\u0454\u0420\u0455\u0420\u0458\u0420\u0458\u0421\u0453\u0420\u0405\u0420\u0451\u0420\u0454\u0420\u00b0\u0421\u2020\u0420\u0451\u0420\u0451, \u0421\u040c\u0420\u0458\u0420\u0457\u0420\u00b0\u0421\u201a\u0420\u0451\u0420\u0451 \u0420\u0451 \u0421\u201a\u0420\u00b0\u0420\u2116\u0420\u0458-\u0420\u0458\u0420\u00b5\u0420\u0405\u0420\u00b5\u0420\u0491\u0420\u00b6\u0420\u0458\u0420\u00b5\u0420\u0405\u0421\u201a\u0420\u00b0 \u0420\u0406 \u0421\u0402\u0420\u00b0\u0420\u00b1\u0420\u0455\u0421\u2021\u0420\u00b5\u0420\u0458 \u0420\u0491\u0420\u0451\u0420\u00b0\u0420\u00bb\u0420\u0455\u0420\u0456\u0420\u00b5."

-- _final_simulation_intro: branch values in source order (advanced, intermediate, default beginner).
def final_simulation_intro_advanced : String := "\u0420\u040e\u0420\u0451\u0421\u201a\u0421\u0453\u0420\u00b0\u0421\u2020\u0420\u0451\u0421\u040f: \u0420\u0406\u0421\u2039 \u0421\u0402\u0421\u0453\u0420\u0454\u0420\u0455\u0420\u0406\u0420\u0455\u0420\u0491\u0420\u0451\u0421\u201a\u0420\u00b5 \u0420\u0454\u0421\u0402\u0420\u0455\u0421\u0403\u0421\u0403-\u0421\u201e\u0421\u0453\u0420\u0405\u0420\u0454\u0421\u2020\u0420\u0451\u0420\u0455\u0420\u0405\u0420\u00b0\u0420\u00bb\u0421\u040a\u0420\u0405\u0421\u2039\u0420\u0458 \u0420\u0457\u0421\u0402\u0420\u0455\u0420\u00b5\u0420\u0454\u0421\u201a\u0420\u0455\u0420\u0458, \u0420\u0454\u0420\u0455\u0421\u201a\u0420\u0455\u0421\u0402\u0421\u2039\u0420\u2116 \u0420\u0491\u0420\u0455\u0420\u00bb\u0420\u00b6\u0420\u00b5\u0420\u0405 \u0420\u0406\u0421\u2039\u0420\u2116\u0421\u201a\u0420\u0451 \u0420\u0406 \u0421\u0402\u0420\u00b5\u0420\u00bb\u0420\u0451\u0420\u00b7 \u0421\u2021\u0420\u00b5\u0421\u0402\u0420\u00b5\u0420\u00b7 48 \u0421\u2021\u0420\u00b0\u0421\u0403\u0420\u0455\u0420\u0406. \u0420\u045e\u0420\u00b5\u0421\u2026\u0420\u0405\u0420\u0451\u0421\u2021\u0420\u00b5\u0421\u0403\u0420\u0454\u0420\u0451\u0420\u2116 \u0420\u00bb\u0420\u0451\u0420\u0491\u0420\u00b5\u0421\u0402 \u0421\u0403\u0420\u0455\u0420\u0455\u0420\u00b1\u0421\u2030\u0420\u00b0\u0420\u00b5\u0421\u201a \u0420\u0455 \u0420\u0454\u0421\u0402\u0420\u0451\u0421\u201a\u0420\u0451\u0421\u2021\u0420\u00b5\u0421\u0403\u0420\u0454\u0420\u0455\u0420\u0458 \u0421\u0402\u0420\u0451\u0421\u0403\u0420\u0454\u0420\u00b5 \u0420\u0406 \u0420\u00b1\u0420\u00b5\u0420\u00b7\u0420\u0455\u0420\u0457\u0420\u00b0\u0421\u0403\u0420\u0405\u0420\u0455\u0421\u0403\u0421\u201a\u0420\u0451, \u0420\u0454\u0420\u0455\u0420\u0458\u0420\u0458\u0420\u00b5\u0421\u0402\u0421\u2021\u0420\u00b5\u0421\u0403\u0420\u0454\u0420\u0451\u0420\u2116 \u0420\u0491\u0420\u0451\u0421\u0402\u0420\u00b5\u0420\u0454\u0421\u201a\u0420\u0455\u0421\u0402 \u0421\u201a\u0421\u0402\u0420\u00b5\u0420\u00b1\u0421\u0453\u0420\u00b5\u0421\u201a \u0420\u0405\u0420\u00b5 \u0420\u0457\u0420\u00b5\u0421\u0402\u0420\u00b5\u0420\u0405\u0420\u0455\u0421\u0403\u0420\u0451\u0421\u201a\u0421\u040a \u0420\u0491\u0420\u00b0\u0421\u201a\u0421\u0453 \u0420\u00b7\u0420\u00b0\u0420\u0457\u0421\u0453\u0421\u0403\u0420\u0454\u0420\u00b0, \u0420\u00b0 \u0420\u0454\u0420\u00bb\u0421\u040b\u0421\u2021\u0420\u00b5\u0420\u0406\u0420\u0455\u0420\u2116 \u0420\u0454\u0420\u00bb\u0420\u0451\u0420\u00b5\u0420\u0405\u0421\u201a \u0420\u0455\u0420\u0491\u0420\u0405\u0420\u0455\u0420\u0406\u0421\u0402\u0420\u00b5\u0420\u0458\u0420\u00b5\u0420\u0405\u0420\u0405\u0420\u0455 \u0420\u0457\u0421\u0402\u0420\u0455\u0421\u0403\u0420\u0451\u0421\u201a \u0420\u0491\u0420\u0455\u0420\u00b1\u0420\u00b0\u0420\u0406\u0420\u0451\u0421\u201a\u0421\u040a \u0420\u0405\u0420\u0455\u0420\u0406\u0421\u2039\u0420\u2116 \u0421\u201e\u0421\u0453\u0420\u0405\u0420\u0454\u0421\u2020\u0420\u0451\u0420\u0455\u0420\u0405\u0420\u00b0\u0420\u00bb \u0420\u0406 \u0421\u0402\u0420\u00b5\u0420\u00bb\u0420\u0451\u0420\u00b7. \u0420\u2019\u0420\u0405\u0421\u0453\u0421\u201a\u0421\u0402\u0420\u0451 \u0420\u0454\u0420\u0455\u0420\u0458\u0420\u00b0\u0420\u0405\u0420\u0491\u0421\u2039 \u0420\u0405\u0420\u00b0\u0421\u2021\u0420\u00b0\u0420\u00bb\u0420\u0455\u0421\u0403\u0421\u040a \u0420\u0405\u0420\u00b0\u0420\u0457\u0421\u0402\u0421\u040f\u0420\u00b6\u0420\u00b5\u0420\u0405\u0420\u0451\u0420\u00b5: \u0421\u2021\u0420\u00b0\u0421\u0403\u0421\u201a\u0421\u040a \u0421\u0403\u0420\u0455\u0421\u201a\u0421\u0402\u0421\u0453\u0420\u0491\u0420\u0405\u0420\u0451\u0420\u0454\u0420\u0455\u0420\u0406 \u0420\u0405\u0420\u00b0\u0421\u0403\u0421\u201a\u0420\u00b0\u0420\u0451\u0420\u0406\u0420\u00b0\u0420\u00b5\u0421\u201a \u0420\u0405\u0420\u00b0 \u0420\u0405\u0420\u00b5\u0420\u0458\u0420\u00b5\u0420\u0491\u0420\u00bb\u0420\u00b5\u0420\u0405\u0420\u0405\u0420\u0455\u0420\u0458 \u0420\u00b7\u0420\u00b0\u0420\u0458\u0420\u0455\u0421\u0402\u0420\u00b0\u0420\u00b6\u0420\u0451\u0420\u0406\u0420\u00b0\u0420\u0405\u0420\u0451\u0420\u0451 \u0420\u0451\u0420\u00b7\u0420\u0458\u0420\u00b5\u0420\u0405\u0420\u00b5\u0420\u0405\u0420\u0451\u0420\u2116, \u0421\u2021\u0420\u00b0\u0421\u0403\u0421\u201a\u0421\u040a \u0420\u00b1\u0420\u0455\u0420\u0451\u0421\u201a\u0421\u0403\u0421\u040f \u0420\u0457\u0420\u0455\u0421\u201a\u0420\u00b5\u0421\u0402\u0421\u040f\u0421\u201a\u0421\u040a \u0420\u0454\u0420\u00bb\u0420\u0451\u0420\u00b5\u0420\u0405\u0421\u201a\u0420\u00b0 \u0420\u0451\u0420\u00b7-\u0420\u00b7\u0420\u00b0 \u0420\u0455\u0421\u201a\u0420\u0454\u0420\u00b0\u0420\u00b7\u0420\u00b0. \u0420\u2019\u0420\u00b0\u0421\u20ac\u0420\u00b0 \u0420\u00b7\u0420\u00b0\u0420\u0491\u0420\u00b0\u0421\u2021\u0420\u00b0 \u0420\u0406 \u0420\u0491\u0420\u0451\u0420\u00b0\u0420\u00bb\u0420\u0455\u0420\u0456\u0420\u00b5: \u0421\u0453\u0420\u0491\u0420\u00b5\u0421\u0402\u0420\u00b6\u0420\u00b0\u0421\u201a\u0421\u040a \u0420\u0454\u0420\u0455\u0420\u0405\u0421\u0403\u0421\u201a\u0421\u0402\u0421\u0453\u0420\u0454\u0421\u201a\u0420\u0451\u0420\u0406\u0420\u0405\u0421\u0453\u0421\u040b \u0420\u0454\u0420\u0455\u0420\u0458\u0420\u0458\u0421\u0453\u0420\u0405\u0420\u0451\u0420\u0454\u0420\u00b0\u0421\u2020\u0420\u0451\u0421\u040b, \u0420\u0457\u0421\u0402\u0420\u0455\u0421\u040f\u0420\u0406\u0420\u0451\u0421\u201a\u0421\u040a \u0421\u040c\u0420\u0458\u0420\u0455\u0421\u2020\u0420\u0451\u0420\u0455\u0420\u0405\u0420\u00b0\u0420\u00bb\u0421\u040a\u0420\u0405\u0421\u0453\u0421\u040b \u0421\u0453\u0421\u0403\u0421\u201a\u0420\u0455\u0420\u2116\u0421\u2021\u0420\u0451\u0420\u0406\u0420\u0455\u0421\u0403\u0421\u201a\u0421\u040a \u0420\u0451 \u0421\u040c\u0420\u0458\u0420\u0457\u0420\u00b0\u0421\u201a\u0420\u0451\u0421\u040b, \u0421\u0403\u0420\u0455\u0420\u00b1\u0421\u0402\u0420\u00b0\u0421\u201a\u0421\u040a \u0421\u201e\u0420\u00b0\u0420\u0454\u0421\u201a\u0421\u2039, \u0420\u0455\u0421\u2020\u0420\u00b5\u0420\u0405\u0420\u0451\u0421\u201a\u0421\u040a \u0421\u0402\u0420\u0451\u0421\u0403\u0420\u0454\u0420\u0451 \u0420\u0451 \u0420\u0457\u0421\u0402\u0420\u00b5\u0420\u0491\u0420\u00bb\u0420\u0455\u0420\u00b6\u0420\u0451\u0421\u201a\u0421\u040a \u0420\u00bb\u0420\u0451\u0420\u0491\u0420\u00b5\u0421\u0402\u0421\u0403\u0420\u0454\u0420\u0451\u0420\u2116 \u0420\u0457\u0420\u00bb\u0420\u00b0\u0420\u0405 \u0420\u0491\u0420\u00b5\u0420\u2116\u0421\u0403\u0421\u201a\u0420\u0406\u0420\u0451\u0420\u2116 \u0421\u0403 \u0420\u0457\u0420\u0455\u0420\u0405\u0421\u040f\u0421\u201a\u0420\u0405\u0421\u2039\u0420\u0458\u0420\u0451 \u0421\u0403\u0421\u0402\u0420\u0455\u0420\u0454\u0420\u00b0\u0420\u0458\u0420\u0451, \u0420\u0455\u0421\u201a\u0420\u0406\u0420\u00b5\u0421\u201a\u0421\u0403\u0421\u201a\u0420\u0406\u0420\u00b5\u0420\u0405\u0420\u0405\u0421\u2039\u0420\u0458\u0420\u0451 \u0420\u0451 \u0420\u0454\u0421\u0402\u0420\u0451\u0421\u201a\u0420\u00b5\u0421\u0402\u0420\u0451\u0421\u040f\u0420\u0458\u0420\u0451 \u0420\u0457\u0421\u0402\u0420\u0451\u0420\u0405\u0421\u040f\u0421\u201a\u0420\u0451\u0421\u040f \u0421\u0402\u0420\u00b5\u0421\u20ac\u0420\u00b5\u0420\u0405\u0420\u0451\u0421\u040f."
def final_simulation_intro_intermediate : String := "\u0420\u040e\u0420\u0451\u0421\u201a\u0421\u0453\u0420\u00b0\u0421\u2020\u0420\u0451\u0421\u040f: \u0420\u0406\u0421\u2039 \u0420\u0454\u0420\u0455\u0420\u0455\u0421\u0402\u0420\u0491\u0420\u0451\u0420\u0405\u0420\u0451\u0421\u0402\u0421\u0453\u0420\u00b5\u0421\u201a\u0420\u00b5 \u0421\u0402\u0420\u00b0\u0420\u00b1\u0420\u0455\u0421\u2021\u0421\u0453\u0421\u040b \u0420\u0456\u0421\u0402\u0421\u0453\u0420\u0457\u0420\u0457\u0421\u0453, \u0420\u0451 \u0420\u00b7\u0420\u00b0 \u0420\u0491\u0420\u0406\u0420\u00b0 \u0420\u0491\u0420\u0405\u0421\u040f \u0420\u0491\u0420\u0455 \u0420\u0491\u0420\u00b5\u0420\u0491\u0420\u00bb\u0420\u00b0\u0420\u2116\u0420\u0405\u0420\u00b0 \u0420\u0406\u0421\u2039\u0421\u040f\u0421\u0403\u0420\u0405\u0421\u040f\u0420\u00b5\u0421\u201a\u0421\u0403\u0421\u040f, \u0421\u2021\u0421\u201a\u0420\u0455 \u0420\u0455\u0420\u0491\u0420\u0405\u0420\u00b0 \u0420\u0451\u0420\u00b7 \u0420\u0454\u0420\u00bb\u0421\u040b\u0421\u2021\u0420\u00b5\u0420\u0406\u0421\u2039\u0421\u2026 \u0420\u00b7\u0420\u00b0\u0420\u0491\u0420\u00b0\u0421\u2021 \u0420\u0455\u0421\u201a\u0421\u0403\u0421\u201a\u0420\u00b0\u0421\u2018\u0421\u201a. \u0420\u045b\u0420\u0491\u0420\u0451\u0420\u0405 \u0421\u0403\u0420\u0455\u0421\u201a\u0421\u0402\u0421\u0453\u0420\u0491\u0420\u0405\u0420\u0451\u0420\u0454 \u0421\u0402\u0420\u00b0\u0420\u00b7\u0420\u0491\u0421\u0402\u0420\u00b0\u0420\u00b6\u0421\u2018\u0420\u0405 \u0420\u0451 \u0421\u0403\u0421\u2021\u0420\u0451\u0421\u201a\u0420\u00b0\u0420\u00b5\u0421\u201a, \u0421\u2021\u0421\u201a\u0420\u0455 \u0420\u00b5\u0420\u0458\u0421\u0453 \u0420\u0491\u0420\u00b0\u0420\u00bb\u0420\u0451 \u0421\u0403\u0420\u00bb\u0420\u0451\u0421\u20ac\u0420\u0454\u0420\u0455\u0420\u0458 \u0420\u00b1\u0420\u0455\u0420\u00bb\u0421\u040a\u0421\u20ac\u0420\u0455\u0420\u2116 \u0420\u0455\u0420\u00b1\u0421\u0409\u0421\u2018\u0420\u0458, \u0420\u0406\u0421\u201a\u0420\u0455\u0421\u0402\u0420\u0455\u0420\u2116 \u0420\u0458\u0420\u0455\u0420\u00bb\u0421\u2021\u0420\u0451\u0421\u201a \u0420\u0455 \u0421\u0402\u0420\u0451\u0421\u0403\u0420\u0454\u0420\u00b0\u0421\u2026, \u0420\u00b0 \u0420\u00b7\u0420\u00b0\u0420\u0454\u0420\u00b0\u0420\u00b7\u0421\u2021\u0420\u0451\u0420\u0454 \u0420\u0457\u0421\u0402\u0420\u0455\u0421\u0403\u0420\u0451\u0421\u201a \u0420\u0457\u0420\u0455\u0420\u0491\u0421\u201a\u0420\u0406\u0420\u00b5\u0421\u0402\u0420\u0491\u0420\u0451\u0421\u201a\u0421\u040a \u0421\u201e\u0420\u0451\u0420\u0405\u0420\u00b0\u0420\u00bb\u0421\u040a\u0420\u0405\u0421\u2039\u0420\u2116 \u0421\u0403\u0421\u0402\u0420\u0455\u0420\u0454 \u0420\u00b1\u0420\u00b5\u0420\u00b7 \u0420\u0457\u0420\u00b5\u0421\u0402\u0420\u00b5\u0420\u0405\u0420\u0455\u0421\u0403\u0420\u00b0. \u0420\u2019\u0420\u00b0\u0421\u20ac\u0420\u00b0 \u0420\u00b7\u0420\u00b0\u0420\u0491\u0420\u00b0\u0421\u2021\u0420\u00b0 \u0420\u0406 \u0420\u0491\u0420\u0451\u0420\u00b0\u0420\u00bb\u0420\u0455\u0420\u0456\u0420\u00b5: \u0421\u0403\u0420\u0457\u0420\u0455\u0420\u0454\u0420\u0455\u0420\u2116\u0420\u0405\u0420\u0455 \u0420\u0406\u0421\u2039\u0421\u0403\u0421\u201a\u0421\u0402\u0420\u0455\u0420\u0451\u0421\u201a\u0421\u040a \u0420\u0455\u0420\u00b1\u0421\u2030\u0420\u00b5\u0420\u0405\u0420\u0451\u0420\u00b5, \u0421\u0453\u0421\u201a\u0420\u0455\u0421\u2021\u0420\u0405\u0420\u0451\u0421\u201a\u0421\u040a \u0420\u0457\u0421\u0402\u0420\u0451\u0421\u2021\u0420\u0451\u0420\u0405\u0421\u2039 \u0420\u00b7\u0420\u00b0\u0420\u0491\u0420\u00b5\u0421\u0402\u0420\u00b6\u0420\u0454\u0420\u0451, \u0421\u0402\u0420\u00b0\u0421\u0403\u0421\u0403\u0421\u201a\u0420\u00b0\u0420\u0406\u0420\u0451\u0421\u201a\u0421\u040a \u0420\u0457\u0421\u0402\u0420\u0451\u0420\u0455\u0421\u0402\u0420\u0451\u0421\u201a\u0420\u00b5\u0421\u201a\u0421\u2039, \u0421\u0403\u0420\u0455\u0420\u0456\u0420\u00bb\u0420\u00b0\u0421\u0403\u0420\u0455\u0420\u0406\u0420\u00b0\u0421\u201a\u0421\u040a \u0421\u0402\u0420\u00b5\u0420\u00b0\u0420\u00bb\u0420\u0451\u0421\u0403\u0421\u201a\u0420\u0451\u0421\u2021\u0420\u0405\u0421\u2039\u0420\u2116 \u0420\u0457\u0420\u00bb\u0420\u00b0\u0420\u0405 \u0420\u0451 \u0420\u0491\u0420\u0455\u0420\u0456\u0420\u0455\u0420\u0406\u0420\u0455\u0421\u0402\u0420\u0451\u0421\u201a\u0421\u040a\u0421\u0403\u0421\u040f \u0421\u0403 \u0421\u0453\u0421\u2021\u0420\u00b0\u0421\u0403\u0421\u201a\u0420\u0405\u0420\u0451\u0420\u0454\u0420\u00b0\u0420\u0458\u0420\u0451 \u0420\u0455 \u0420\u0454\u0420\u0455\u0420\u0405\u0420\u0454\u0421\u0402\u0420\u00b5\u0421\u201a\u0420\u0405\u0421\u2039\u0421\u2026 \u0421\u20ac\u0420\u00b0\u0420\u0456\u0420\u00b0\u0421\u2026 \u0420\u0451 \u0420\u0455\u0421\u201a\u0420\u0406\u0420\u00b5\u0421\u201a\u0421\u0403\u0421\u201a\u0420\u0406\u0420\u00b5\u0420\u0405\u0420\u0405\u0420\u0455\u0421\u0403\u0421\u201a\u0420\u0451."
def final_simulation_intro_beginner : String := "\u0420\u040e\u0420\u0451\u0421\u201a\u0421\u0453\u0420\u00b0\u0421\u2020\u0420\u0451\u0421\u040f: \u0420\u0406\u0421\u2039 \u0420\u0455\u0421\u201a\u0420\u0406\u0420\u00b5\u0421\u2021\u0420\u00b0\u0420\u00b5\u0421\u201a\u0420\u00b5 \u0420\u00b7\u0420\u00b0 \u0420\u0405\u0420\u00b5\u0420\u00b1\u0420\u0455\u0420\u00bb\u0421\u040a\u0421\u20ac\u0420\u0455\u0420\u2116 \u0421\u0402\u0420\u00b0\u0420\u00b1\u0420\u0455\u0421\u2021\u0420\u0451\u0420\u2116 \u0420\u00b1\u0420\u00bb\u0420\u0455\u0420\u0454 \u0420\u0406 \u0420\u0454\u0420\u0455\u0420\u0458\u0420\u00b0\u0420\u0405\u0420\u0491\u0420\u00b5. \u0420\u045f\u0420\u00b5\u0421\u0402\u0420\u00b5\u0420\u0491 \u0420\u0491\u0420\u00b5\u0420\u0491\u0420\u00bb\u0420\u00b0\u0420\u2116\u0420\u0405\u0420\u0455\u0420\u0458 \u0420\u0406\u0421\u2039\u0421\u040f\u0421\u0403\u0420\u0405\u0420\u0451\u0420\u00bb\u0420\u0455\u0421\u0403\u0421\u040a, \u0421\u2021\u0421\u201a\u0420\u0455 \u0420\u0454\u0420\u0455\u0420\u00bb\u0420\u00bb\u0420\u00b5\u0420\u0456\u0420\u00b0 \u0420\u0405\u0420\u00b5 \u0420\u0491\u0420\u0455 \u0420\u0454\u0420\u0455\u0420\u0405\u0421\u2020\u0420\u00b0 \u0420\u0457\u0420\u0455\u0420\u0405\u0421\u040f\u0420\u00bb \u0420\u00b7\u0420\u00b0\u0420\u0491\u0420\u00b0\u0421\u2021\u0421\u0453 \u0420\u0451 \u0420\u0405\u0420\u00b5\u0421\u0402\u0420\u0406\u0420\u0405\u0420\u0451\u0421\u2021\u0420\u00b0\u0420\u00b5\u0421\u201a, \u0420\u00b0 \u0420\u0454\u0420\u00bb\u0420\u0451\u0420\u00b5\u0420\u0405\u0421\u201a \u0420\u0455\u0420\u00b6\u0420\u0451\u0420\u0491\u0420\u00b0\u0420\u00b5\u0421\u201a \u0420\u0457\u0420\u0455\u0420\u0491\u0421\u201a\u0420\u0406\u0420\u00b5\u0421\u0402\u0420\u00b6\u0420\u0491\u0420\u00b5\u0420\u0405\u0420\u0451\u0420\u00b5 \u0421\u0402\u0420\u00b5\u0420\u00b7\u0421\u0453\u0420\u00bb\u0421\u040a\u0421\u201a\u0420\u00b0\u0421\u201a\u0420\u00b0 \u0420\u0406 \u0421\u0403\u0421\u0402\u0420\u0455\u0420\u0454. \u0420\u2019\u0420\u00b0\u0421\u20ac\u0420\u00b0 \u0420\u00b7\u0420\u00b0\u0420\u0491\u0420\u00b0\u0421\u2021\u0420\u00b0 \u0420\u0406 \u0420\u0491\u0420\u0451\u0420\u00b0\u0420\u00bb\u0420\u0455\u0420\u0456\u0420\u00b5: \u0420\u0457\u0420\u0455\u0420\u0491\u0420\u0491\u0420\u00b5\u0421\u0402\u0420\u00b6\u0420\u00b0\u0421\u201a\u0421\u040a \u0420\u0454\u0420\u0455\u0420\u0405\u0421\u0403\u0421\u201a\u0421\u0402\u0421\u0453\u0420\u0454\u0421\u201a\u0420\u0451\u0420\u0406\u0420\u0405\u0421\u2039\u0420\u2116 \u0421\u201a\u0420\u0455\u0420\u0405, \u0420\u0457\u0421\u0402\u0420\u0455\u0421\u040f\u0420\u0406\u0420\u0451\u0421\u201a\u0421\u040a \u0421\u040c\u0420\u0458\u0420\u0457\u0420\u00b0\u0421\u201a\u0420\u0451\u0421\u040b, \u0420\u0457\u0421\u0402\u0420\u0455\u0421\u0403\u0421\u201a\u0421\u2039\u0420\u0458\u0420\u0451 \u0421\u0403\u0420\u00bb\u0420\u0455\u0420\u0406\u0420\u00b0\u0420\u0458\u0420\u0451 \u0421\u0453\u0421\u201a\u0420\u0455\u0421\u2021\u0420\u0405\u0420\u0451\u0421\u201a\u0421\u040a \u0420\u0457\u0421\u0402\u0420\u0451\u0420\u0455\u0421\u0402\u0420\u0451\u0421\u201a\u0420\u00b5\u0421\u201a\u0421\u2039 \u0420\u0451 \u0420\u0491\u0420\u0455\u0420\u0456\u0420\u0455\u0420\u0406\u0420\u0455\u0421\u0402\u0420\u0451\u0421\u201a\u0421\u040a\u0421\u0403\u0421\u040f \u0420\u0455 \u0420\u0457\u0420\u0455\u0420\u0405\u0421\u040f\u0421\u201a\u0420\u0405\u0420\u0455\u0420\u0458 \u0420\u0457\u0420\u00bb\u0420\u00b0\u0420\u0405\u0420\u00b5 \u0420\u0491\u0420\u00b5\u0420\u2116\u0421\u0403\u0421\u201a\u0420\u0406\u0420\u0451\u0420\u2116, \u0421\u2021\u0421\u201a\u0420\u0455\u0420\u00b1\u0421\u2039 \u0420\u0454\u0420\u0455\u0420\u0458\u0420\u00b0\u0420\u0405\u0420\u0491\u0420\u00b0 \u0421\u0453\u0421\u0403\u0420\u0457\u0420\u00b5\u0420\u00bb\u0420\u00b0 \u0420\u0406\u0420\u0455\u0420\u0406\u0421\u0402\u0420\u00b5\u0420\u0458\u0421\u040f."

def final_test_questions_advanced : List QuestionPayload :=
[  { text := "\u0420\u045c\u0420\u00b0 \u0420\u0457\u0421\u0402\u0420\u0455\u0420\u00b5\u0420\u0454\u0421\u201a\u0420\u00b5 \u0420\u0455\u0420\u0491\u0420\u0405\u0420\u0455\u0420\u0406\u0421\u0402\u0420\u00b5\u0420\u0458\u0420\u00b5\u0420\u0405\u0420\u0405\u0420\u0455: \u0420\u0454\u0420\u0455\u0420\u0405\u0421\u201e\u0420\u00bb\u0420\u0451\u0420\u0454\u0421\u201a \u0420\u0406 \u0420\u0454\u0420\u0455\u0420\u0458\u0420\u00b0\u0420\u0405\u0420\u0491\u0420\u00b5, \u0421\u0402\u0420\u0451\u0421\u0403\u0420\u0454 \u0421\u0403\u0421\u0402\u0421\u2039\u0420\u0406\u0420\u00b0 \u0420\u0491\u0420\u00b5\u0420\u0491\u0420\u00bb\u0420\u00b0\u0420\u2116\u0420\u0405\u0420\u00b0 \u0420\u0451 \u0420\u00b7\u0420\u00b0\u0420\u0457\u0421\u0402\u0420\u0455\u0421\u0403 \u0420\u0454\u0420\u00bb\u0420\u0451\u0420\u00b5\u0420\u0405\u0421\u201a\u0420\u00b0 \u0420\u0405\u0420\u00b0 \u0421\u0402\u0420\u00b0\u0421\u0403\u0421\u20ac\u0420\u0451\u0421\u0402\u0420\u00b5\u0420\u0405\u0420\u0451\u0420\u00b5 \u0420\u0455\u0420\u00b1\u0421\u0409\u0421\u2018\u0420\u0458\u0420\u00b0. \u0420\u0459\u0420\u00b0\u0420\u0454\u0420\u0455\u0420\u2116 \u0420\u0457\u0420\u00b5\u0421\u0402\u0420\u0406\u0421\u2039\u0420\u2116 \u0421\u0453\u0420\u0457\u0421\u0402\u0420\u00b0\u0420\u0406\u0420\u00bb\u0420\u00b5\u0420\u0405\u0421\u2021\u0420\u00b5\u0421\u0403\u0420\u0454\u0420\u0451\u0420\u2116 \u0421\u20ac\u0420\u00b0\u0420\u0456 \u0420\u0405\u0420\u00b0\u0420\u0451\u0420\u00b1\u0420\u0455\u0420\u00bb\u0420\u00b5\u0420\u00b5 \u0421\u0403\u0420\u0451\u0420\u00bb\u0421\u040a\u0420\u0405\u0421\u2039\u0420\u2116?", qtype := "multiple_choice", options := some ["\u0420\u2014\u0420\u00b0\u0421\u201e\u0420\u0451\u0420\u0454\u0421\u0403\u0420\u0451\u0421\u0402\u0420\u0455\u0420\u0406\u0420\u00b0\u0421\u201a\u0421\u040a \u0421\u0402\u0420\u0451\u0421\u0403\u0420\u0454\u0420\u0451, \u0420\u0457\u0421\u0402\u0420\u0455\u0420\u0406\u0420\u00b5\u0421\u0403\u0421\u201a\u0420\u0451 \u0420\u0454\u0420\u0455\u0421\u0402\u0420\u0455\u0421\u201a\u0420\u0454\u0421\u0453\u0421\u040b \u0420\u00b0\u0420\u0405\u0421\u201a\u0420\u0451\u0420\u0454\u0421\u0402\u0420\u0451\u0420\u00b7\u0420\u0451\u0421\u0403\u0420\u0405\u0421\u0453\u0421\u040b \u0420\u0406\u0421\u0403\u0421\u201a\u0421\u0402\u0420\u00b5\u0421\u2021\u0421\u0453 \u0420\u0451 \u0421\u0403\u0420\u0455\u0420\u0456\u0420\u00bb\u0420\u00b0\u0421\u0403\u0420\u0455\u0420\u0406\u0420\u00b0\u0421\u201a\u0421\u040a \u0420\u0457\u0420\u00bb\u0420\u00b0\u0420\u0405 \u0421\u0403 \u0420\u0455\u0421\u201a\u0420\u0406\u0420\u00b5\u0421\u201a\u0421\u0403\u0421\u201a\u0420\u0406\u0420\u00b5\u0420\u0405\u0420\u0405\u0421\u2039\u0420\u0458\u0420\u0451", "\u0420\u040e\u0421\u0402\u0420\u00b0\u0420\u00b7\u0421\u0453 \u0420\u0457\u0420\u0455\u0420\u0455\u0420\u00b1\u0420\u00b5\u0421\u2030\u0420\u00b0\u0421\u201a\u0421\u040a \u0420\u0454\u0420\u00bb\u0420\u0451\u0420\u00b5\u0420\u0405\u0421\u201a\u0421\u0453 \u0420\u0406\u0421\u0403\u0421\u2018 \u0420\u0406\u0421\u2039\u0420\u0457\u0420\u0455\u0420\u00bb\u0420\u0405\u0420\u0451\u0421\u201a\u0421\u040a \u0420\u00b1\u0420\u00b5\u0420\u00b7 \u0420\u0457\u0420\u00b5\u0421\u0402\u0420\u00b5\u0421\u0403\u0420\u0458\u0420\u0455\u0421\u201a\u0421\u0402\u0420\u00b0 \u0421\u0403\u0421\u0402\u0420\u0455\u0420\u0454\u0420\u0455\u0420\u0406", "\u0420\u045f\u0420\u00b5\u0421\u0402\u0420\u00b5\u0420\u0491\u0420\u00b0\u0421\u201a\u0421\u040a \u0420\u0457\u0421\u0402\u0420\u0455\u0420\u00b1\u0420\u00bb\u0420\u00b5\u0420\u0458\u0421\u0453 \u0421\u0402\u0421\u0453\u0420\u0454\u0420\u0455\u0420\u0406\u0420\u0455\u0420\u0491\u0421\u0403\u0421\u201a\u0420\u0406\u0421\u0453 \u0420\u0451 \u0420\u00b6\u0420\u0491\u0420\u00b0\u0421\u201a\u0421\u040a \u0421\u0402\u0420\u00b5\u0421\u20ac\u0420\u00b5\u0420\u0405\u0420\u0451\u0421\u040f"] },
  { text := "\u0420\u0459\u0420\u0455\u0420\u0458\u0420\u00b0\u0420\u0405\u0420\u0491\u0420\u00b0 \u0421\u040c\u0420\u0458\u0420\u0455\u0421\u2020\u0420\u0451\u0420\u0455\u0420\u0405\u0420\u00b0\u0420\u00bb\u0421\u040a\u0420\u0405\u0420\u0455 \u0420\u0406\u0421\u2039\u0420\u0456\u0420\u0455\u0421\u0402\u0420\u00b5\u0420\u00bb\u0420\u00b0, \u0420\u00b0 \u0420\u00b1\u0420\u0451\u0420\u00b7\u0420\u0405\u0420\u00b5\u0421\u0403 \u0420\u0491\u0420\u00b0\u0420\u0406\u0420\u0451\u0421\u201a \u0420\u0405\u0420\u00b0 \u0421\u0403\u0420\u0454\u0420\u0455\u0421\u0402\u0420\u0455\u0421\u0403\u0421\u201a\u0421\u040a. \u0420\u00a7\u0421\u201a\u0420\u0455 \u0420\u00bb\u0421\u0453\u0421\u2021\u0421\u20ac\u0420\u00b5 \u0420\u0455\u0421\u201a\u0421\u0402\u0420\u00b0\u0420\u00b6\u0420\u00b0\u0420\u00b5\u0421\u201a \u0420\u00b7\u0421\u0402\u0420\u00b5\u0420\u00bb\u0420\u0455\u0420\u00b5 \u0420\u00bb\u0420\u0451\u0420\u0491\u0420\u00b5\u0421\u0402\u0421\u0403\u0421\u201a\u0420\u0406\u0420\u0455?", qtype := "multiple_choice", options := some ["\u0420\u040e\u0420\u00b1\u0420\u00b0\u0420\u00bb\u0420\u00b0\u0420\u0405\u0421\u0403\u0420\u0451\u0421\u0402\u0420\u0455\u0420\u0406\u0420\u00b0\u0421\u201a\u0421\u040a \u0420\u0405\u0420\u00b0\u0420\u0456\u0421\u0402\u0421\u0453\u0420\u00b7\u0420\u0454\u0421\u0453, \u0420\u0457\u0421\u0402\u0420\u0455\u0421\u040f\u0421\u0403\u0420\u0405\u0420\u0451\u0421\u201a\u0421\u040a \u0420\u0457\u0421\u0402\u0420\u0451\u0420\u0455\u0421\u0402\u0420\u0451\u0421\u201a\u0420\u00b5\u0421\u201a\u0421\u2039 \u0420\u0451 \u0420\u0455\u0420\u00b1\u0420\u00b5\u0421\u0403\u0420\u0457\u0420\u00b5\u0421\u2021\u0420\u0451\u0421\u201a\u0421\u040a \u0420\u0454\u0420\u0455\u0421\u0402\u0420\u0455\u0421\u201a\u0420\u0454\u0420\u0451\u0420\u00b5 \u0421\u2020\u0420\u0451\u0420\u0454\u0420\u00bb\u0421\u2039 \u0420\u0455\u0420\u00b1\u0421\u0402\u0420\u00b0\u0421\u201a\u0420\u0405\u0420\u0455\u0420\u2116 \u0421\u0403\u0420\u0406\u0421\u040f\u0420\u00b7\u0420\u0451", "\u0420\u045f\u0420\u0455\u0420\u0406\u0421\u2039\u0421\u0403\u0420\u0451\u0421\u201a\u0421\u040a \u0420\u0454\u0420\u0455\u0420\u0405\u0421\u201a\u0421\u0402\u0420\u0455\u0420\u00bb\u0421\u040a \u0420\u0451 \u0420\u0455\u0421\u201a\u0420\u0458\u0420\u00b5\u0420\u0405\u0420\u0451\u0421\u201a\u0421\u040a \u0420\u0455\u0420\u00b1\u0421\u0403\u0421\u0453\u0420\u00b6\u0420\u0491\u0420\u00b5\u0420\u0405\u0420\u0451\u0421\u040f, \u0421\u2021\u0421\u201a\u0420\u0455\u0420\u00b1\u0421\u2039 \u0420\u0405\u0420\u00b5 \u0421\u201a\u0421\u0402\u0420\u00b0\u0421\u201a\u0420\u0451\u0421\u201a\u0421\u040a \u0420\u0406\u0421\u0402\u0420\u00b5\u0420\u0458\u0421\u040f", "\u0420\u040e\u0420\u0454\u0420\u0455\u0420\u0405\u0421\u2020\u0420\u00b5\u0420\u0405\u0421\u201a\u0421\u0402\u0420\u0451\u0421\u0402\u0420\u0455\u0420\u0406\u0420\u00b0\u0421\u201a\u0421\u040a\u0421\u0403\u0421\u040f \u0421\u201a\u0420\u0455\u0420\u00bb\u0421\u040a\u0420\u0454\u0420\u0455 \u0420\u0405\u0420\u00b0 KPI, \u0420\u0451\u0420\u0456\u0420\u0405\u0420\u0455\u0421\u0402\u0420\u0451\u0421\u0402\u0421\u0453\u0421\u040f \u0421\u040c\u0420\u0458\u0420\u0455\u0421\u2020\u0420\u0451\u0420\u0455\u0420\u0405\u0420\u00b0\u0420\u00bb\u0421\u040a\u0420\u0405\u0420\u0455\u0420\u00b5 \u0421\u0403\u0420\u0455\u0421\u0403\u0421\u201a\u0420\u0455\u0421\u040f\u0420\u0405\u0420\u0451\u0420\u00b5"] },
  { text := "\u0420\u201d\u0420\u0406\u0420\u00b0 \u0421\u0403\u0421\u201a\u0420\u00b5\u0420\u2116\u0420\u0454\u0421\u2026\u0420\u0455\u0420\u00bb\u0420\u0491\u0420\u00b5\u0421\u0402\u0420\u00b0 \u0421\u201a\u0421\u0402\u0420\u00b5\u0420\u00b1\u0421\u0453\u0421\u040b\u0421\u201a \u0420\u0406\u0420\u00b7\u0420\u00b0\u0420\u0451\u0420\u0458\u0420\u0455\u0420\u0451\u0421\u0403\u0420\u0454\u0420\u00bb\u0421\u040b\u0421\u2021\u0420\u00b0\u0421\u040b\u0421\u2030\u0420\u0451\u0420\u00b5 \u0421\u0402\u0420\u00b5\u0421\u20ac\u0420\u00b5\u0420\u0405\u0420\u0451\u0421\u040f. \u0420\u0459\u0420\u00b0\u0420\u0454 \u0420\u0491\u0420\u00b5\u0420\u2116\u0421\u0403\u0421\u201a\u0420\u0406\u0420\u0455\u0420\u0406\u0420\u00b0\u0421\u201a\u0421\u040a?", qtype := "multiple_choice", options := some ["\u0420\u040e\u0420\u0455\u0420\u00b1\u0421\u0402\u0420\u00b0\u0421\u201a\u0421\u040a \u0420\u0454\u0421\u0402\u0420\u0451\u0421\u201a\u0420\u00b5\u0421\u0402\u0420\u0451\u0420\u0451 \u0421\u0453\u0421\u0403\u0420\u0457\u0420\u00b5\u0421\u2026\u0420\u00b0, \u0420\u0455\u0421\u2020\u0420\u00b5\u0420\u0405\u0420\u0451\u0421\u201a\u0421\u040a \u0420\u0454\u0420\u0455\u0420\u0458\u0420\u0457\u0421\u0402\u0420\u0455\u0420\u0458\u0420\u0451\u0421\u0403\u0421\u0403\u0421\u2039 \u0420\u0451 \u0420\u0457\u0421\u0402\u0420\u00b5\u0420\u0491\u0420\u00bb\u0420\u0455\u0420\u00b6\u0420\u0451\u0421\u201a\u0421\u040a \u0420\u0457\u0421\u0402\u0420\u0455\u0420\u00b7\u0421\u0402\u0420\u00b0\u0421\u2021\u0420\u0405\u0421\u2039\u0420\u2116 \u0420\u0406\u0420\u00b0\u0421\u0402\u0420\u0451\u0420\u00b0\u0420\u0405\u0421\u201a \u0421\u0403 \u0420\u0457\u0420\u0455\u0421\u0403\u0420\u00bb\u0420\u00b5\u0420\u0491\u0421\u0403\u0421\u201a\u0420\u0406\u0420\u0451\u0421\u040f\u0420\u0458\u0420\u0451", "\u0420\u045f\u0420\u0455\u0420\u0491\u0420\u0491\u0420\u00b5\u0421\u0402\u0420\u00b6\u0420\u00b0\u0421\u201a\u0421\u040a \u0421\u201a\u0420\u0455\u0420\u0456\u0420\u0455, \u0420\u0454\u0421\u201a\u0420\u0455 \u0420\u00b7\u0420\u00b0\u0420\u0405\u0420\u0451\u0420\u0458\u0420\u00b0\u0420\u00b5\u0421\u201a \u0420\u00b1\u0420\u0455\u0420\u00bb\u0420\u00b5\u0420\u00b5 \u0420\u0406\u0421\u2039\u0421\u0403\u0420\u0455\u0420\u0454\u0421\u0453\u0421\u040b \u0420\u0491\u0420\u0455\u0420\u00bb\u0420\u00b6\u0420\u0405\u0420\u0455\u0421\u0403\u0421\u201a\u0421\u040a", "\u0420\u045b\u0421\u201a\u0420\u00bb\u0420\u0455\u0420\u00b6\u0420\u0451\u0421\u201a\u0421\u040a \u0421\u0402\u0420\u00b5\u0421\u20ac\u0420\u00b5\u0420\u0405\u0420\u0451\u0420\u00b5 \u0420\u0491\u0420\u0455 \u0420\u0457\u0420\u0455\u0421\u0403\u0420\u00bb\u0420\u00b5\u0420\u0491\u0420\u0405\u0420\u00b5\u0420\u0456\u0420\u0455 \u0420\u0491\u0420\u0405\u0421\u040f"] },
  { text := "\u0420\u0459\u0420\u00b0\u0420\u0454\u0420\u0455\u0420\u2116 \u0420\u0457\u0420\u0455\u0420\u0491\u0421\u2026\u0420\u0455\u0420\u0491 \u0420\u00bb\u0421\u0453\u0421\u2021\u0421\u20ac\u0420\u00b5 \u0420\u0406\u0421\u0403\u0420\u00b5\u0420\u0456\u0420\u0455 \u0420\u0457\u0420\u0455\u0420\u0454\u0420\u00b0\u0420\u00b7\u0421\u2039\u0420\u0406\u0420\u00b0\u0420\u00b5\u0421\u201a \u0420\u0454\u0421\u0402\u0420\u0451\u0421\u201a\u0420\u0451\u0421\u2021\u0420\u00b5\u0421\u0403\u0420\u0454\u0420\u0455\u0420\u00b5 \u0420\u0458\u0421\u2039\u0421\u20ac\u0420\u00bb\u0420\u00b5\u0420\u0405\u0420\u0451\u0420\u00b5 \u0420\u0406 \u0421\u0453\u0420\u0457\u0421\u0402\u0420\u00b0\u0420\u0406\u0420\u00bb\u0420\u00b5\u0420\u0405\u0421\u2021\u0420\u00b5\u0421\u0403\u0420\u0454\u0420\u0455\u0420\u2116 \u0420\u00b7\u0420\u00b0\u0420\u0491\u0420\u00b0\u0421\u2021\u0420\u00b5?", qtype := "multiple_choice", options := some ["\u0420\u045f\u0421\u0402\u0420\u0455\u0420\u0406\u0420\u00b5\u0421\u0402\u0420\u0451\u0421\u201a\u0421\u040a \u0420\u0451\u0421\u0403\u0421\u2026\u0420\u0455\u0420\u0491\u0420\u0405\u0421\u2039\u0420\u00b5 \u0420\u0491\u0420\u0455\u0420\u0457\u0421\u0453\u0421\u2030\u0420\u00b5\u0420\u0405\u0420\u0451\u0421\u040f, \u0420\u0491\u0420\u00b0\u0420\u0405\u0420\u0405\u0421\u2039\u0420\u00b5 \u0420\u0451 \u0420\u00b0\u0420\u00bb\u0421\u040a\u0421\u201a\u0420\u00b5\u0421\u0402\u0420\u0405\u0420\u00b0\u0421\u201a\u0420\u0451\u0420\u0406\u0421\u2039 \u0420\u0457\u0420\u00b5\u0421\u0402\u0420\u00b5\u0420\u0491 \u0421\u0402\u0420\u00b5\u0421\u20ac\u0420\u00b5\u0420\u0405\u0420\u0451\u0420\u00b5\u0420\u0458", "\u0420\u045b\u0420\u0457\u0420\u0451\u0421\u0402\u0420\u00b0\u0421\u040f\u0421\u0403\u0421\u040a \u0420\u0405\u0420\u00b0 \u0420\u0455\u0420\u0457\u0421\u2039\u0421\u201a, \u0421\u0403\u0421\u0402\u0420\u00b0\u0420\u00b7\u0421\u0453 \u0420\u0406\u0421\u2039\u0420\u00b1\u0421\u0402\u0420\u00b0\u0421\u201a\u0421\u040a \u0420\u00b7\u0420\u0405\u0420\u00b0\u0420\u0454\u0420\u0455\u0420\u0458\u0421\u2039\u0420\u2116 \u0420\u0406\u0420\u00b0\u0421\u0402\u0420\u0451\u0420\u00b0\u0420\u0405\u0421\u201a", "\u0420\u040e\u0420\u0491\u0420\u00b5\u0420\u00bb\u0420\u00b0\u0421\u201a\u0421\u040a \u0420\u0406\u0421\u2039\u0420\u00b1\u0420\u0455\u0421\u0402 \u0420\u0457\u0420\u0455 \u0420\u0405\u0420\u00b0\u0421\u0403\u0421\u201a\u0421\u0402\u0420\u0455\u0420\u00b5\u0420\u0405\u0420\u0451\u0421\u040b \u0420\u0454\u0420\u0455\u0420\u0458\u0420\u00b0\u0420\u0405\u0420\u0491\u0421\u2039"] }]

def final_test_questions_intermediate : List QuestionPayload :=
[  { text := "\u0420\u045c\u0420\u00b0 \u0420\u00b5\u0420\u00b6\u0420\u00b5\u0420\u0405\u0420\u00b5\u0420\u0491\u0420\u00b5\u0420\u00bb\u0421\u040a\u0420\u0405\u0420\u0455\u0420\u2116 \u0420\u0406\u0421\u0403\u0421\u201a\u0421\u0402\u0420\u00b5\u0421\u2021\u0420\u00b5 \u0420\u0406\u0420\u0455\u0420\u00b7\u0420\u0405\u0420\u0451\u0420\u0454 \u0421\u0403\u0420\u0457\u0420\u0455\u0421\u0402 \u0420\u0458\u0420\u00b5\u0420\u00b6\u0420\u0491\u0421\u0453 \u0420\u0491\u0420\u0406\u0421\u0453\u0420\u0458\u0421\u040f \u0420\u0454\u0420\u0455\u0420\u00bb\u0420\u00bb\u0420\u00b5\u0420\u0456\u0420\u00b0\u0420\u0458\u0420\u0451, \u0421\u0403\u0421\u0402\u0420\u0455\u0420\u0454\u0420\u0451 \u0420\u0457\u0420\u0455\u0420\u0491 \u0421\u0453\u0420\u0456\u0421\u0402\u0420\u0455\u0420\u00b7\u0420\u0455\u0420\u2116. \u0420\u2019\u0420\u00b0\u0421\u20ac \u0420\u0457\u0420\u00b5\u0421\u0402\u0420\u0406\u0421\u2039\u0420\u2116 \u0421\u20ac\u0420\u00b0\u0420\u0456?", qtype := "multiple_choice", options := some ["\u0420\u045b\u0421\u0403\u0421\u201a\u0420\u00b0\u0420\u0405\u0420\u0455\u0420\u0406\u0420\u0451\u0421\u201a\u0421\u040a \u0421\u0403\u0420\u0457\u0420\u0455\u0421\u0402, \u0421\u0453\u0421\u201a\u0420\u0455\u0421\u2021\u0420\u0405\u0420\u0451\u0421\u201a\u0421\u040a \u0421\u201e\u0420\u00b0\u0420\u0454\u0421\u201a\u0421\u2039 \u0420\u0451 \u0420\u0491\u0420\u0455\u0420\u0456\u0420\u0455\u0420\u0406\u0420\u0455\u0421\u0402\u0420\u0451\u0421\u201a\u0421\u040a\u0421\u0403\u0421\u040f \u0420\u0455 \u0421\u0403\u0420\u00bb\u0420\u00b5\u0420\u0491\u0421\u0453\u0421\u040b\u0421\u2030\u0420\u0451\u0421\u2026 \u0420\u0491\u0420\u00b5\u0420\u2116\u0421\u0403\u0421\u201a\u0420\u0406\u0420\u0451\u0421\u040f\u0421\u2026 \u0420\u0457\u0420\u0455 \u0421\u0403\u0421\u0402\u0420\u0455\u0420\u0454\u0420\u00b0\u0420\u0458", "\u0420\u2019\u0421\u2039\u0420\u00b1\u0421\u0402\u0420\u00b0\u0421\u201a\u0421\u040a \u0420\u0455\u0420\u0491\u0420\u0405\u0421\u0453 \u0421\u0403\u0421\u201a\u0420\u0455\u0421\u0402\u0420\u0455\u0420\u0405\u0421\u0453 \u0420\u00b1\u0420\u00b5\u0420\u00b7 \u0420\u0455\u0420\u00b1\u0421\u0403\u0421\u0453\u0420\u00b6\u0420\u0491\u0420\u00b5\u0420\u0405\u0420\u0451\u0421\u040f", "\u0420\u045f\u0420\u00b5\u0421\u0402\u0420\u00b5\u0420\u0405\u0420\u00b5\u0421\u0403\u0421\u201a\u0420\u0451 \u0421\u0402\u0420\u00b5\u0421\u20ac\u0420\u00b5\u0420\u0405\u0420\u0451\u0420\u00b5 \u0420\u0405\u0420\u00b0 \u0421\u0403\u0420\u00bb\u0420\u00b5\u0420\u0491\u0421\u0453\u0421\u040b\u0421\u2030\u0421\u0453\u0421\u040b \u0420\u0405\u0420\u00b5\u0420\u0491\u0420\u00b5\u0420\u00bb\u0421\u040b"] },
  { text := "\u0420\u0459\u0420\u00bb\u0420\u0451\u0420\u00b5\u0420\u0405\u0421\u201a \u0420\u0457\u0421\u0402\u0420\u0455\u0421\u0403\u0420\u0451\u0421\u201a \u0421\u0403\u0421\u0402\u0420\u0455\u0421\u2021\u0420\u0405\u0421\u0453\u0421\u040b \u0420\u0491\u0420\u0455\u0421\u0402\u0420\u00b0\u0420\u00b1\u0420\u0455\u0421\u201a\u0420\u0454\u0421\u0453, \u0420\u0454\u0420\u0455\u0420\u0458\u0420\u00b0\u0420\u0405\u0420\u0491\u0420\u00b0 \u0421\u0453\u0420\u00b6\u0420\u00b5 \u0420\u0457\u0420\u00b5\u0421\u0402\u0420\u00b5\u0420\u0456\u0421\u0402\u0421\u0453\u0420\u00b6\u0420\u00b5\u0420\u0405\u0420\u00b0. \u0420\u0459\u0420\u00b0\u0420\u0454 \u0420\u0454\u0420\u0455\u0421\u0402\u0421\u0402\u0420\u00b5\u0420\u0454\u0421\u201a\u0420\u0405\u0420\u0455 \u0420\u0455\u0421\u201a\u0420\u0406\u0420\u00b5\u0421\u201a\u0420\u0451\u0421\u201a\u0421\u040a?", qtype := "multiple_choice", options := some ["\u0420\u0408\u0421\u201a\u0420\u0455\u0421\u2021\u0420\u0405\u0420\u0451\u0421\u201a\u0421\u040a \u0420\u0457\u0421\u0402\u0420\u0451\u0420\u0455\u0421\u0402\u0420\u0451\u0421\u201a\u0420\u00b5\u0421\u201a, \u0420\u0457\u0420\u0455\u0420\u0454\u0420\u00b0\u0420\u00b7\u0420\u00b0\u0421\u201a\u0421\u040a \u0420\u0406\u0420\u00bb\u0420\u0451\u0421\u040f\u0420\u0405\u0420\u0451\u0420\u00b5 \u0420\u0405\u0420\u00b0 \u0421\u201a\u0420\u00b5\u0420\u0454\u0421\u0453\u0421\u2030\u0420\u0451\u0420\u2116 \u0420\u0457\u0420\u00bb\u0420\u00b0\u0420\u0405 \u0420\u0451 \u0420\u0457\u0421\u0402\u0420\u00b5\u0420\u0491\u0420\u00bb\u0420\u0455\u0420\u00b6\u0420\u0451\u0421\u201a\u0421\u040a \u0420\u0406\u0420\u00b0\u0421\u0402\u0420\u0451\u0420\u00b0\u0420\u0405\u0421\u201a\u0421\u2039", "\u0420\u040e\u0421\u0402\u0420\u00b0\u0420\u00b7\u0421\u0453 \u0421\u0403\u0420\u0455\u0420\u0456\u0420\u00bb\u0420\u00b0\u0421\u0403\u0420\u0451\u0421\u201a\u0421\u040a\u0421\u0403\u0421\u040f \u0420\u00b1\u0420\u00b5\u0420\u00b7 \u0420\u0457\u0420\u00b5\u0421\u0402\u0420\u00b5\u0421\u0403\u0420\u0458\u0420\u0455\u0421\u201a\u0421\u0402\u0420\u00b0 \u0420\u0457\u0420\u00bb\u0420\u00b0\u0420\u0405\u0420\u00b0", "\u0420\u045b\u0421\u201a\u0420\u0454\u0420\u00b0\u0420\u00b7\u0420\u00b0\u0421\u201a\u0421\u040a \u0420\u00b1\u0420\u00b5\u0420\u00b7 \u0420\u0455\u0420\u00b1\u0421\u0409\u0421\u040f\u0421\u0403\u0420\u0405\u0420\u00b5\u0420\u0405\u0420\u0451\u0420\u2116"] },
  { text := "\u0420\u2019\u0421\u2039 \u0420\u0406\u0420\u00b5\u0420\u0491\u0421\u2018\u0421\u201a\u0420\u00b5 \u0420\u0491\u0420\u0406\u0420\u00b5 \u0420\u0457\u0420\u00b0\u0421\u0402\u0420\u00b0\u0420\u00bb\u0420\u00bb\u0420\u00b5\u0420\u00bb\u0421\u040a\u0420\u0405\u0421\u2039\u0420\u00b5 \u0420\u00b7\u0420\u00b0\u0420\u0491\u0420\u00b0\u0421\u2021\u0420\u0451 \u0421\u0403 \u0420\u00b1\u0420\u00bb\u0420\u0451\u0420\u00b7\u0420\u0454\u0420\u0451\u0420\u0458\u0420\u0451 \u0420\u0491\u0420\u00b5\u0420\u0491\u0420\u00bb\u0420\u00b0\u0420\u2116\u0420\u0405\u0420\u00b0\u0420\u0458\u0420\u0451. \u0420\u00a7\u0421\u201a\u0420\u0455 \u0421\u040c\u0421\u201e\u0421\u201e\u0420\u00b5\u0420\u0454\u0421\u201a\u0420\u0451\u0420\u0406\u0420\u0405\u0420\u00b5\u0420\u00b5?", qtype := "multiple_choice", options := some ["\u0420\u00a0\u0420\u00b0\u0420\u00b7\u0420\u00b1\u0420\u0451\u0421\u201a\u0421\u040a \u0420\u00b7\u0420\u00b0\u0420\u0491\u0420\u00b0\u0421\u2021\u0420\u0451 \u0420\u0405\u0420\u00b0 \u0421\u040c\u0421\u201a\u0420\u00b0\u0420\u0457\u0421\u2039, \u0420\u0405\u0420\u00b0\u0420\u00b7\u0420\u0405\u0420\u00b0\u0421\u2021\u0420\u0451\u0421\u201a\u0421\u040a \u0420\u0457\u0421\u0402\u0420\u0451\u0420\u0455\u0421\u0402\u0420\u0451\u0421\u201a\u0420\u00b5\u0421\u201a\u0421\u2039 \u0420\u0451 \u0420\u0454\u0420\u0455\u0420\u0405\u0421\u201a\u0421\u0402\u0420\u0455\u0420\u00bb\u0421\u040a\u0420\u0405\u0421\u2039\u0420\u00b5 \u0421\u201a\u0420\u0455\u0421\u2021\u0420\u0454\u0420\u0451", "\u0420\u00a0\u0420\u00b0\u0420\u00b1\u0420\u0455\u0421\u201a\u0420\u00b0\u0421\u201a\u0421\u040a \u0421\u201a\u0420\u0455\u0420\u00bb\u0421\u040a\u0420\u0454\u0420\u0455 \u0420\u0405\u0420\u00b0\u0420\u0491 \u0420\u00b1\u0420\u0455\u0420\u00bb\u0420\u00b5\u0420\u00b5 \u0420\u0451\u0420\u0405\u0421\u201a\u0420\u00b5\u0421\u0402\u0420\u00b5\u0421\u0403\u0420\u0405\u0420\u0455\u0420\u2116 \u0420\u00b7\u0420\u00b0\u0420\u0491\u0420\u00b0\u0421\u2021\u0420\u00b5\u0420\u2116", "\u0420\u2013\u0420\u0491\u0420\u00b0\u0421\u201a\u0421\u040a, \u0420\u0457\u0420\u0455\u0420\u0454\u0420\u00b0 \u0420\u0454\u0421\u201a\u0420\u0455-\u0421\u201a\u0420\u0455 \u0420\u0455\u0420\u0457\u0421\u0402\u0420\u00b5\u0420\u0491\u0420\u00b5\u0420\u00bb\u0420\u0451\u0421\u201a \u0420\u0457\u0421\u0402\u0420\u0451\u0420\u0455\u0421\u0402\u0420\u0451\u0421\u201a\u0420\u00b5\u0421\u201a \u0420\u00b7\u0420\u00b0 \u0420\u0406\u0420\u00b0\u0421\u0403"] },
  { text := "\u0420\u040e\u0420\u0455\u0421\u201a\u0421\u0402\u0421\u0453\u0420\u0491\u0420\u0405\u0420\u0451\u0420\u0454 \u0420\u0406 \u0420\u0405\u0420\u00b0\u0420\u0457\u0421\u0402\u0421\u040f\u0420\u00b6\u0420\u00b5\u0420\u0405\u0420\u0451\u0420\u0451 \u0420\u0451 \u0420\u0455\u0421\u201a\u0420\u0406\u0420\u00b5\u0421\u2021\u0420\u00b0\u0420\u00b5\u0421\u201a \u0421\u0402\u0420\u00b5\u0420\u00b7\u0420\u0454\u0420\u0455. \u0420\u0459\u0420\u00b0\u0420\u0454 \u0420\u00bb\u0421\u0453\u0421\u2021\u0421\u20ac\u0420\u00b5 \u0420\u0455\u0421\u201a\u0421\u0402\u0420\u00b5\u0420\u00b0\u0420\u0456\u0420\u0451\u0421\u0402\u0420\u0455\u0420\u0406\u0420\u00b0\u0421\u201a\u0421\u040a?", qtype := "multiple_choice", options := some ["\u0420\u040e\u0420\u0455\u0421\u2026\u0421\u0402\u0420\u00b0\u0420\u0405\u0421\u040f\u0421\u201a\u0421\u040a \u0421\u0403\u0420\u0457\u0420\u0455\u0420\u0454\u0420\u0455\u0420\u2116\u0421\u0403\u0421\u201a\u0420\u0406\u0420\u0451\u0420\u00b5, \u0420\u0457\u0421\u0402\u0420\u0451\u0420\u00b7\u0420\u0405\u0420\u00b0\u0421\u201a\u0421\u040a \u0421\u040c\u0420\u0458\u0420\u0455\u0421\u2020\u0420\u0451\u0420\u0451 \u0420\u0451 \u0420\u0406\u0420\u00b5\u0421\u0402\u0420\u0405\u0421\u0453\u0421\u201a\u0421\u040a \u0421\u0402\u0420\u00b0\u0420\u00b7\u0420\u0456\u0420\u0455\u0420\u0406\u0420\u0455\u0421\u0402 \u0420\u0454 \u0421\u201e\u0420\u00b0\u0420\u0454\u0421\u201a\u0420\u00b0\u0420\u0458", "\u0420\u045b\u0421\u201a\u0420\u0406\u0420\u00b5\u0421\u201a\u0420\u0451\u0421\u201a\u0421\u040a \u0420\u0406 \u0421\u201a\u0420\u0455\u0420\u0458 \u0420\u00b6\u0420\u00b5 \u0421\u201a\u0420\u0455\u0420\u0405\u0420\u00b5", "\u0420\u045f\u0421\u0402\u0420\u00b5\u0421\u0402\u0420\u0406\u0420\u00b0\u0421\u201a\u0421\u040a \u0420\u0455\u0420\u00b1\u0421\u2030\u0420\u00b5\u0420\u0405\u0420\u0451\u0420\u00b5 \u0420\u0491\u0420\u0455 \u0420\u0454\u0420\u0455\u0420\u0405\u0421\u2020\u0420\u00b0 \u0420\u0491\u0420\u0405\u0421\u040f"] }]

def final_test_questions_beginner : List QuestionPayload :=
[  { text := "\u0420\u0459\u0420\u0455\u0420\u00bb\u0420\u00bb\u0420\u00b5\u0420\u0456\u0420\u00b0 \u0420\u0405\u0420\u00b5 \u0420\u0457\u0420\u0455\u0420\u0405\u0421\u040f\u0420\u00bb \u0420\u00b7\u0420\u00b0\u0420\u0491\u0420\u00b0\u0421\u2021\u0421\u0453 \u0420\u0451 \u0420\u00b7\u0420\u00b0\u0420\u0458\u0420\u00b5\u0421\u201a\u0420\u0405\u0420\u0455 \u0421\u0402\u0420\u00b0\u0420\u00b7\u0420\u0491\u0421\u0402\u0420\u00b0\u0420\u00b6\u0421\u2018\u0420\u0405. \u0420\u2019\u0420\u00b0\u0421\u20ac \u0421\u0403\u0420\u00b0\u0420\u0458\u0421\u2039\u0420\u2116 \u0420\u0457\u0420\u0455\u0420\u00bb\u0420\u00b5\u0420\u00b7\u0420\u0405\u0421\u2039\u0420\u2116 \u0420\u0457\u0420\u00b5\u0421\u0402\u0420\u0406\u0421\u2039\u0420\u2116 \u0421\u20ac\u0420\u00b0\u0420\u0456?", qtype := "multiple_choice", options := some ["\u0420\u040e\u0420\u0457\u0420\u0455\u0420\u0454\u0420\u0455\u0420\u2116\u0420\u0405\u0420\u0455 \u0421\u0453\u0421\u201a\u0420\u0455\u0421\u2021\u0420\u0405\u0420\u0451\u0421\u201a\u0421\u040a \u0421\u2020\u0420\u00b5\u0420\u00bb\u0421\u040a \u0420\u0451 \u0420\u0457\u0420\u00b5\u0421\u0402\u0420\u00b5\u0421\u201e\u0420\u0455\u0421\u0402\u0420\u0458\u0421\u0453\u0420\u00bb\u0420\u0451\u0421\u0402\u0420\u0455\u0420\u0406\u0420\u00b0\u0421\u201a\u0421\u040a \u0420\u00b7\u0420\u00b0\u0420\u0491\u0420\u00b0\u0421\u2021\u0421\u0453 \u0420\u0457\u0421\u0402\u0420\u0455\u0421\u0403\u0421\u201a\u0421\u2039\u0420\u0458\u0420\u0451 \u0421\u20ac\u0420\u00b0\u0420\u0456\u0420\u00b0\u0420\u0458\u0420\u0451", "\u0420\u040e\u0421\u0402\u0420\u00b0\u0420\u00b7\u0421\u0453 \u0420\u0457\u0420\u00b5\u0421\u0402\u0420\u00b5\u0420\u0491\u0420\u00b0\u0421\u201a\u0421\u040a \u0420\u00b7\u0420\u00b0\u0420\u0491\u0420\u00b0\u0421\u2021\u0421\u0453 \u0420\u0491\u0421\u0402\u0421\u0453\u0420\u0456\u0420\u0455\u0420\u0458\u0421\u0453 \u0421\u2021\u0420\u00b5\u0420\u00bb\u0420\u0455\u0420\u0406\u0420\u00b5\u0420\u0454\u0421\u0453", "\u0420\u0098\u0420\u0456\u0420\u0405\u0420\u0455\u0421\u0402\u0420\u0451\u0421\u0402\u0420\u0455\u0420\u0406\u0420\u00b0\u0421\u201a\u0421\u040a \u0421\u040c\u0420\u0458\u0420\u0455\u0421\u2020\u0420\u0451\u0420\u0451 \u0420\u0451 \u0421\u201a\u0421\u0402\u0420\u00b5\u0420\u00b1\u0420\u0455\u0420\u0406\u0420\u00b0\u0421\u201a\u0421\u040a \u0420\u00b1\u0421\u2039\u0421\u0403\u0421\u201a\u0421\u0402\u0421\u2039\u0420\u2116 \u0421\u0402\u0420\u00b5\u0420\u00b7\u0421\u0453\u0420\u00bb\u0421\u040a\u0421\u201a\u0420\u00b0\u0421\u201a"] },
  { text := "\u0420\u0459\u0420\u00b0\u0420\u0454 \u0420\u00bb\u0421\u0453\u0421\u2021\u0421\u20ac\u0420\u00b5 \u0421\u0402\u0420\u00b0\u0421\u0403\u0420\u0457\u0421\u0402\u0420\u00b5\u0420\u0491\u0420\u00b5\u0420\u00bb\u0420\u0451\u0421\u201a\u0421\u040a \u0421\u0402\u0420\u00b0\u0420\u00b1\u0420\u0455\u0421\u2021\u0420\u0451\u0420\u00b5 \u0420\u00b7\u0420\u00b0\u0420\u0491\u0420\u00b0\u0421\u2021\u0420\u0451 \u0420\u0405\u0420\u00b0 \u0420\u0491\u0420\u00b5\u0420\u0405\u0421\u040a?", qtype := "multiple_choice", options := some ["\u0420\u045b\u0420\u0457\u0421\u0402\u0420\u00b5\u0420\u0491\u0420\u00b5\u0420\u00bb\u0420\u0451\u0421\u201a\u0421\u040a \u0420\u0457\u0421\u0402\u0420\u0451\u0420\u0455\u0421\u0402\u0420\u0451\u0421\u201a\u0420\u00b5\u0421\u201a\u0421\u2039 \u0420\u0451 \u0420\u0455\u0421\u2020\u0420\u00b5\u0420\u0405\u0420\u0451\u0421\u201a\u0421\u040a \u0420\u0406\u0421\u0402\u0420\u00b5\u0420\u0458\u0421\u040f \u0420\u0405\u0420\u00b0 \u0420\u0454\u0420\u00b0\u0420\u00b6\u0420\u0491\u0421\u0453\u0421\u040b \u0420\u00b7\u0420\u00b0\u0420\u0491\u0420\u00b0\u0421\u2021\u0421\u0453", "\u0420\u045c\u0420\u00b0\u0421\u2021\u0420\u0451\u0420\u0405\u0420\u00b0\u0421\u201a\u0421\u040a \u0421\u201a\u0420\u0455\u0420\u00bb\u0421\u040a\u0420\u0454\u0420\u0455 \u0421\u0403 \u0421\u0403\u0420\u00b0\u0420\u0458\u0421\u2039\u0421\u2026 \u0420\u00bb\u0421\u2018\u0420\u0456\u0420\u0454\u0420\u0451\u0421\u2026 \u0420\u00b7\u0420\u00b0\u0420\u0491\u0420\u00b0\u0421\u2021", "\u0420\u201d\u0420\u00b5\u0420\u00bb\u0420\u00b0\u0421\u201a\u0421\u040a \u0420\u00b7\u0420\u00b0\u0420\u0491\u0420\u00b0\u0421\u2021\u0420\u0451 \u0420\u0406 \u0421\u0403\u0420\u00bb\u0421\u0453\u0421\u2021\u0420\u00b0\u0420\u2116\u0420\u0405\u0420\u0455\u0420\u0458 \u0420\u0457\u0420\u0455\u0421\u0402\u0421\u040f\u0420\u0491\u0420\u0454\u0420\u00b5"] },
  { text := "\u0420\u0459\u0420\u00bb\u0420\u0451\u0420\u00b5\u0420\u0405\u0421\u201a \u0420\u0457\u0421\u0402\u0420\u0455\u0421\u0403\u0420\u0451\u0421\u201a \u0420\u0406\u0420\u0405\u0420\u00b5\u0421\u0403\u0421\u201a\u0420\u0451 \u0420\u0451\u0420\u00b7\u0420\u0458\u0420\u00b5\u0420\u0405\u0420\u00b5\u0420\u0405\u0420\u0451\u0421\u040f \u0420\u0406 \u0420\u0457\u0420\u0455\u0421\u0403\u0420\u00bb\u0420\u00b5\u0420\u0491\u0420\u0405\u0420\u0451\u0420\u2116 \u0420\u0458\u0420\u0455\u0420\u0458\u0420\u00b5\u0420\u0405\u0421\u201a. \u0420\u0459\u0420\u00b0\u0420\u0454 \u0420\u0491\u0420\u00b5\u0420\u2116\u0421\u0403\u0421\u201a\u0420\u0406\u0420\u0455\u0420\u0406\u0420\u00b0\u0421\u201a\u0421\u040a?", qtype := "multiple_choice", options := some ["\u0420\u0408\u0421\u201a\u0420\u0455\u0421\u2021\u0420\u0405\u0420\u0451\u0421\u201a\u0421\u040a \u0421\u201a\u0421\u0402\u0420\u00b5\u0420\u00b1\u0420\u0455\u0420\u0406\u0420\u00b0\u0420\u0405\u0420\u0451\u0421\u040f, \u0420\u0406\u0420\u00bb\u0420\u0451\u0421\u040f\u0420\u0405\u0420\u0451\u0420\u00b5 \u0420\u0405\u0420\u00b0 \u0421\u0403\u0421\u0402\u0420\u0455\u0420\u0454\u0420\u0451 \u0420\u0451 \u0421\u0403\u0420\u0455\u0420\u0456\u0420\u00bb\u0420\u00b0\u0421\u0403\u0420\u0455\u0420\u0406\u0420\u00b0\u0421\u201a\u0421\u040a \u0421\u0402\u0420\u00b5\u0420\u00b0\u0420\u00bb\u0420\u0451\u0421\u0403\u0421\u201a\u0420\u0451\u0421\u2021\u0420\u0405\u0421\u2039\u0420\u2116 \u0420\u0406\u0420\u00b0\u0421\u0402\u0420\u0451\u0420\u00b0\u0420\u0405\u0421\u201a", "\u0420\u040e\u0421\u0402\u0420\u00b0\u0420\u00b7\u0421\u0453 \u0421\u0403\u0420\u0455\u0420\u0456\u0420\u00bb\u0420\u00b0\u0421\u0403\u0420\u0451\u0421\u201a\u0421\u040a\u0421\u0403\u0421\u040f \u0420\u00b1\u0420\u00b5\u0420\u00b7 \u0421\u0453\u0421\u201a\u0420\u0455\u0421\u2021\u0420\u0405\u0420\u00b5\u0420\u0405\u0420\u0451\u0420\u2116", "\u0420\u040e\u0421\u0402\u0420\u00b0\u0420\u00b7\u0421\u0453 \u0420\u0455\u0421\u201a\u0420\u0454\u0420\u00b0\u0420\u00b7\u0420\u00b0\u0421\u201a\u0421\u040a\u0421\u0403\u0421\u040f \u0420\u00b1\u0420\u00b5\u0420\u00b7 \u0420\u0455\u0420\u00b1\u0421\u0403\u0421\u0453\u0420\u00b6\u0420\u0491\u0420\u00b5\u0420\u0405\u0420\u0451\u0421\u040f"] },
  { text := "\u0420\u2019 \u0420\u0454\u0420\u0455\u0420\u0458\u0420\u00b0\u0420\u0405\u0420\u0491\u0420\u00b5 \u0420\u0406\u0420\u0455\u0420\u00b7\u0420\u0405\u0420\u0451\u0420\u0454\u0420\u00bb\u0420\u0455 \u0420\u0405\u0420\u00b0\u0420\u0457\u0421\u0402\u0421\u040f\u0420\u00b6\u0420\u00b5\u0420\u0405\u0420\u0451\u0420\u00b5. \u0420\u00a7\u0421\u201a\u0420\u0455 \u0420\u0457\u0420\u0455\u0420\u0458\u0420\u0455\u0420\u0456\u0420\u00b0\u0420\u00b5\u0421\u201a \u0421\u0403\u0420\u0405\u0420\u0451\u0420\u00b7\u0420\u0451\u0421\u201a\u0421\u040a \u0420\u0454\u0420\u0455\u0420\u0405\u0421\u201e\u0420\u00bb\u0420\u0451\u0420\u0454\u0421\u201a?", qtype := "multiple_choice", options := some ["\u0420\u2019\u0421\u2039\u0421\u0403\u0420\u00bb\u0421\u0453\u0421\u20ac\u0420\u00b0\u0421\u201a\u0421\u040a \u0420\u0455\u0420\u00b1\u0420\u00b5 \u0421\u0403\u0421\u201a\u0420\u0455\u0421\u0402\u0420\u0455\u0420\u0405\u0421\u2039 \u0420\u0451 \u0420\u00b7\u0420\u00b0\u0421\u201e\u0420\u0451\u0420\u0454\u0421\u0403\u0420\u0451\u0421\u0402\u0420\u0455\u0420\u0406\u0420\u00b0\u0421\u201a\u0421\u040a \u0420\u0491\u0420\u0455\u0420\u0456\u0420\u0455\u0420\u0406\u0420\u0455\u0421\u0402\u0421\u2018\u0420\u0405\u0420\u0405\u0420\u0455\u0421\u0403\u0421\u201a\u0420\u0451", "\u0420\u045c\u0420\u00b0\u0420\u00b7\u0420\u0405\u0420\u00b0\u0421\u2021\u0420\u0451\u0421\u201a\u0421\u040a \u0420\u0406\u0420\u0451\u0420\u0405\u0420\u0455\u0420\u0406\u0420\u0405\u0420\u0455\u0420\u0456\u0420\u0455 \u0420\u00b1\u0420\u00b5\u0420\u00b7 \u0421\u0402\u0420\u00b0\u0420\u00b7\u0420\u00b1\u0420\u0455\u0421\u0402\u0420\u00b0 \u0421\u0403\u0420\u0451\u0421\u201a\u0421\u0453\u0420\u00b0\u0421\u2020\u0420\u0451\u0420\u0451", "\u0420\u040e\u0420\u0491\u0420\u00b5\u0420\u00bb\u0420\u00b0\u0421\u201a\u0421\u040a \u0420\u0406\u0420\u0451\u0420\u0491, \u0421\u2021\u0421\u201a\u0420\u0455 \u0420\u0457\u0421\u0402\u0420\u0455\u0420\u00b1\u0420\u00bb\u0420\u00b5\u0420\u0458\u0421\u2039 \u0420\u0405\u0420\u00b5\u0421\u201a"] }]

-- String constants of is_final_title, in source order of appearance.
def is_final_c0 : String := "[final]"
def is_final_c1 : String := "\u0420\u0451\u0421\u201a\u0420\u0455\u0420\u0456\u0420\u0455\u0420\u0406\u0421\u2039\u0420\u2116 \u0421\u201a\u0420\u00b5\u0421\u0403\u0421\u201a ("
def is_final_c2 : String := "\u0420\u0451\u0421\u201a\u0420\u0455\u0420\u0456\u0420\u0455\u0420\u0406\u0420\u00b0\u0421\u040f \u0421\u0402\u0420\u0455\u0420\u00bb\u0420\u00b5\u0420\u0406\u0420\u00b0\u0421\u040f \u0420\u0451\u0420\u0456\u0421\u0402\u0420\u00b0 ("
def is_final_c3 : String := "final test ("
def is_final_c4 : String := "final simulation ("
def is_final_c5 : String := "\u0421\u201e\u0420\u0451\u0420\u0405\u0420\u00b0\u0420\u00bb\u0421\u040a\u0420\u0405\u0420\u00b0\u0421\u040f \u0420\u0457\u0421\u0402\u0420\u0455\u0420\u0406\u0420\u00b5\u0421\u0402\u0420\u0454\u0420\u00b0 \u0421\u0453\u0421\u0402\u0420\u0455\u0420\u0406\u0420\u0405\u0421\u040f"
def is_final_c6 : String := "\u0421\u201e\u0420\u0451\u0420\u0405\u0420\u00b0\u0420\u00bb\u0421\u040a\u0420\u0405\u0420\u00b0\u0421\u040f \u0421\u0402\u0420\u0455\u0420\u00bb\u0420\u00b5\u0420\u0406\u0420\u00b0\u0421\u040f \u0420\u0451\u0420\u0456\u0421\u0402\u0420\u00b0 \u0421\u0453\u0421\u0402\u0420\u0455\u0420\u0406\u0420\u0405\u0421\u040f"

def difficulty_ru_advanced : String := "\u0420\u00a0\u0421\u2014\u0420\u040e\u0420\u201a\u0420\u00a0\u0421\u2022\u0420\u00a0\u0422\u2018\u0420\u00a0\u0420\u2020\u0420\u00a0\u0421\u2018\u0420\u00a0\u0420\u2026\u0420\u040e\u0421\u201c\u0420\u040e\u0432\u0402\u0459\u0420\u040e\u0432\u0402\u2116\u0420\u00a0\u0432\u201e\u2013"
def difficulty_ru_intermediate : String := "\u0420\u040e\u0420\u0453\u0420\u040e\u0420\u201a\u0420\u00a0\u0412\u00b5\u0420\u00a0\u0422\u2018\u0420\u00a0\u0420\u2026\u0420\u00a0\u0421\u2018\u0420\u00a0\u0432\u201e\u2013"
def difficulty_ru_beginner : String := "\u0420\u00a0\u0420\u2026\u0420\u00a0\u0412\u00b0\u0420\u040e\u0432\u0402\u040e\u0420\u00a0\u0412\u00b0\u0420\u00a0\u0412\u00bb\u0420\u040e\u0420\u0409\u0420\u00a0\u0420\u2026\u0420\u040e\u0432\u0402\u2116\u0420\u00a0\u0432\u201e\u2013"

-- f-string of build_block_achievement_title: prefix, then the label, then suffix.
def block_achievement_title_pre : String := "\u0420\u00a0\u0421\u045f\u0420\u040e\u0420\u201a\u0420\u00a0\u0421\u2022\u0420\u00a0\u0432\u201e\u2013\u0420\u00a0\u0422\u2018\u0420\u00a0\u0412\u00b5\u0420\u00a0\u0420\u2026 \u0420\u00a0\u0421\u2014\u0420\u00a0\u0412\u00b5\u0420\u040e\u0420\u201a\u0420\u00a0\u0420\u2020\u0420\u040e\u0432\u0402\u2116\u0420\u00a0\u0432\u201e\u2013 "
def block_achievement_title_suf : String := " \u0420\u00a0\u0412\u00b1\u0420\u00a0\u0412\u00bb\u0420\u00a0\u0421\u2022\u0420\u00a0\u0421\u201d"

-- weakness_to_skill match fragments, in source order:
def wk_frag0 : String := ""
def wk_frag1 : String := "\u0420\u040e\u0432\u0402\u0459\u0420\u00a0\u0412\u00b0\u0420\u00a0\u0432\u201e\u2013\u0420\u00a0\u0421\u0098"
def wk_frag2 : String := "\u0420\u00a0\u0420\u2020\u0420\u040e\u0420\u201a\u0420\u00a0\u0412\u00b5\u0420\u00a0\u0421\u0098\u0420\u00a0\u0412\u00b5\u0420\u00a0\u0420\u2026"
def wk_frag3 : String := "time_management"
def wk_frag4 : String := "\u0420\u00a0\u0421\u201d\u0420\u040e\u0420\u201a\u0420\u00a0\u0421\u2018\u0420\u040e\u0432\u0402\u0459"
def wk_frag5 : String := "critical_thinking"
def wk_frag6 : String := "\u0420\u00a0\u0421\u201d\u0420\u00a0\u0421\u2022\u0420\u00a0\u0421\u0098\u0420\u00a0\u0421\u0098\u0420\u040e\u0421\u201c\u0420\u00a0\u0420\u2026\u0420\u00a0\u0421\u2018\u0420\u00a0\u0421\u201d"
def wk_frag7 : String := "\u0420\u00a0\u0421\u2022\u0420\u00a0\u0412\u00b1\u0420\u040e\u0432\u0402\u00b0\u0420\u00a0\u0412\u00b5\u0420\u00a0\u0420\u2026"
def wk_frag8 : String := "communication"
def wk_frag9 : String := "\u0420\u040e\u0420\u040a\u0420\u00a0\u0421\u0098\u0420\u00a0\u0421\u2022\u0420\u040e\u0432\u0402\u00a0\u0420\u00a0\u0421\u2018\u0420\u00a0\u0421\u2022\u0420\u00a0\u0420\u2026"
def wk_frag10 : String := "emotional_intelligence"
def wk_frag11 : String := "\u0420\u00a0\u0412\u00bb\u0420\u00a0\u0421\u2018\u0420\u00a0\u0422\u2018\u0420\u00a0\u0412\u00b5\u0420\u040e\u0420\u201a"
def wk_frag12 : String := "leadership"

-- The static curated material catalog (25 entries).
def curated_material_library : List LibEntry :=
[  { id := "ru_4brain_comm_communication", title := "\u0420\u00a0\u0412\u00ad\u0420\u040e\u0432\u0402\u045b\u0420\u040e\u0432\u0402\u045b\u0420\u00a0\u0412\u00b5\u0420\u00a0\u0421\u201d\u0420\u040e\u0432\u0402\u0459\u0420\u00a0\u0421\u2018\u0420\u00a0\u0420\u2020\u0420\u00a0\u0420\u2026\u0420\u00a0\u0421\u2022\u0420\u00a0\u0412\u00b5 \u0420\u00a0\u0421\u2022\u0420\u00a0\u0412\u00b1\u0420\u040e\u0432\u0402\u00b0\u0420\u00a0\u0412\u00b5\u0420\u00a0\u0420\u2026\u0420\u00a0\u0421\u2018\u0420\u00a0\u0412\u00b5: \u0420\u00a0\u0420\u2020\u0420\u00a0\u0412\u00b5\u0420\u040e\u0420\u201a\u0420\u00a0\u0412\u00b1\u0420\u00a0\u0412\u00b0\u0420\u00a0\u0412\u00bb\u0420\u040e\u0420\u0409\u0420\u00a0\u0420\u2026\u0420\u00a0\u0412\u00b0\u0420\u040e\u0420\u040f \u0420\u00a0\u0421\u2018 \u0420\u00a0\u0420\u2026\u0420\u00a0\u0412\u00b5\u0420\u00a0\u0420\u2020\u0420\u00a0\u0412\u00b5\u0420\u040e\u0420\u201a\u0420\u00a0\u0412\u00b1\u0420\u00a0\u0412\u00b0\u0420\u00a0\u0412\u00bb\u0420\u040e\u0420\u0409\u0420\u00a0\u0420\u2026\u0420\u00a0\u0412\u00b0\u0420\u040e\u0420\u040f \u0420\u00a0\u0421\u201d\u0420\u00a0\u0421\u2022\u0420\u00a0\u0421\u0098\u0420\u00a0\u0421\u0098\u0420\u040e\u0421\u201c\u0420\u00a0\u0420\u2026\u0420\u00a0\u0421\u2018\u0420\u00a0\u0421\u201d\u0420\u00a0\u0412\u00b0\u0420\u040e\u0432\u0402\u00a0\u0420\u00a0\u0421\u2018\u0420\u040e\u0420\u040f", url := "https://4brain.ru/management/communication.php", mtype := "article", skill := "communication" },
  { id := "ru_4brain_comm_nonverbal", title := "\u0420\u00a0\u0421\u045a\u0420\u00a0\u0412\u00b5\u0420\u00a0\u0420\u2020\u0420\u00a0\u0412\u00b5\u0420\u040e\u0420\u201a\u0420\u00a0\u0412\u00b1\u0420\u00a0\u0412\u00b0\u0420\u00a0\u0412\u00bb\u0420\u040e\u0420\u0409\u0420\u00a0\u0420\u2026\u0420\u00a0\u0412\u00b0\u0420\u040e\u0420\u040f \u0420\u00a0\u0421\u201d\u0420\u00a0\u0421\u2022\u0420\u00a0\u0421\u0098\u0420\u00a0\u0421\u0098\u0420\u040e\u0421\u201c\u0420\u00a0\u0420\u2026\u0420\u00a0\u0421\u2018\u0420\u00a0\u0421\u201d\u0420\u00a0\u0412\u00b0\u0420\u040e\u0432\u0402\u00a0\u0420\u00a0\u0421\u2018\u0420\u040e\u0420\u040f", url := "https://4brain.ru/nonverbal/", mtype := "article", skill := "communication" },
  { id := "ru_4brain_comm_listening", title := "\u0420\u00a0\u0421\u045b\u0420\u00a0\u0412\u00b5\u0420\u040e\u0432\u0402\u00a6\u0420\u00a0\u0420\u2026\u0420\u00a0\u0421\u2018\u0420\u00a0\u0421\u201d\u0420\u00a0\u0421\u2018 \u0420\u00a0\u0412\u00b0\u0420\u00a0\u0421\u201d\u0420\u040e\u0432\u0402\u0459\u0420\u00a0\u0421\u2018\u0420\u00a0\u0420\u2020\u0420\u00a0\u0420\u2026\u0420\u00a0\u0421\u2022\u0420\u00a0\u0421\u2013\u0420\u00a0\u0421\u2022 (\u0420\u00a0\u0421\u2013\u0420\u00a0\u0412\u00bb\u0420\u040e\u0421\u201c\u0420\u00a0\u0412\u00b1\u0420\u00a0\u0421\u2022\u0420\u00a0\u0421\u201d\u0420\u00a0\u0421\u2022\u0420\u00a0\u0421\u2013\u0420\u00a0\u0421\u2022) \u0420\u040e\u0420\u0453\u0420\u00a0\u0412\u00bb\u0420\u040e\u0421\u201c\u0420\u040e\u0432\u201a\u00ac\u0420\u00a0\u0412\u00b0\u0420\u00a0\u0420\u2026\u0420\u00a0\u0421\u2018\u0420\u040e\u0420\u040f", url := "https://4brain.ru/blog/glubokoe-slushanie/", mtype := "article", skill := "communication" },
  { id := "ru_4brain_comm_negotiation", title := "\u0420\u00a0\u0432\u0402\u2122\u0420\u00a0\u0412\u00b5\u0420\u00a0\u0422\u2018\u0420\u00a0\u0412\u00b5\u0420\u00a0\u0420\u2026\u0420\u00a0\u0421\u2018\u0420\u00a0\u0412\u00b5 \u0420\u00a0\u0421\u2014\u0420\u00a0\u0412\u00b5\u0420\u040e\u0420\u201a\u0420\u00a0\u0412\u00b5\u0420\u00a0\u0421\u2013\u0420\u00a0\u0421\u2022\u0420\u00a0\u0420\u2020\u0420\u00a0\u0421\u2022\u0420\u040e\u0420\u201a\u0420\u00a0\u0421\u2022\u0420\u00a0\u0420\u2020: \u0420\u00a0\u0421\u2022\u0420\u040e\u0420\u0453\u0420\u00a0\u0420\u2026\u0420\u00a0\u0421\u2022\u0420\u00a0\u0420\u2020\u0420\u040e\u0432\u0402\u2116 \u0420\u00a0\u0421\u2018 \u0420\u040e\u0420\u0453\u0420\u040e\u0432\u0402\u0459\u0420\u040e\u0420\u201a\u0420\u040e\u0421\u201c\u0420\u00a0\u0421\u201d\u0420\u040e\u0432\u0402\u0459\u0420\u040e\u0421\u201c\u0420\u040e\u0420\u201a\u0420\u00a0\u0412\u00b0", url := "https://4brain.ru/peregovory/", mtype := "article", skill := "communication" },
  { id := "ru_4brain_comm_rhetoric", title := "\u0420\u00a0\u0421\u203a\u0420\u040e\u0420\u201a\u0420\u00a0\u0412\u00b0\u0420\u040e\u0432\u0402\u0459\u0420\u00a0\u0421\u2022\u0420\u040e\u0420\u201a\u0420\u040e\u0420\u0453\u0420\u00a0\u0421\u201d\u0420\u00a0\u0421\u2022\u0420\u00a0\u0412\u00b5 \u0420\u00a0\u0421\u2018\u0420\u040e\u0420\u0453\u0420\u00a0\u0421\u201d\u0420\u040e\u0421\u201c\u0420\u040e\u0420\u0453\u0420\u040e\u0420\u0453\u0420\u040e\u0432\u0402\u0459\u0420\u00a0\u0420\u2020\u0420\u00a0\u0421\u2022: \u0420\u040e\u0421\u201c\u0420\u040e\u0420\u201a\u0420\u00a0\u0421\u2022\u0420\u00a0\u0421\u201d\u0420\u00a0\u0421\u2018 \u0420\u040e\u0420\u201a\u0420\u00a0\u0421\u2018\u0420\u040e\u0432\u0402\u0459\u0420\u00a0\u0421\u2022\u0420\u040e\u0420\u201a\u0420\u00a0\u0421\u2018\u0420\u00a0\u0421\u201d\u0420\u00a0\u0421\u2018", url := "https://4brain.ru/oratorskoe-iskusstvo/", mtype := "article", skill := "communication" },
  { id := "ru_stepik_comm_effective", title := "\u0420\u00a0\u0421\u045a\u0420\u00a0\u0412\u00b0\u0420\u00a0\u0420\u2020\u0420\u040e\u0432\u0402\u2116\u0420\u00a0\u0421\u201d\u0420\u00a0\u0421\u2018 \u0420\u040e\u0420\u040a\u0420\u040e\u0432\u0402\u045b\u0420\u040e\u0432\u0402\u045b\u0420\u00a0\u0412\u00b5\u0420\u00a0\u0421\u201d\u0420\u040e\u0432\u0402\u0459\u0420\u00a0\u0421\u2018\u0420\u00a0\u0420\u2020\u0420\u00a0\u0420\u2026\u0420\u00a0\u0421\u2022\u0420\u00a0\u0432\u201e\u2013 \u0420\u00a0\u0421\u201d\u0420\u00a0\u0421\u2022\u0420\u00a0\u0421\u0098\u0420\u00a0\u0421\u0098\u0420\u040e\u0421\u201c\u0420\u00a0\u0420\u2026\u0420\u00a0\u0421\u2018\u0420\u00a0\u0421\u201d\u0420\u00a0\u0412\u00b0\u0420\u040e\u0432\u0402\u00a0\u0420\u00a0\u0421\u2018\u0420\u00a0\u0421\u2018", url := "https://stepik.org/course/205042/promo", mtype := "course", skill := "communication" },
  { id := "ru_stepik_comm_business", title := "\u0420\u00a0\u0432\u0402\u045c\u0420\u00a0\u0412\u00b5\u0420\u00a0\u0412\u00bb\u0420\u00a0\u0421\u2022\u0420\u00a0\u0420\u2020\u0420\u040e\u0432\u0402\u2116\u0420\u00a0\u0412\u00b5 \u0420\u00a0\u0421\u201d\u0420\u00a0\u0421\u2022\u0420\u00a0\u0421\u0098\u0420\u00a0\u0421\u0098\u0420\u040e\u0421\u201c\u0420\u00a0\u0420\u2026\u0420\u00a0\u0421\u2018\u0420\u00a0\u0421\u201d\u0420\u00a0\u0412\u00b0\u0420\u040e\u0432\u0402\u00a0\u0420\u00a0\u0421\u2018\u0420\u00a0\u0421\u2018", url := "https://stepik.org/course/87737/promo", mtype := "course", skill := "communication" },
  { id := "ru_openedu_teamwork", title := "\u0420\u00a0\u0421\u2122\u0420\u00a0\u0421\u2022\u0420\u00a0\u0421\u0098\u0420\u00a0\u0412\u00b0\u0420\u00a0\u0420\u2026\u0420\u00a0\u0422\u2018\u0420\u00a0\u0420\u2026\u0420\u00a0\u0412\u00b0\u0420\u040e\u0420\u040f \u0420\u040e\u0420\u201a\u0420\u00a0\u0412\u00b0\u0420\u00a0\u0412\u00b1\u0420\u00a0\u0421\u2022\u0420\u040e\u0432\u0402\u0459\u0420\u00a0\u0412\u00b0", url := "https://openedu.ru/course/ITMOUniversity/TEAMWORK/", mtype := "course", skill := "communication" },
  { id := "ru_4brain_ei_base", title := "\u0420\u00a0\u0412\u00ad\u0420\u00a0\u0421\u0098\u0420\u00a0\u0421\u2022\u0420\u040e\u0432\u0402\u00a0\u0420\u00a0\u0421\u2018\u0420\u00a0\u0421\u2022\u0420\u00a0\u0420\u2026\u0420\u00a0\u0412\u00b0\u0420\u00a0\u0412\u00bb\u0420\u040e\u0420\u0409\u0420\u00a0\u0420\u2026\u0420\u040e\u0432\u0402\u2116\u0420\u00a0\u0432\u201e\u2013 \u0420\u00a0\u0421\u2018\u0420\u00a0\u0420\u2026\u0420\u040e\u0432\u0402\u0459\u0420\u00a0\u0412\u00b5\u0420\u00a0\u0412\u00bb\u0420\u00a0\u0412\u00bb\u0420\u00a0\u0412\u00b5\u0420\u00a0\u0421\u201d\u0420\u040e\u0432\u0402\u0459: \u0420\u00a0\u0421\u2022\u0420\u040e\u0420\u0453\u0420\u00a0\u0420\u2026\u0420\u00a0\u0421\u2022\u0420\u00a0\u0420\u2020\u0420\u040e\u0432\u0402\u2116 \u0420\u00a0\u0421\u2018 \u0420\u040e\u0421\u201c\u0420\u00a0\u0421\u2014\u0420\u040e\u0420\u201a\u0420\u00a0\u0412\u00b0\u0420\u00a0\u0412\u00b6\u0420\u00a0\u0420\u2026\u0420\u00a0\u0412\u00b5\u0420\u00a0\u0420\u2026\u0420\u00a0\u0421\u2018\u0420\u040e\u0420\u040f", url := "https://4brain.ru/emotion/", mtype := "article", skill := "emotional_intelligence" },
  { id := "ru_4brain_ei_article", title := "\u0420\u00a0\u0421\u2122\u0420\u00a0\u0412\u00b0\u0420\u00a0\u0421\u201d \u0420\u040e\u0420\u201a\u0420\u00a0\u0412\u00b0\u0420\u00a0\u0412\u00b7\u0420\u00a0\u0420\u2020\u0420\u00a0\u0421\u2018\u0420\u040e\u0432\u0402\u0459\u0420\u040e\u0420\u0409 \u0420\u040e\u0420\u040a\u0420\u00a0\u0421\u0098\u0420\u00a0\u0421\u2022\u0420\u040e\u0432\u0402\u00a0\u0420\u00a0\u0421\u2018\u0420\u00a0\u0421\u2022\u0420\u00a0\u0420\u2026\u0420\u00a0\u0412\u00b0\u0420\u00a0\u0412\u00bb\u0420\u040e\u0420\u0409\u0420\u00a0\u0420\u2026\u0420\u040e\u0432\u0402\u2116\u0420\u00a0\u0432\u201e\u2013 \u0420\u00a0\u0421\u2018\u0420\u00a0\u0420\u2026\u0420\u040e\u0432\u0402\u0459\u0420\u00a0\u0412\u00b5\u0420\u00a0\u0412\u00bb\u0420\u00a0\u0412\u00bb\u0420\u00a0\u0412\u00b5\u0420\u00a0\u0421\u201d\u0420\u040e\u0432\u0402\u0459", url := "https://4brain.ru/blog/emotional-intellect/", mtype := "article", skill := "emotional_intelligence" },
  { id := "ru_stepik_ei", title := "\u0420\u00a0\u0412\u00ad\u0420\u00a0\u0421\u0098\u0420\u00a0\u0421\u2022\u0420\u040e\u0432\u0402\u00a0\u0420\u00a0\u0421\u2018\u0420\u00a0\u0421\u2022\u0420\u00a0\u0420\u2026\u0420\u00a0\u0412\u00b0\u0420\u00a0\u0412\u00bb\u0420\u040e\u0420\u0409\u0420\u00a0\u0420\u2026\u0420\u040e\u0432\u0402\u2116\u0420\u00a0\u0432\u201e\u2013 \u0420\u00a0\u0421\u2018\u0420\u00a0\u0420\u2026\u0420\u040e\u0432\u0402\u0459\u0420\u00a0\u0412\u00b5\u0420\u00a0\u0412\u00bb\u0420\u00a0\u0412\u00bb\u0420\u00a0\u0412\u00b5\u0420\u00a0\u0421\u201d\u0420\u040e\u0432\u0402\u0459: \u0420\u00a0\u0421\u201d\u0420\u00a0\u0412\u00bb\u0420\u040e\u0420\u2039\u0420\u040e\u0432\u0402\u040e \u0420\u00a0\u0421\u201d \u0420\u040e\u0421\u201c\u0420\u040e\u0420\u0453\u0420\u00a0\u0421\u2014\u0420\u00a0\u0412\u00b5\u0420\u040e\u0432\u0402\u00a6\u0420\u040e\u0421\u201c", url := "https://stepik.org/course/133690/promo", mtype := "course", skill := "emotional_intelligence" },
  { id := "ru_4brain_ct_base", title := "\u0420\u00a0\u0421\u2122\u0420\u040e\u0420\u201a\u0420\u00a0\u0421\u2018\u0420\u040e\u0432\u0402\u0459\u0420\u00a0\u0421\u2018\u0420\u040e\u0432\u0402\u040e\u0420\u00a0\u0412\u00b5\u0420\u040e\u0420\u0453\u0420\u00a0\u0421\u201d\u0420\u00a0\u0421\u2022\u0420\u00a0\u0412\u00b5 \u0420\u00a0\u0421\u0098\u0420\u040e\u0432\u0402\u2116\u0420\u040e\u0432\u201a\u00ac\u0420\u00a0\u0412\u00bb\u0420\u00a0\u0412\u00b5\u0420\u00a0\u0420\u2026\u0420\u00a0\u0421\u2018\u0420\u00a0\u0412\u00b5: \u0420\u040e\u0432\u0402\u040e\u0420\u040e\u0432\u0402\u0459\u0420\u00a0\u0421\u2022 \u0420\u040e\u0420\u040a\u0420\u040e\u0432\u0402\u0459\u0420\u00a0\u0421\u2022 \u0420\u00a0\u0421\u2018 \u0420\u00a0\u0421\u201d\u0420\u00a0\u0412\u00b0\u0420\u00a0\u0421\u201d \u0420\u040e\u0420\u201a\u0420\u00a0\u0412\u00b0\u0420\u00a0\u0412\u00b7\u0420\u00a0\u0420\u2020\u0420\u00a0\u0421\u2018\u0420\u00a0\u0420\u2020\u0420\u00a0\u0412\u00b0\u0420\u040e\u0432\u0402\u0459\u0420\u040e\u0420\u0409", url := "https://4brain.ru/critical/", mtype := "article", skill := "critical_thinking" },
  { id := "ru_4brain_ct_skills", title := "\u0420\u00a0\u0421\u2122\u0420\u040e\u0420\u201a\u0420\u00a0\u0421\u2018\u0420\u040e\u0432\u0402\u0459\u0420\u00a0\u0421\u2018\u0420\u040e\u0432\u0402\u040e\u0420\u00a0\u0412\u00b5\u0420\u040e\u0420\u0453\u0420\u00a0\u0421\u201d\u0420\u00a0\u0421\u2022\u0420\u00a0\u0412\u00b5 \u0420\u00a0\u0421\u0098\u0420\u040e\u0432\u0402\u2116\u0420\u040e\u0432\u201a\u00ac\u0420\u00a0\u0412\u00bb\u0420\u00a0\u0412\u00b5\u0420\u00a0\u0420\u2026\u0420\u00a0\u0421\u2018\u0420\u00a0\u0412\u00b5: \u0420\u00a0\u0420\u2026\u0420\u00a0\u0412\u00b0\u0420\u00a0\u0420\u2020\u0420\u040e\u0432\u0402\u2116\u0420\u00a0\u0421\u201d\u0420\u00a0\u0421\u2018 \u0420\u00a0\u0421\u2018 \u0420\u040e\u0420\u0453\u0420\u00a0\u0420\u2020\u0420\u00a0\u0421\u2022\u0420\u00a0\u0432\u201e\u2013\u0420\u040e\u0420\u0453\u0420\u040e\u0432\u0402\u0459\u0420\u00a0\u0420\u2020\u0420\u00a0\u0412\u00b0", url := "https://4brain.ru/critical/navyk.php", mtype := "article", skill := "critical_thinking" },
  { id := "ru_stepik_ct", title := "\u0420\u00a0\u0421\u2122\u0420\u040e\u0420\u201a\u0420\u00a0\u0421\u2018\u0420\u040e\u0432\u0402\u0459\u0420\u00a0\u0421\u2018\u0420\u040e\u0432\u0402\u040e\u0420\u00a0\u0412\u00b5\u0420\u040e\u0420\u0453\u0420\u00a0\u0421\u201d\u0420\u00a0\u0421\u2022\u0420\u00a0\u0412\u00b5 \u0420\u00a0\u0421\u0098\u0420\u040e\u0432\u0402\u2116\u0420\u040e\u0432\u201a\u00ac\u0420\u00a0\u0412\u00bb\u0420\u00a0\u0412\u00b5\u0420\u00a0\u0420\u2026\u0420\u00a0\u0421\u2018\u0420\u00a0\u0412\u00b5", url := "https://stepik.org/course/63700/promo", mtype := "course", skill := "critical_thinking" },
  { id := "ru_postnauka_ct_video", title := "\u0420\u00a0\u0421\u2122\u0420\u040e\u0420\u201a\u0420\u00a0\u0421\u2018\u0420\u040e\u0432\u0402\u0459\u0420\u00a0\u0421\u2018\u0420\u040e\u0432\u0402\u040e\u0420\u00a0\u0412\u00b5\u0420\u040e\u0420\u0453\u0420\u00a0\u0421\u201d\u0420\u00a0\u0421\u2022\u0420\u00a0\u0412\u00b5 \u0420\u00a0\u0421\u0098\u0420\u040e\u0432\u0402\u2116\u0420\u040e\u0432\u201a\u00ac\u0420\u00a0\u0412\u00bb\u0420\u00a0\u0412\u00b5\u0420\u00a0\u0420\u2026\u0420\u00a0\u0421\u2018\u0420\u00a0\u0412\u00b5", url := "https://postnauka.ru/tv/155334", mtype := "video", skill := "critical_thinking" },
  { id := "ru_4brain_tm_base", title := "\u0420\u00a0\u0421\u045b\u0420\u00a0\u0412\u00b0\u0420\u00a0\u0432\u201e\u2013\u0420\u00a0\u0421\u0098-\u0420\u00a0\u0421\u0098\u0420\u00a0\u0412\u00b5\u0420\u00a0\u0420\u2026\u0420\u00a0\u0412\u00b5\u0420\u00a0\u0422\u2018\u0420\u00a0\u0412\u00b6\u0420\u00a0\u0421\u0098\u0420\u00a0\u0412\u00b5\u0420\u00a0\u0420\u2026\u0420\u040e\u0432\u0402\u0459: \u0420\u040e\u0421\u201c\u0420\u00a0\u0421\u2014\u0420\u040e\u0420\u201a\u0420\u00a0\u0412\u00b0\u0420\u00a0\u0420\u2020\u0420\u00a0\u0412\u00bb\u0420\u00a0\u0412\u00b5\u0420\u00a0\u0420\u2026\u0420\u00a0\u0421\u2018\u0420\u00a0\u0412\u00b5 \u0420\u00a0\u0420\u2020\u0420\u040e\u0420\u201a\u0420\u00a0\u0412\u00b5\u0420\u00a0\u0421\u0098\u0420\u00a0\u0412\u00b5\u0420\u00a0\u0420\u2026\u0420\u00a0\u0412\u00b5\u0420\u00a0\u0421\u0098", url := "https://4brain.ru/time/", mtype := "article", skill := "time_management" },
  { id := "ru_4brain_tm_basics", title := "\u0420\u00a0\u0421\u045b\u0420\u00a0\u0412\u00b0\u0420\u00a0\u0432\u201e\u2013\u0420\u00a0\u0421\u0098-\u0420\u00a0\u0421\u0098\u0420\u00a0\u0412\u00b5\u0420\u00a0\u0420\u2026\u0420\u00a0\u0412\u00b5\u0420\u00a0\u0422\u2018\u0420\u00a0\u0412\u00b6\u0420\u00a0\u0421\u0098\u0420\u00a0\u0412\u00b5\u0420\u00a0\u0420\u2026\u0420\u040e\u0432\u0402\u0459: \u0420\u00a0\u0421\u2022\u0420\u040e\u0420\u0453\u0420\u00a0\u0420\u2026\u0420\u00a0\u0421\u2022\u0420\u00a0\u0420\u2020\u0420\u040e\u0432\u0402\u2116", url := "https://4brain.ru/time/osnovy.php", mtype := "article", skill := "time_management" },
  { id := "ru_4brain_tm_psy", title := "\u0420\u00a0\u0421\u045f\u0420\u040e\u0420\u0453\u0420\u00a0\u0421\u2018\u0420\u040e\u0432\u0402\u00a6\u0420\u00a0\u0421\u2022\u0420\u00a0\u0412\u00bb\u0420\u00a0\u0421\u2022\u0420\u00a0\u0421\u2013\u0420\u00a0\u0421\u2018\u0420\u040e\u0432\u0402\u040e\u0420\u00a0\u0412\u00b5\u0420\u040e\u0420\u0453\u0420\u00a0\u0421\u201d\u0420\u00a0\u0421\u2018\u0420\u00a0\u0412\u00b5 \u0420\u00a0\u0412\u00b0\u0420\u040e\u0420\u0453\u0420\u00a0\u0421\u2014\u0420\u00a0\u0412\u00b5\u0420\u00a0\u0421\u201d\u0420\u040e\u0432\u0402\u0459\u0420\u040e\u0432\u0402\u2116 \u0420\u040e\u0432\u0402\u0459\u0420\u00a0\u0412\u00b0\u0420\u00a0\u0432\u201e\u2013\u0420\u00a0\u0421\u0098-\u0420\u00a0\u0421\u0098\u0420\u00a0\u0412\u00b5\u0420\u00a0\u0420\u2026\u0420\u00a0\u0412\u00b5\u0420\u00a0\u0422\u2018\u0420\u00a0\u0412\u00b6\u0420\u00a0\u0421\u0098\u0420\u00a0\u0412\u00b5\u0420\u00a0\u0420\u2026\u0420\u040e\u0432\u0402\u0459\u0420\u00a0\u0412\u00b0", url := "https://4brain.ru/blog/psihologiya-taym-menedzhmenta/", mtype := "article", skill := "time_management" },
  { id := "ru_openedu_tm_course", title := "\u0420\u00a0\u0421\u203a\u0420\u00a0\u0420\u2026\u0420\u00a0\u0412\u00bb\u0420\u00a0\u0412\u00b0\u0420\u00a0\u0432\u201e\u2013\u0420\u00a0\u0420\u2026-\u0420\u00a0\u0421\u201d\u0420\u040e\u0421\u201c\u0420\u040e\u0420\u201a\u0420\u040e\u0420\u0453: \u0420\u00a0\u0421\u045b\u0420\u00a0\u0412\u00b0\u0420\u00a0\u0432\u201e\u2013\u0420\u00a0\u0421\u0098-\u0420\u00a0\u0421\u0098\u0420\u00a0\u0412\u00b5\u0420\u00a0\u0420\u2026\u0420\u00a0\u0412\u00b5\u0420\u00a0\u0422\u2018\u0420\u00a0\u0412\u00b6\u0420\u00a0\u0421\u0098\u0420\u00a0\u0412\u00b5\u0420\u00a0\u0420\u2026\u0420\u040e\u0432\u0402\u0459", url := "https://openedu.ru/course/misis/TMNG/", mtype := "course", skill := "time_management" },
  { id := "ru_stepik_tm", title := "\u0420\u00a0\u0421\u045b\u0420\u00a0\u0412\u00b0\u0420\u00a0\u0432\u201e\u2013\u0420\u00a0\u0421\u0098-\u0420\u00a0\u0421\u0098\u0420\u00a0\u0412\u00b5\u0420\u00a0\u0420\u2026\u0420\u00a0\u0412\u00b5\u0420\u00a0\u0422\u2018\u0420\u00a0\u0412\u00b6\u0420\u00a0\u0421\u0098\u0420\u00a0\u0412\u00b5\u0420\u00a0\u0420\u2026\u0420\u040e\u0432\u0402\u0459", url := "https://stepik.org/course/102186/promo", mtype := "course", skill := "time_management" },
  { id := "ru_4brain_lead_base", title := "\u0420\u00a0\u0432\u0402\u0454\u0420\u00a0\u0421\u2018\u0420\u00a0\u0422\u2018\u0420\u00a0\u0412\u00b5\u0420\u040e\u0420\u201a\u0420\u040e\u0420\u0453\u0420\u040e\u0432\u0402\u0459\u0420\u00a0\u0420\u2020\u0420\u00a0\u0421\u2022: \u0420\u00a0\u0412\u00b1\u0420\u00a0\u0412\u00b0\u0420\u00a0\u0412\u00b7\u0420\u00a0\u0421\u2022\u0420\u00a0\u0420\u2020\u0420\u040e\u0432\u0402\u2116\u0420\u00a0\u0412\u00b5 \u0420\u00a0\u0421\u2014\u0420\u040e\u0420\u201a\u0420\u00a0\u0421\u2018\u0420\u00a0\u0420\u2026\u0420\u040e\u0432\u0402\u00a0\u0420\u00a0\u0421\u2018\u0420\u00a0\u0421\u2014\u0420\u040e\u0432\u0402\u2116 \u0420\u00a0\u0421\u2018 \u0420\u00a0\u0421\u2014\u0420\u00a0\u0421\u2022\u0420\u00a0\u0422\u2018\u0420\u040e\u0432\u0402\u00a6\u0420\u00a0\u0421\u2022\u0420\u00a0\u0422\u2018\u0420\u040e\u0432\u0402\u2116", url := "https://4brain.ru/liderstvo/", mtype := "article", skill := "leadership" },
  { id := "ru_4brain_lead_course", title := "\u0420\u00a0\u0432\u0402\u0454\u0420\u00a0\u0421\u2018\u0420\u00a0\u0422\u2018\u0420\u00a0\u0412\u00b5\u0420\u040e\u0420\u201a\u0420\u040e\u0420\u0453\u0420\u040e\u0432\u0402\u0459\u0420\u00a0\u0420\u2020\u0420\u00a0\u0421\u2022 \u0420\u00a0\u0421\u2018 \u0420\u00a0\u0421\u0098\u0420\u00a0\u0421\u2022\u0420\u040e\u0432\u0402\u0459\u0420\u00a0\u0421\u2018\u0420\u00a0\u0420\u2020\u0420\u00a0\u0412\u00b0\u0420\u040e\u0432\u0402\u00a0\u0420\u00a0\u0421\u2018\u0420\u040e\u0420\u040f: \u0420\u00a0\u0421\u2022\u0420\u040e\u0420\u0453\u0420\u00a0\u0420\u2026\u0420\u00a0\u0421\u2022\u0420\u00a0\u0420\u2020\u0420\u040e\u0432\u0402\u2116", url := "https://4brain.ru/management/leadership.php", mtype := "article", skill := "leadership" },
  { id := "ru_4brain_lead_practice", title := "\u0420\u00a0\u0421\u2122\u0420\u00a0\u0412\u00b0\u0420\u00a0\u0421\u201d \u0420\u00a0\u0412\u00b1\u0420\u040e\u0432\u0402\u2116\u0420\u040e\u0432\u0402\u0459\u0420\u040e\u0420\u0409 \u0420\u00a0\u0412\u00bb\u0420\u00a0\u0421\u2018\u0420\u00a0\u0422\u2018\u0420\u00a0\u0412\u00b5\u0420\u040e\u0420\u201a\u0420\u00a0\u0421\u2022\u0420\u00a0\u0421\u0098: \u0420\u00a0\u0421\u2014\u0420\u040e\u0420\u201a\u0420\u00a0\u0412\u00b0\u0420\u00a0\u0421\u201d\u0420\u040e\u0432\u0402\u0459\u0420\u00a0\u0421\u2018\u0420\u040e\u0432\u0402\u040e\u0420\u00a0\u0412\u00b5\u0420\u040e\u0420\u0453\u0420\u00a0\u0421\u201d\u0420\u00a0\u0421\u2018\u0420\u00a0\u0412\u00b5 \u0420\u040e\u0420\u0453\u0420\u00a0\u0421\u2022\u0420\u00a0\u0420\u2020\u0420\u00a0\u0412\u00b5\u0420\u040e\u0432\u0402\u0459\u0420\u040e\u0432\u0402\u2116", url := "https://4brain.ru/blog/kak-byt-liderom/", mtype := "article", skill := "leadership" },
  { id := "ru_openedu_lead_course", title := "\u0420\u00a0\u0432\u0402\u0454\u0420\u00a0\u0421\u2018\u0420\u00a0\u0422\u2018\u0420\u00a0\u0412\u00b5\u0420\u040e\u0420\u201a\u0420\u040e\u0420\u0453\u0420\u040e\u0432\u0402\u0459\u0420\u00a0\u0420\u2020\u0420\u00a0\u0421\u2022 \u0420\u00a0\u0421\u2018 \u0420\u00a0\u0421\u201d\u0420\u00a0\u0421\u2022\u0420\u00a0\u0421\u0098\u0420\u00a0\u0412\u00b0\u0420\u00a0\u0420\u2026\u0420\u00a0\u0422\u2018\u0420\u00a0\u0421\u2022\u0420\u00a0\u0421\u2022\u0420\u00a0\u0412\u00b1\u0420\u040e\u0420\u201a\u0420\u00a0\u0412\u00b0\u0420\u00a0\u0412\u00b7\u0420\u00a0\u0421\u2022\u0420\u00a0\u0420\u2020\u0420\u00a0\u0412\u00b0\u0420\u00a0\u0420\u2026\u0420\u00a0\u0421\u2018\u0420\u00a0\u0412\u00b5", url := "https://openedu.ru/course/mephi/mephi_lfkpt/", mtype := "course", skill := "leadership" },
  { id := "ru_stepik_lead_team", title := "\u0420\u00a0\u0432\u0402\u0454\u0420\u00a0\u0421\u2018\u0420\u00a0\u0422\u2018\u0420\u00a0\u0412\u00b5\u0420\u040e\u0420\u201a\u0420\u040e\u0420\u0453\u0420\u040e\u0432\u0402\u0459\u0420\u00a0\u0420\u2020\u0420\u00a0\u0421\u2022 \u0420\u00a0\u0421\u2018 \u0420\u00a0\u0421\u201d\u0420\u00a0\u0421\u2022\u0420\u00a0\u0421\u0098\u0420\u00a0\u0412\u00b0\u0420\u00a0\u0420\u2026\u0420\u00a0\u0422\u2018\u0420\u00a0\u0421\u2022\u0420\u00a0\u0421\u2022\u0420\u00a0\u0412\u00b1\u0420\u040e\u0420\u201a\u0420\u00a0\u0412\u00b0\u0420\u00a0\u0412\u00b7\u0420\u00a0\u0421\u2022\u0420\u00a0\u0420\u2020\u0420\u00a0\u0412\u00b0\u0420\u00a0\u0420\u2026\u0420\u00a0\u0421\u2018\u0420\u00a0\u0412\u00b5", url := "https://stepik.org/course/83003/promo", mtype := "course", skill := "leadership" }]

-- ValueError messages raised by advance_to_next_level, in source order:
-- no active plan, no profile, not unlocked, not completed.
def advance_err0 : String := "\u0420\u00a0\u0420\u20ac \u0420\u00a0\u0420\u2020\u0420\u00a0\u0412\u00b0\u0420\u040e\u0420\u0453 \u0420\u00a0\u0420\u2026\u0420\u00a0\u0412\u00b5\u0420\u040e\u0432\u0402\u0459 \u0420\u00a0\u0412\u00b0\u0420\u00a0\u0421\u201d\u0420\u040e\u0432\u0402\u0459\u0420\u00a0\u0421\u2018\u0420\u00a0\u0420\u2020\u0420\u00a0\u0420\u2026\u0420\u00a0\u0421\u2022\u0420\u00a0\u0421\u2013\u0420\u00a0\u0421\u2022 \u0420\u00a0\u0421\u2014\u0420\u00a0\u0412\u00bb\u0420\u00a0\u0412\u00b0\u0420\u00a0\u0420\u2026\u0420\u00a0\u0412\u00b0 \u0420\u040e\u0420\u201a\u0420\u00a0\u0412\u00b0\u0420\u00a0\u0412\u00b7\u0420\u00a0\u0420\u2020\u0420\u00a0\u0421\u2018\u0420\u040e\u0432\u0402\u0459\u0420\u00a0\u0421\u2018\u0420\u040e\u0420\u040f"
def advance_err1 : String := "\u0420\u00a0\u0421\u045f\u0420\u040e\u0420\u201a\u0420\u00a0\u0421\u2022\u0420\u040e\u0432\u0402\u045b\u0420\u00a0\u0421\u2018\u0420\u00a0\u0412\u00bb\u0420\u040e\u0420\u0409 \u0420\u00a0\u0420\u2026\u0420\u00a0\u0412\u00b5 \u0420\u00a0\u0420\u2026\u0420\u00a0\u0412\u00b0\u0420\u00a0\u0432\u201e\u2013\u0420\u00a0\u0422\u2018\u0420\u00a0\u0412\u00b5\u0420\u00a0\u0420\u2026. \u0420\u00a0\u0420\u040b\u0420\u00a0\u0420\u2026\u0420\u00a0\u0412\u00b0\u0420\u040e\u0432\u0402\u040e\u0420\u00a0\u0412\u00b0\u0420\u00a0\u0412\u00bb\u0420\u00a0\u0412\u00b0 \u0420\u00a0\u0421\u2014\u0420\u040e\u0420\u201a\u0420\u00a0\u0421\u2022\u0420\u00a0\u0432\u201e\u2013\u0420\u00a0\u0422\u2018\u0420\u00a0\u0421\u2018\u0420\u040e\u0432\u0402\u0459\u0420\u00a0\u0412\u00b5 \u0420\u040e\u0432\u0402\u0459\u0420\u00a0\u0412\u00b5\u0420\u040e\u0420\u0453\u0420\u040e\u0432\u0402\u0459 \u0420\u00a0\u0421\u2018\u0420\u00a0\u0412\u00bb\u0420\u00a0\u0421\u2018 \u0420\u00a0\u0421\u2022\u0420\u040e\u0432\u0402\u0459\u0420\u00a0\u0421\u2014\u0420\u040e\u0420\u201a\u0420\u00a0\u0412\u00b0\u0420\u00a0\u0420\u2020\u0420\u040e\u0420\u0409\u0420\u040e\u0432\u0402\u0459\u0420\u00a0\u0412\u00b5 \u0420\u040e\u0420\u0453\u0420\u00a0\u0421\u2022\u0420\u00a0\u0421\u2022\u0420\u00a0\u0412\u00b1\u0420\u040e\u0432\u0402\u00b0\u0420\u00a0\u0412\u00b5\u0420\u00a0\u0420\u2026\u0420\u00a0\u0421\u2018\u0420\u00a0\u0412\u00b5 \u0420\u00a0\u0420\u2020 \u0420\u040e\u0432\u0402\u040e\u0420\u00a0\u0412\u00b0\u0420\u040e\u0432\u0402\u0459."
def advance_err2 : String := "\u0420\u00a0\u0420\u040b\u0420\u00a0\u0420\u2026\u0420\u00a0\u0412\u00b0\u0420\u040e\u0432\u0402\u040e\u0420\u00a0\u0412\u00b0\u0420\u00a0\u0412\u00bb\u0420\u00a0\u0412\u00b0 \u0420\u00a0\u0422\u2018\u0420\u00a0\u0421\u2022\u0420\u00a0\u0420\u2020\u0420\u00a0\u0412\u00b5\u0420\u00a0\u0422\u2018\u0420\u00a0\u0421\u2018\u0420\u040e\u0432\u0402\u0459\u0420\u00a0\u0412\u00b5 \u0420\u00a0\u0421\u2014\u0420\u040e\u0420\u201a\u0420\u00a0\u0421\u2022\u0420\u00a0\u0421\u2013\u0420\u040e\u0420\u201a\u0420\u00a0\u0412\u00b5\u0420\u040e\u0420\u0453\u0420\u040e\u0420\u0453 \u0420\u00a0\u0421\u2014\u0420\u00a0\u0412\u00bb\u0420\u00a0\u0412\u00b0\u0420\u00a0\u0420\u2026\u0420\u00a0\u0412\u00b0 \u0420\u00a0\u0422\u2018\u0420\u00a0\u0421\u2022 100%."
def advance_err3 : String := "\u0420\u00a0\u0420\u040b\u0420\u00a0\u0420\u2026\u0420\u00a0\u0412\u00b0\u0420\u040e\u0432\u0402\u040e\u0420\u00a0\u0412\u00b0\u0420\u00a0\u0412\u00bb\u0420\u00a0\u0412\u00b0 \u0420\u00a0\u0412\u00b7\u0420\u00a0\u0412\u00b0\u0420\u00a0\u0420\u2020\u0420\u00a0\u0412\u00b5\u0420\u040e\u0420\u201a\u0420\u040e\u0432\u201a\u00ac\u0420\u00a0\u0421\u2018\u0420\u040e\u0432\u0402\u0459\u0420\u00a0\u0412\u00b5 \u0420\u00a0\u0421\u2022\u0420\u00a0\u0412\u00b1\u0420\u00a0\u0412\u00b0 \u0420\u040e\u0432\u0402\u045b\u0420\u00a0\u0421\u2018\u0420\u00a0\u0420\u2026\u0420\u00a0\u0412\u00b0\u0420\u00a0\u0412\u00bb\u0420\u040e\u0420\u0409\u0420\u00a0\u0420\u2026\u0420\u040e\u0432\u0402\u2116\u0420\u040e\u0432\u0402\u00a6 \u0420\u00a0\u0412\u00b7\u0420\u00a0\u0412\u00b0\u0420\u00a0\u0422\u2018\u0420\u00a0\u0412\u00b0\u0420\u00a0\u0420\u2026\u0420\u00a0\u0421\u2018\u0420\u040e\u0420\u040f."

-- The two recommendation reason strings of select_recommended_tests
-- (weaknesses nonempty / empty).
def rec_reason_weak : String := "\u0420\u00a0\u0412\u00a0\u0420\u00a0\u0412\u00b5\u0420\u00a0\u0421\u201d\u0420\u00a0\u0421\u2022\u0420\u00a0\u0421\u0098\u0420\u00a0\u0412\u00b5\u0420\u00a0\u0420\u2026\u0420\u00a0\u0422\u2018\u0420\u040e\u0421\u201c\u0420\u00a0\u0412\u00b5\u0420\u00a0\u0421\u0098 \u0420\u00a0\u0421\u2014\u0420\u040e\u0420\u201a\u0420\u00a0\u0421\u2022\u0420\u00a0\u0432\u201e\u2013\u0420\u040e\u0432\u0402\u0459\u0420\u00a0\u0421\u2018 \u0420\u040e\u0432\u0402\u0459\u0420\u00a0\u0412\u00b5\u0420\u040e\u0420\u0453\u0420\u040e\u0432\u0402\u0459\u0420\u040e\u0432\u0402\u2116, \u0420\u040e\u0432\u0402\u040e\u0420\u040e\u0432\u0402\u0459\u0420\u00a0\u0421\u2022\u0420\u00a0\u0412\u00b1\u0420\u040e\u0432\u0402\u2116 \u0420\u040e\u0420\u0453\u0420\u00a0\u0421\u2022\u0420\u00a0\u0412\u00b1\u0420\u040e\u0420\u201a\u0420\u00a0\u0412\u00b0\u0420\u040e\u0432\u0402\u0459\u0420\u040e\u0420\u0409 \u0420\u00a0\u0412\u00b1\u0420\u00a0\u0421\u2022\u0420\u00a0\u0412\u00bb\u0420\u040e\u0420\u0409\u0420\u040e\u0432\u201a\u00ac\u0420\u00a0\u0412\u00b5 \u0420\u00a0\u0422\u2018\u0420\u00a0\u0412\u00b0\u0420\u00a0\u0420\u2026\u0420\u00a0\u0420\u2026\u0420\u040e\u0432\u0402\u2116\u0420\u040e\u0432\u0402\u00a6 \u0420\u00a0\u0421\u2018 \u0420\u040e\u0421\u201c\u0420\u00a0\u0412\u00bb\u0420\u040e\u0421\u201c\u0420\u040e\u0432\u0402\u040e\u0420\u040e\u0432\u201a\u00ac\u0420\u00a0\u0421\u2018\u0420\u040e\u0432\u0402\u0459\u0420\u040e\u0420\u0409 \u0420\u040e\u0420\u0453\u0420\u00a0\u0412\u00bb\u0420\u00a0\u0412\u00b0\u0420\u00a0\u0412\u00b1\u0420\u040e\u0432\u0402\u2116\u0420\u00a0\u0412\u00b5 \u0420\u00a0\u0420\u2026\u0420\u00a0\u0412\u00b0\u0420\u00a0\u0420\u2020\u0420\u040e\u0432\u0402\u2116\u0420\u00a0\u0421\u201d\u0420\u00a0\u0421\u2018."
def rec_reason_empty : String := "\u0420\u00a0\u0412\u00a0\u0420\u00a0\u0412\u00b5\u0420\u00a0\u0421\u201d\u0420\u00a0\u0421\u2022\u0420\u00a0\u0421\u0098\u0420\u00a0\u0412\u00b5\u0420\u00a0\u0420\u2026\u0420\u00a0\u0422\u2018\u0420\u040e\u0421\u201c\u0420\u00a0\u0412\u00b5\u0420\u00a0\u0421\u0098 \u0420\u00a0\u0421\u2014\u0420\u040e\u0420\u201a\u0420\u00a0\u0421\u2022\u0420\u00a0\u0432\u201e\u2013\u0420\u040e\u0432\u0402\u0459\u0420\u00a0\u0421\u2018 \u0420\u040e\u0432\u0402\u0459\u0420\u00a0\u0412\u00b5\u0420\u040e\u0420\u0453\u0420\u040e\u0432\u0402\u0459\u0420\u040e\u0432\u0402\u2116 \u0420\u00a0\u0422\u2018\u0420\u00a0\u0412\u00bb\u0420\u040e\u0420\u040f \u0420\u00a0\u0420\u2026\u0420\u00a0\u0412\u00b0\u0420\u00a0\u0421\u201d\u0420\u00a0\u0421\u2022\u0420\u00a0\u0421\u2014\u0420\u00a0\u0412\u00bb\u0420\u00a0\u0412\u00b5\u0420\u00a0\u0420\u2026\u0420\u00a0\u0421\u2018\u0420\u040e\u0420\u040f \u0420\u00a0\u0422\u2018\u0420\u00a0\u0412\u00b0\u0420\u00a0\u0420\u2026\u0420\u00a0\u0420\u2026\u0420\u040e\u0432\u0402\u2116\u0420\u040e\u0432\u0402\u00a6."

-- Static fallback plan content used when external generation fails
-- (its materials / recommended_tests are overwritten by the selectors;
-- the tasks survive into the stored plan).
def fallback_materials (target_difficulty : String) : List MaterialDict :=
[  { id := "mat_communication_basics", title := "\u0420\u00a0\u0421\u203a\u0420\u040e\u0420\u0453\u0420\u00a0\u0420\u2026\u0420\u00a0\u0421\u2022\u0420\u00a0\u0420\u2020\u0420\u040e\u0432\u0402\u2116 \u0420\u00a0\u0421\u201d\u0420\u00a0\u0421\u2022\u0420\u00a0\u0421\u0098\u0420\u00a0\u0421\u0098\u0420\u040e\u0421\u201c\u0420\u00a0\u0420\u2026\u0420\u00a0\u0421\u2018\u0420\u00a0\u0421\u201d\u0420\u00a0\u0412\u00b0\u0420\u040e\u0432\u0402\u00a0\u0420\u00a0\u0421\u2018\u0420\u00a0\u0421\u2018: \u0420\u00a0\u0412\u00b0\u0420\u00a0\u0421\u201d\u0420\u040e\u0432\u0402\u0459\u0420\u00a0\u0421\u2018\u0420\u00a0\u0420\u2020\u0420\u00a0\u0420\u2026\u0420\u00a0\u0421\u2022\u0420\u00a0\u0412\u00b5 \u0420\u040e\u0420\u0453\u0420\u00a0\u0412\u00bb\u0420\u040e\u0421\u201c\u0420\u040e\u0432\u201a\u00ac\u0420\u00a0\u0412\u00b0\u0420\u00a0\u0420\u2026\u0420\u00a0\u0421\u2018\u0420\u00a0\u0412\u00b5", url := "https://4brain.ru/blog/glubokoe-slushanie/", mtype := "article", skill := "communication", difficulty := target_difficulty },
  { id := "mat_ei_basics", title := "\u0420\u00a0\u0412\u00ad\u0420\u00a0\u0421\u0098\u0420\u00a0\u0421\u2022\u0420\u040e\u0432\u0402\u00a0\u0420\u00a0\u0421\u2018\u0420\u00a0\u0421\u2022\u0420\u00a0\u0420\u2026\u0420\u00a0\u0412\u00b0\u0420\u00a0\u0412\u00bb\u0420\u040e\u0420\u0409\u0420\u00a0\u0420\u2026\u0420\u040e\u0432\u0402\u2116\u0420\u00a0\u0432\u201e\u2013 \u0420\u00a0\u0421\u2018\u0420\u00a0\u0420\u2026\u0420\u040e\u0432\u0402\u0459\u0420\u00a0\u0412\u00b5\u0420\u00a0\u0412\u00bb\u0420\u00a0\u0412\u00bb\u0420\u00a0\u0412\u00b5\u0420\u00a0\u0421\u201d\u0420\u040e\u0432\u0402\u0459: \u0420\u00a0\u0412\u00b1\u0420\u00a0\u0412\u00b0\u0420\u00a0\u0412\u00b7\u0420\u00a0\u0421\u2022\u0420\u00a0\u0420\u2020\u0420\u040e\u0432\u0402\u2116\u0420\u00a0\u0412\u00b5 \u0420\u00a0\u0421\u2014\u0420\u040e\u0420\u201a\u0420\u00a0\u0421\u2018\u0420\u00a0\u0420\u2026\u0420\u040e\u0432\u0402\u00a0\u0420\u00a0\u0421\u2018\u0420\u00a0\u0421\u2014\u0420\u040e\u0432\u0402\u2116", url := "https://4brain.ru/emotion/", mtype := "article", skill := "emotional_intelligence", difficulty := target_difficulty },
  { id := "mat_critical_thinking_basics", title := "\u0420\u00a0\u0421\u2122\u0420\u040e\u0420\u201a\u0420\u00a0\u0421\u2018\u0420\u040e\u0432\u0402\u0459\u0420\u00a0\u0421\u2018\u0420\u040e\u0432\u0402\u040e\u0420\u00a0\u0412\u00b5\u0420\u040e\u0420\u0453\u0420\u00a0\u0421\u201d\u0420\u00a0\u0421\u2022\u0420\u00a0\u0412\u00b5 \u0420\u00a0\u0421\u0098\u0420\u040e\u0432\u0402\u2116\u0420\u040e\u0432\u201a\u00ac\u0420\u00a0\u0412\u00bb\u0420\u00a0\u0412\u00b5\u0420\u00a0\u0420\u2026\u0420\u00a0\u0421\u2018\u0420\u00a0\u0412\u00b5: \u0420\u00a0\u0421\u201d\u0420\u00a0\u0412\u00b0\u0420\u00a0\u0421\u201d \u0420\u00a0\u0412\u00b7\u0420\u00a0\u0412\u00b0\u0420\u00a0\u0422\u2018\u0420\u00a0\u0412\u00b0\u0420\u00a0\u0420\u2020\u0420\u00a0\u0412\u00b0\u0420\u040e\u0432\u0402\u0459\u0420\u040e\u0420\u0409 \u0420\u00a0\u0421\u2014\u0420\u040e\u0420\u201a\u0420\u00a0\u0412\u00b0\u0420\u00a0\u0420\u2020\u0420\u00a0\u0421\u2018\u0420\u00a0\u0412\u00bb\u0420\u040e\u0420\u0409\u0420\u00a0\u0420\u2026\u0420\u040e\u0432\u0402\u2116\u0420\u00a0\u0412\u00b5 \u0420\u00a0\u0420\u2020\u0420\u00a0\u0421\u2022\u0420\u00a0\u0421\u2014\u0420\u040e\u0420\u201a\u0420\u00a0\u0421\u2022\u0420\u040e\u0420\u0453\u0420\u040e\u0432\u0402\u2116", url := "https://4brain.ru/critical/", mtype := "article", skill := "critical_thinking", difficulty := target_difficulty }]

def fallback_tasks : List TaskDict :=
[  { id := "task_reflect_1", description := "\u0420\u00a0\u0421\u045f\u0420\u00a0\u0421\u2022\u0420\u040e\u0420\u0453\u0420\u00a0\u0412\u00bb\u0420\u00a0\u0412\u00b5 \u0420\u00a0\u0422\u2018\u0420\u00a0\u0421\u2018\u0420\u00a0\u0412\u00b0\u0420\u00a0\u0412\u00bb\u0420\u00a0\u0421\u2022\u0420\u00a0\u0421\u2013\u0420\u00a0\u0412\u00b0 \u0420\u00a0\u0412\u00b7\u0420\u00a0\u0412\u00b0\u0420\u00a0\u0421\u2014\u0420\u00a0\u0421\u2018\u0420\u040e\u0432\u201a\u00ac\u0420\u00a0\u0421\u2018\u0420\u040e\u0432\u0402\u0459\u0420\u00a0\u0412\u00b5 3 \u0420\u00a0\u0421\u2014\u0420\u040e\u0421\u201c\u0420\u00a0\u0420\u2026\u0420\u00a0\u0421\u201d\u0420\u040e\u0432\u0402\u0459\u0420\u00a0\u0412\u00b0: \u0420\u040e\u0432\u0402\u040e\u0420\u040e\u0432\u0402\u0459\u0420\u00a0\u0421\u2022 \u0420\u00a0\u0421\u2014\u0420\u00a0\u0421\u2022\u0420\u00a0\u0412\u00bb\u0420\u040e\u0421\u201c\u0420\u040e\u0432\u0402\u040e\u0420\u00a0\u0421\u2018\u0420\u00a0\u0412\u00bb\u0420\u00a0\u0421\u2022\u0420\u040e\u0420\u0453\u0420\u040e\u0420\u0409, \u0420\u040e\u0432\u0402\u040e\u0420\u040e\u0432\u0402\u0459\u0420\u00a0\u0421\u2022 \u0420\u00a0\u0421\u0098\u0420\u00a0\u0421\u2022\u0420\u00a0\u0412\u00b6\u0420\u00a0\u0420\u2026\u0420\u00a0\u0421\u2022 \u0420\u040e\u0421\u201c\u0420\u00a0\u0412\u00bb\u0420\u040e\u0421\u201c\u0420\u040e\u0432\u0402\u040e\u0420\u040e\u0432\u201a\u00ac\u0420\u00a0\u0421\u2018\u0420\u040e\u0432\u0402\u0459\u0420\u040e\u0420\u0409, \u0420\u00a0\u0421\u201d\u0420\u00a0\u0412\u00b0\u0420\u00a0\u0421\u201d\u0420\u00a0\u0421\u2022\u0420\u00a0\u0432\u201e\u2013 \u0420\u040e\u0420\u0453\u0420\u00a0\u0412\u00bb\u0420\u00a0\u0412\u00b5\u0420\u00a0\u0422\u2018\u0420\u040e\u0421\u201c\u0420\u040e\u0420\u2039\u0420\u040e\u0432\u0402\u00b0\u0420\u00a0\u0421\u2018\u0420\u00a0\u0432\u201e\u2013 \u0420\u040e\u0432\u201a\u00ac\u0420\u00a0\u0412\u00b0\u0420\u00a0\u0421\u2013.", skill := "communication", status := "pending", completed_at := none },
  { id := "task_ei_1", description := "\u0420\u00a0\u0432\u0402\u2122 \u0420\u040e\u0420\u0453\u0420\u00a0\u0412\u00bb\u0420\u00a0\u0412\u00b5\u0420\u00a0\u0422\u2018\u0420\u040e\u0421\u201c\u0420\u040e\u0420\u2039\u0420\u040e\u0432\u0402\u00b0\u0420\u00a0\u0412\u00b5\u0420\u00a0\u0432\u201e\u2013 \u0420\u040e\u0420\u0453\u0420\u00a0\u0412\u00bb\u0420\u00a0\u0421\u2022\u0420\u00a0\u0412\u00b6\u0420\u00a0\u0420\u2026\u0420\u00a0\u0421\u2022\u0420\u00a0\u0432\u201e\u2013 \u0420\u040e\u0420\u0453\u0420\u00a0\u0421\u2018\u0420\u040e\u0432\u0402\u0459\u0420\u040e\u0421\u201c\u0420\u00a0\u0412\u00b0\u0420\u040e\u0432\u0402\u00a0\u0420\u00a0\u0421\u2018\u0420\u00a0\u0421\u2018 \u0420\u00a0\u0421\u2014\u0420\u00a0\u0421\u2022\u0420\u00a0\u0421\u2014\u0420\u040e\u0420\u201a\u0420\u00a0\u0421\u2022\u0420\u00a0\u0412\u00b1\u0420\u040e\u0421\u201c\u0420\u00a0\u0432\u201e\u2013\u0420\u040e\u0432\u0402\u0459\u0420\u00a0\u0412\u00b5 \u0420\u00a0\u0420\u2026\u0420\u00a0\u0412\u00b0\u0420\u00a0\u0412\u00b7\u0420\u00a0\u0420\u2020\u0420\u00a0\u0412\u00b0\u0420\u040e\u0432\u0402\u0459\u0420\u040e\u0420\u0409 \u0420\u040e\u0420\u040a\u0420\u00a0\u0421\u0098\u0420\u00a0\u0421\u2022\u0420\u040e\u0432\u0402\u00a0\u0420\u00a0\u0421\u2018\u0420\u00a0\u0421\u2018 \u0420\u040e\u0420\u0453\u0420\u00a0\u0421\u2022\u0420\u00a0\u0412\u00b1\u0420\u00a0\u0412\u00b5\u0420\u040e\u0420\u0453\u0420\u00a0\u0412\u00b5\u0420\u00a0\u0422\u2018\u0420\u00a0\u0420\u2026\u0420\u00a0\u0421\u2018\u0420\u00a0\u0421\u201d\u0420\u00a0\u0412\u00b0 \u0420\u00a0\u0421\u2018 \u0420\u040e\u0421\u201c\u0420\u040e\u0432\u0402\u0459\u0420\u00a0\u0421\u2022\u0420\u040e\u0432\u0402\u040e\u0420\u00a0\u0420\u2026\u0420\u00a0\u0421\u2018\u0420\u040e\u0432\u0402\u0459\u0420\u040e\u0420\u0409 \u0420\u00a0\u0421\u2018\u0420\u040e\u0432\u0402\u00a6 \u0420\u00a0\u0420\u2020\u0420\u00a0\u0421\u2022\u0420\u00a0\u0421\u2014\u0420\u040e\u0420\u201a\u0420\u00a0\u0421\u2022\u0420\u040e\u0420\u0453\u0420\u00a0\u0421\u2022\u0420\u00a0\u0421\u0098.", skill := "emotional_intelligence", status := "pending", completed_at := none },
  { id := "task_ct_1", description := "\u0420\u00a0\u0421\u045f\u0420\u00a0\u0412\u00b5\u0420\u040e\u0420\u201a\u0420\u00a0\u0412\u00b5\u0420\u00a0\u0422\u2018 \u0420\u040e\u0420\u201a\u0420\u00a0\u0412\u00b5\u0420\u040e\u0432\u201a\u00ac\u0420\u00a0\u0412\u00b5\u0420\u00a0\u0420\u2026\u0420\u00a0\u0421\u2018\u0420\u00a0\u0412\u00b5\u0420\u00a0\u0421\u0098 \u0420\u00a0\u0412\u00b7\u0420\u00a0\u0412\u00b0\u0420\u00a0\u0422\u2018\u0420\u00a0\u0412\u00b0\u0420\u040e\u0432\u0402\u040e\u0420\u00a0\u0421\u2018 \u0420\u040e\u0420\u0453\u0420\u040e\u0432\u0402\u045b\u0420\u00a0\u0421\u2022\u0420\u040e\u0420\u201a\u0420\u00a0\u0421\u0098\u0420\u040e\u0421\u201c\u0420\u00a0\u0412\u00bb\u0420\u00a0\u0421\u2018\u0420\u040e\u0420\u201a\u0420\u040e\u0421\u201c\u0420\u00a0\u0432\u201e\u2013\u0420\u040e\u0432\u0402\u0459\u0420\u00a0\u0412\u00b5 5 \u0420\u040e\u0421\u201c\u0420\u040e\u0432\u0402\u0459\u0420\u00a0\u0421\u2022\u0420\u040e\u0432\u0402\u040e\u0420\u00a0\u0420\u2026\u0420\u040e\u0420\u040f\u0420\u040e\u0420\u2039\u0420\u040e\u0432\u0402\u00b0\u0420\u00a0\u0421\u2018\u0420\u040e\u0432\u0402\u00a6 \u0420\u00a0\u0420\u2020\u0420\u00a0\u0421\u2022\u0420\u00a0\u0421\u2014\u0420\u040e\u0420\u201a\u0420\u00a0\u0421\u2022\u0420\u040e\u0420\u0453\u0420\u00a0\u0421\u2022\u0420\u00a0\u0420\u2020 (\u0420\u040e\u0432\u0402\u040e\u0420\u040e\u0432\u0402\u0459\u0420\u00a0\u0421\u2022 \u0420\u00a0\u0420\u2026\u0420\u00a0\u0412\u00b5\u0420\u00a0\u0421\u2018\u0420\u00a0\u0412\u00b7\u0420\u00a0\u0420\u2020\u0420\u00a0\u0412\u00b5\u0420\u040e\u0420\u0453\u0420\u040e\u0432\u0402\u0459\u0420\u00a0\u0420\u2026\u0420\u00a0\u0421\u2022, \u0420\u00a0\u0421\u201d\u0420\u00a0\u0412\u00b0\u0420\u00a0\u0421\u201d\u0420\u00a0\u0421\u2018\u0420\u00a0\u0412\u00b5 \u0420\u00a0\u0421\u2022\u0420\u00a0\u0421\u2013\u0420\u040e\u0420\u201a\u0420\u00a0\u0412\u00b0\u0420\u00a0\u0420\u2026\u0420\u00a0\u0421\u2018\u0420\u040e\u0432\u0402\u040e\u0420\u00a0\u0412\u00b5\u0420\u00a0\u0420\u2026\u0420\u00a0\u0421\u2018\u0420\u040e\u0420\u040f).", skill := "critical_thinking", status := "pending", completed_at := none }]

def fallback_recommended_tests : List TestRec :=
[  { test_id := 0, title := "\u0420\u00a0\u0432\u0402\u0454\u0420\u040e\u0420\u2039\u0420\u00a0\u0412\u00b1\u0420\u00a0\u0421\u2022\u0420\u00a0\u0432\u201e\u2013 \u0420\u00a0\u0422\u2018\u0420\u00a0\u0421\u2022\u0420\u040e\u0420\u0453\u0420\u040e\u0432\u0402\u0459\u0420\u040e\u0421\u201c\u0420\u00a0\u0421\u2014\u0420\u00a0\u0420\u2026\u0420\u040e\u0432\u0402\u2116\u0420\u00a0\u0432\u201e\u2013 \u0420\u040e\u0432\u0402\u0459\u0420\u00a0\u0412\u00b5\u0420\u040e\u0420\u0453\u0420\u040e\u0432\u0402\u0459", reason := "\u0420\u00a0\u0421\u045f\u0420\u00a0\u0421\u2022\u0420\u00a0\u0421\u201d\u0420\u00a0\u0412\u00b0 \u0420\u040e\u0420\u0453\u0420\u00a0\u0412\u00b5\u0420\u040e\u0420\u201a\u0420\u00a0\u0420\u2020\u0420\u00a0\u0421\u2018\u0420\u040e\u0420\u0453 \u0420\u00a0\u0421\u2013\u0420\u00a0\u0412\u00b5\u0420\u00a0\u0420\u2026\u0420\u00a0\u0412\u00b5\u0420\u040e\u0420\u201a\u0420\u00a0\u0412\u00b0\u0420\u040e\u0432\u0402\u00a0\u0420\u00a0\u0421\u2018\u0420\u00a0\u0421\u2018 \u0420\u040e\u0420\u201a\u0420\u00a0\u0412\u00b5\u0420\u00a0\u0421\u201d\u0420\u00a0\u0421\u2022\u0420\u00a0\u0421\u0098\u0420\u00a0\u0412\u00b5\u0420\u00a0\u0420\u2026\u0420\u00a0\u0422\u2018\u0420\u00a0\u0412\u00b0\u0420\u040e\u0432\u0402\u00a0\u0420\u00a0\u0421\u2018\u0420\u00a0\u0432\u201e\u2013 \u0420\u00a0\u0420\u2026\u0420\u00a0\u0412\u00b5\u0420\u00a0\u0422\u2018\u0420\u00a0\u0421\u2022\u0420\u040e\u0420\u0453\u0420\u040e\u0432\u0402\u0459\u0420\u040e\u0421\u201c\u0420\u00a0\u0421\u2014\u0420\u00a0\u0412\u00b5\u0420\u00a0\u0420\u2026 \u0420\u0406\u0420\u201a\u0432\u0402\u045c \u0420\u00a0\u0421\u2014\u0420\u040e\u0420\u201a\u0420\u00a0\u0421\u2022\u0420\u00a0\u0432\u201e\u2013\u0420\u00a0\u0422\u2018\u0420\u00a0\u0421\u2018\u0420\u040e\u0432\u0402\u0459\u0420\u00a0\u0412\u00b5 \u0420\u040e\u0432\u0402\u0459\u0420\u00a0\u0412\u00b5\u0420\u040e\u0420\u0453\u0420\u040e\u0432\u0402\u0459\u0420\u040e\u0432\u0402\u2116 \u0420\u00a0\u0421\u2018\u0420\u00a0\u0412\u00b7 \u0420\u040e\u0420\u201a\u0420\u00a0\u0412\u00b0\u0420\u00a0\u0412\u00b7\u0420\u00a0\u0422\u2018\u0420\u00a0\u0412\u00b5\u0420\u00a0\u0412\u00bb\u0420\u00a0\u0412\u00b0 '\u0420\u00a0\u0421\u045b\u0420\u00a0\u0412\u00b5\u0420\u040e\u0420\u0453\u0420\u040e\u0432\u0402\u0459\u0420\u040e\u0432\u0402\u2116' \u0420\u00a0\u0422\u2018\u0420\u00a0\u0412\u00bb\u0420\u040e\u0420\u040f \u0420\u00a0\u0420\u2026\u0420\u00a0\u0412\u00b0\u0420\u00a0\u0421\u201d\u0420\u00a0\u0421\u2022\u0420\u00a0\u0421\u2014\u0420\u00a0\u0412\u00bb\u0420\u00a0\u0412\u00b5\u0420\u00a0\u0420\u2026\u0420\u00a0\u0421\u2018\u0420\u040e\u0420\u040f \u0420\u00a0\u0422\u2018\u0420\u00a0\u0412\u00b0\u0420\u00a0\u0420\u2026\u0420\u00a0\u0420\u2026\u0420\u040e\u0432\u0402\u2116\u0420\u040e\u0432\u0402\u00a6." }]

/-! ## Final-stage titles, descriptions and questions -/

/-- `_final_test_title`. -/
def final_test_title (target_difficulty : Option String) : String :=
  final_test_title_pre ++ normalize_difficulty target_difficulty ++ ")"

/-- `_legacy_final_test_title`. -/
def legacy_final_test_title (target_difficulty : Option String) : String :=
  legacy_final_test_title_pre ++ normalize_difficulty target_difficulty ++ ")"

/-- `_final_simulation_title`. -/
def final_simulation_title (target_difficulty : Option String) : String :=
  final_simulation_title_pre ++ normalize_difficulty target_difficulty ++ ")"

/-- `_legacy_final_simulation_title`. -/
def legacy_final_simulation_title (target_difficulty : Option String) : String :=
  legacy_final_simulation_title_pre ++ normalize_difficulty target_difficulty ++ ")"

/-- `_final_test_description`. -/
def final_test_description (target_difficulty : Option String) : String :=
  let normalized := normalize_difficulty target_difficulty
  if normalized = "advanced" then final_test_description_advanced
  else if normalized = "intermediate" then final_test_description_intermediate
  else final_test_description_beginner

/-- `_final_simulation_description`. -/
def final_simulation_description (target_difficulty : Option String) : String :=
  let normalized := normalize_difficulty target_difficulty
  if normalized = "advanced" then final_simulation_description_advanced
  else if normalized = "intermediate" then final_simulation_description_intermediate
  else final_simulation_description_beginner

/-- `_final_simulation_intro`. -/
def final_simulation_intro (target_difficulty : Option String) : String :=
  let normalized := normalize_difficulty target_difficulty
  if normalized = "advanced" then final_simulation_intro_advanced
  else if normalized = "intermediate" then final_simulation_intro_intermediate
  else final_simulation_intro_beginner

/-- `_final_test_questions`. -/
def final_test_questions (target_difficulty : Option String) : List QuestionPayload :=
  let normalized := normalize_difficulty target_difficulty
  if normalized = "advanced" then final_test_questions_advanced
  else if normalized = "intermediate" then final_test_questions_intermediate
  else final_test_questions_beginner

/-- `_is_final_title`. -/
def is_final_title (value : String) : Bool :=
  let normalized := normalize_text value
  if normalized = "" then false
  else
    strContains normalized is_final_c0
    || strStartsWith normalized is_final_c1
    || strStartsWith normalized is_final_c2
    || strStartsWith normalized is_final_c3
    || strStartsWith normalized is_final_c4
    || strContains normalized is_final_c5
    || strContains normalized is_final_c6

/-- `_is_final_test`. -/
def is_final_test (t : Test) : Bool :=
  is_final_title t.title || is_final_title t.description

/-! ## Progress arithmetic -/

/-- A material-progress entry (`material_progress[material_id]`).  A raw
stored entry that lacks a key is modelled by that field's default — the
engine reads every missing key with a falsy default, so this only coarsens
the dict-equality used for the change flag, never the recomputed values. -/
structure MatEntry where
  linked_test_id : Option Int := none
  article_opened : Bool := false
  article_opened_at : Option String := none
  test_completed : Bool := false
  test_completed_at : Option String := none
  percentage : ℚ := 0
deriving Repr, DecidableEq

/-- The aggregate `progress` dict. -/
structure ProgressOut where
  completed : Nat
  total : Nat
  percentage : ℚ
deriving Repr, DecidableEq

/-- Python `round(x, 2)` on the exact rational value. -/
def round2 (x : ℚ) : ℚ := (round (x * 100) : ℤ) / 100

/-- `_material_progress_percentage`. -/
def material_progress_percentage (article_opened test_completed : Bool) : ℚ :=
  (if article_opened then 50 else 0) + (if test_completed then 50 else 0)

/-- `_compute_components_progress`. -/
def compute_components_progress (tasks : List TaskDict) (materials : List MaterialDict)
    (material_progress : List (String × MatEntry)) : ProgressOut :=
  let completed_tasks := (tasks.filter (fun t => pyLower t.status = "completed")).length
  let opened_articles := (materials.filter (fun m =>
    match material_progress.lookup m.id with
    | some e => e.article_opened
    | none => false)).length
  let completed_material_tests := (materials.filter (fun m =>
    match material_progress.lookup m.id with
    | some e => e.test_completed
    | none => false)).length
  let completed := completed_tasks + opened_articles + completed_material_tests
  let total := tasks.length + materials.length * 2
  let percentage : ℚ := if 0 < total then (completed : ℚ) / (total : ℚ) * 100 else 0
  { completed := completed, total := total, percentage := round2 percentage }

/-! ## Achievements -/

/-- An entry of `block_achievements`. -/
structure AchItem where
  id : String := ""
  title : String := ""
  achieved_at : Option String := none
deriving Repr, DecidableEq

/-- The `final_stage` dict.  Every field is optional so that structure
equality coincides with Python dict equality (key present vs. absent). -/
structure FinalStage where
  final_test_id : Option Int := none
  final_simulation_id : Option Int := none
  unlocked : Option Bool := none
  final_test_completed : Option Bool := none
  final_simulation_completed : Option Bool := none
  completed : Option Bool := none
  level_up_applied : Option Bool := none
  completed_at : Option String := none
  achievement_title : Option String := none
deriving Repr, DecidableEq

/-- The `content` document of a `DevelopmentPlan` row.  `none` models a key
that is absent (or holds a value of the wrong shape, which every reader of
this engine coerces to the same default). -/
structure PlanContent where
  weaknesses : List String := []
  materials : Option (List MaterialDict) := none
  tasks : Option (List TaskDict) := none
  recommended_tests : List TestRec := []
  target_difficulty : Option String := none
  material_test_map : Option (List (String × Int)) := none
  material_progress : Option (List (String × MatEntry)) := none
  final_stage : Option FinalStage := none
  block_achievements : Option (List AchItem) := none
deriving Repr, DecidableEq

/-- A `DevelopmentPlan` row (timestamps are integers). -/
structure Plan where
  id : Int
  generated_at : Int
  is_archived : Bool
  content : PlanContent
deriving Repr, DecidableEq

/-- `_difficulty_ru_label`. -/
def difficulty_ru_label (difficulty : String) : String :=
  let normalized := pyLower (pyStrip difficulty)
  if normalized = "advanced" then difficulty_ru_advanced
  else if normalized = "intermediate" then difficulty_ru_intermediate
  else difficulty_ru_beginner

/-- `content.get("target_difficulty") or "beginner"` as a string. -/
def content_target_or_beginner (content : PlanContent) : String :=
  match content.target_difficulty with
  | some s => if s = "" then "beginner" else s
  | none => "beginner"

/-- `_build_block_achievement_title`. -/
def build_block_achievement_title (content : PlanContent) : String :=
  block_achievement_title_pre ++ difficulty_ru_label (content_target_or_beginner content)
    ++ block_achievement_title_suf

/-- `content.get("target_difficulty") or "unknown"` for the legacy
fallback achievement id. -/
def content_target_or_unknown (content : PlanContent) : String :=
  match content.target_difficulty with
  | some s => if s = "" then "unknown" else s
  | none => "unknown"

/-- The id of the fallback achievement `_collect_block_achievements`
recovers from a legacy `final_stage` record of plan `p`. -/
def fallback_achievement_id (p : Plan) : String :=
  "block_" ++ toString p.id ++ "_" ++ content_target_or_unknown p.content

/-- The per-plan raw achievement list read by `_collect_block_achievements`:
the stored `block_achievements` (if a list), plus the legacy fallback entry
synthesized from `final_stage` when `level_up_applied` is set and the
stored achievement title is nonempty. -/
def plan_raw_achievements (p : Plan) : List AchItem :=
  let base := p.content.block_achievements.getD []
  let fs := p.content.final_stage.getD {}
  if fs.level_up_applied.getD false then
    let title := pyStrip (fs.achievement_title.getD "")
    if title ≠ "" then
      base ++ [{ id := fallback_achievement_id p, title := title, achieved_at := fs.completed_at }]
    else base
  else base

/-- Fold state of `_collect_block_achievements`. -/
structure CollectState where
  merged : List AchItem
  seen_ids : List String
  seen_fallback : List (String × String)
deriving Repr, DecidableEq

/-- One item step of the merge loop in `_collect_block_achievements`. -/
def collect_step (plan_id : Int) (st : CollectState) (item : AchItem) : CollectState :=
  let title := pyStrip item.title
  if title = "" then st
  else
    let item_id := pyStrip item.id
    let achieved_at_key := item.achieved_at.getD ""
    if item_id ≠ "" then
      if st.seen_ids.contains item_id then st
      else
        { merged := st.merged ++
            [{ id := item_id, title := title, achieved_at := item.achieved_at }],
          seen_ids := item_id :: st.seen_ids,
          seen_fallback := st.seen_fallback }
    else
      if st.seen_fallback.contains (title, achieved_at_key) then st
      else
        { merged := st.merged ++
            [{ id := "legacy_" ++ toString plan_id ++ "_" ++ toString (st.merged.length + 1),
               title := title, achieved_at := item.achieved_at }],
          seen_ids := st.seen_ids,
          seen_fallback := (title, achieved_at_key) :: st.seen_fallback }

/-- Sort key of `_collect_block_achievements`: `_parse_iso_datetime(v).timestamp()`
with unparseable / missing values mapped to `0.0`.  Timestamps are modelled
as integer literals, so the ISO parser becomes `String.toNat?`. -/
def parse_timestamp_key (v : Option String) : Nat :=
  match v with
  | none => 0
  | some s =>
    if s.toList ≠ [] ∧ s.toList.all Char.isDigit then
      s.toList.foldl (fun acc c => acc * 10 + (c.toNat - 48)) 0
    else 0

/-- `_collect_block_achievements`. -/
def collect_block_achievements (plans : List Plan) : List AchItem :=
  let final := plans.foldl
    (fun st p => (plan_raw_achievements p).foldl (collect_step p.id) st)
    ⟨[], [], []⟩
  List.insertionSort
    (fun a b => parse_timestamp_key b.achieved_at ≤ parse_timestamp_key a.achieved_at)
    final.merged

/-! ## Weakness identification, difficulty resolution, level-up -/

/-- The five `(display name, score)` pairs, in the declaration order of
`_identify_weaknesses`. -/
def identify_weaknesses_skills (p : ScoreProfile) : List (String × ℚ) :=
  [(tm_name, p.time_management_score),
   (ct_name, p.critical_thinking_score),
   (comm_name, p.communication_score),
   (ei_name, p.emotional_intelligence_score),
   (lead_name, p.leadership_score)]

/-- `sorted(skills, key=lambda x: x[1])` — a stable ascending sort by
score. -/
def sorted_skills (p : ScoreProfile) : List (String × ℚ) :=
  List.insertionSort (fun a b => a.2 ≤ b.2) (identify_weaknesses_skills p)

/-- `_identify_weaknesses`: bottom 3 display names. -/
def identify_weaknesses (p : ScoreProfile) : List String :=
  ((sorted_skills p).take 3).map (fun s => s.1)

/-- `_resolve_target_difficulty`. -/
def resolve_target_difficulty (p : ScoreProfile) : String :=
  let avg_score := (p.communication_score + p.emotional_intelligence_score
    + p.critical_thinking_score + p.time_management_score + p.leadership_score) / 5
  if 70 ≤ avg_score then "advanced"
  else if 40 ≤ avg_score then "intermediate"
  else "beginner"

/-- `_next_level_floor_for_difficulty`. -/
def next_level_floor_for_difficulty (difficulty : String) : Int :=
  let normalized := pyLower (pyStrip difficulty)
  if normalized = "advanced" then 85
  else if normalized = "intermediate" then 75
  else 45

/-- `_apply_final_level_up`. -/
def apply_final_level_up (p : ScoreProfile) (target_difficulty : String) : ScoreProfile :=
  let fl : ℚ := (next_level_floor_for_difficulty target_difficulty : ℤ)
  let step : ℚ := 8
  { communication_score := min 100 (max (p.communication_score + step) fl),
    emotional_intelligence_score := min 100 (max (p.emotional_intelligence_score + step) fl),
    critical_thinking_score := min 100 (max (p.critical_thinking_score + step) fl),
    time_management_score := min 100 (max (p.time_management_score + step) fl),
    leadership_score := min 100 (max (p.leadership_score + step) fl) }

/-! ## Curated material selection -/

/-- `_material_domain`: `urlparse(url).netloc.lstrip("www.")` for the
http(s) URLs this engine handles (no scheme ⇒ empty netloc).  Python's
`lstrip("www.")` strips any leading characters from the set `{w, .}`. -/
def material_domain (url : String) : String :=
  let v := pyLower (pyStrip url)
  let netloc :=
    if strStartsWith v "http://" then ((v.toList.drop 7).takeWhile (fun c => c ≠ '/'))
    else if strStartsWith v "https://" then ((v.toList.drop 8).takeWhile (fun c => c ≠ '/'))
    else []
  String.mk (netloc.dropWhile (fun c => c = 'w' ∨ c = '.'))

/-- `_weakness_to_skill`. -/
def weakness_to_skill (weakness : String) : Option String :=
  let w := pyLower weakness
  if strContains w wk_frag1 || strContains w wk_frag2 then some "time_management"
  else if strContains w wk_frag4 then some "critical_thinking"
  else if strContains w wk_frag6 || strContains w wk_frag7 then some "communication"
  else if strContains w wk_frag9 then some "emotional_intelligence"
  else if strContains w wk_frag11 then some "leadership"
  else none

/-- `_extract_previous_material_ids`. -/
def extract_previous_material_ids (plans : List Plan) : List String :=
  plans.foldl (fun acc p =>
    (p.content.materials.getD []).foldl (fun acc m =>
      if m.id ≠ "" ∧ ¬ acc.contains m.id then acc ++ [m.id] else acc) acc) []

/-- Update-or-append on an association list (Python dict assignment). -/
def assocSet {α : Type} (l : List (String × α)) (k : String) (v : α) : List (String × α) :=
  match l with
  | [] => [(k, v)]
  | (k0, v0) :: rest => if k0 = k then (k, v) :: rest else (k0, v0) :: assocSet rest k v

/-- The `max_per_domain` constant of `_select_curated_materials`. -/
def max_per_domain : Nat := 3

/-- Selection state of `_select_curated_materials`. -/
structure SelState where
  picked : List LibEntry
  domain_counts : List (String × Nat)
deriving Repr, DecidableEq

/-- `_can_take`. -/
def can_take (used_ids : List String) (st : SelState) (candidate : LibEntry)
    (ignore_domain_limit : Bool) : Bool :=
  if used_ids.contains candidate.id then false
  else if st.picked.contains candidate then false
  else
    let domain := material_domain candidate.url
    if domain = "" then false
    else if ignore_domain_limit then true
    else (st.domain_counts.lookup domain).getD 0 < max_per_domain

/-- `_take`. -/
def take_entry (st : SelState) (candidate : LibEntry) : SelState :=
  let domain := material_domain candidate.url
  { picked := st.picked ++ [candidate],
    domain_counts := assocSet st.domain_counts domain
      ((st.domain_counts.lookup domain).getD 0 + 1) }

/-- One greedy pass over a candidate list (the `for m in candidates` loops
with their `len(picked) >= limit` breaks). -/
def scan_take (used_ids : List String) (lim : Nat) (ignore_domain_limit : Bool) :
    List LibEntry → SelState → SelState
  | [], st => st
  | c :: cs, st =>
    if lim ≤ st.picked.length then st
    else if can_take used_ids st c ignore_domain_limit then
      scan_take used_ids lim ignore_domain_limit cs (take_entry st c)
    else scan_take used_ids lim ignore_domain_limit cs st

/-- The priority order of skills: weaknesses first, then the remaining
skills in catalog order. -/
def selector_skill_order (weaknesses : List String) : List String :=
  let fromWeak := weaknesses.foldl (fun acc w =>
    match weakness_to_skill w with
    | some skill => if ¬ acc.contains skill then acc ++ [skill] else acc
    | none => acc) []
  ["communication", "emotional_intelligence", "critical_thinking",
   "time_management", "leadership"].foldl
    (fun acc skill => if ¬ acc.contains skill then acc ++ [skill] else acc) fromWeak

/-- Index (from the front) of the last `"article"` entry of `picked`:
`next((i for i, m in enumerate(reversed(picked)) if type == "article"), None)`
translated to the front index `len - 1 - i`. -/
def last_article_idx (picked : List LibEntry) : Option Nat :=
  match picked.reverse.findIdx? (fun m => m.mtype = "article") with
  | some i => some (picked.length - 1 - i)
  | none => none

/-- One step of the final type-mix pass for a missing type `t`. -/
def type_swap_step (used_ids : List String) (lim : Nat) (st : SelState) (t : String) :
    SelState :=
  match curated_material_library.find? (fun m => m.mtype = t && can_take used_ids st m false) with
  | none => st
  | some replacement =>
    if st.picked.length < lim then take_entry st replacement
    else
      match last_article_idx st.picked with
      | none => st
      | some idx =>
        let removed := (st.picked.getD idx ⟨"", "", "", "", ""⟩)
        let removed_domain := material_domain removed.url
        let dc1 := assocSet st.domain_counts removed_domain
          (((st.domain_counts.lookup removed_domain).getD 1) - 1)
        let replacement_domain := material_domain replacement.url
        let dc2 := assocSet dc1 replacement_domain ((dc1.lookup replacement_domain).getD 0 + 1)
        { picked := st.picked.set idx replacement, domain_counts := dc2 }

/-- The final type-mix pass: ensure a `"course"` and a `"video"` are
present, swapping out the last `"article"` when the list is full. -/
def type_swap_pass (used_ids : List String) (lim : Nat) (st : SelState) : SelState :=
  let picked_types := st.picked.map (fun m => m.mtype)
  let need_types := (["course", "video"]).filter (fun t => ¬ picked_types.contains t)
  need_types.foldl (type_swap_step used_ids lim) st

/-- Pass 1 of `_select_curated_materials`: per-skill greedy picks under
the domain cap. -/
def selector_pass1 (weaknesses : List String) (used_ids : List String) (lim : Nat) :
    SelState :=
  (selector_skill_order weaknesses).foldl (fun st skill =>
    if lim ≤ st.picked.length then st
    else scan_take used_ids lim false
      (curated_material_library.filter (fun m => m.skill = skill)) st) ⟨[], []⟩

/-- Pass 2: whole catalog, domain cap still active. -/
def selector_pass2 (weaknesses : List String) (used_ids : List String) (lim : Nat) :
    SelState :=
  let st1 := selector_pass1 weaknesses used_ids lim
  if st1.picked.length < lim then scan_take used_ids lim false curated_material_library st1
  else st1

/-- Pass 3: whole catalog, domain cap relaxed (the exclusion set is not). -/
def selector_pass3 (weaknesses : List String) (used_ids : List String) (lim : Nat) :
    SelState :=
  let st2 := selector_pass2 weaknesses used_ids lim
  if st2.picked.length < lim then scan_take used_ids lim true curated_material_library st2
  else st2

/-- `_select_curated_materials` with the exclusion set as an explicit
parameter (the callers pass `_extract_previous_material_ids(previous_plans)`). -/
def select_curated_with (weaknesses : List String) (target_difficulty : String)
    (used_ids : List String) (lim : Nat) : List MaterialDict :=
  let st4 := type_swap_pass used_ids lim (selector_pass3 weaknesses used_ids lim)
  (st4.picked.take lim).map (fun m =>
    { id := m.id, title := m.title, url := m.url, mtype := m.mtype,
      skill := m.skill, difficulty := target_difficulty })

def select_curated_materials (weaknesses : List String) (target_difficulty : String)
    (previous_plans : List Plan) : List MaterialDict :=
  select_curated_with weaknesses target_difficulty
    (extract_previous_material_ids previous_plans) 7

/-! ## Material–test assignment (`_assign_tests_to_materials`) -/

/-- The eligible assessments: non-simulation, non-final
(`[t for t in tests if str(t.type).lower() != "simulation" and not _is_final_test(t)]`). -/
def filtered_tests (tests : List Test) : List Test :=
  tests.filter (fun t => pyLower t.ttype ≠ "simulation" && ¬ is_final_test t)

/-- The first skill (in `skill_keywords` order) whose keyword list matches
the lowercased `"{title} {description}"` of a test. -/
def first_matched_skill (t : Test) : Option String :=
  let text := pyLower (t.title ++ " " ++ t.description)
  (skill_keywords.find? (fun kv => kv.2.any (fun k => strContains text k))).map (fun kv => kv.1)

/-- `tests_by_skill[skill]` : ids of the eligible tests whose first matched
skill is `skill`, in id order of the filtered list.  (The source builds the
same lists by appending inside one loop over `filtered_tests`.) -/
def tests_by_skill (tests : List Test) (skill : String) : List Int :=
  ((filtered_tests tests).filter (fun t => first_matched_skill t = some skill)).map (fun t => t.id)

/-- `fallback_ids`: ids of all eligible tests. -/
def fallback_ids (tests : List Test) : List Int :=
  (filtered_tests tests).map (fun t => t.id)

/-- One cyclic scan used by `_pick_candidate`: try offsets `0 … n-1`,
index `(start + offset) % n`, and return the first candidate satisfying
`p` together with `idx + 1`. -/
def scan_cyclic (cand : List Int) (start : Nat) (p : Int → Bool) : Option (Int × Nat) :=
  (List.range cand.length).findSome? (fun offset =>
    let idx := (start + offset) % cand.length
    match cand.get? idx with
    | some c => if p c then some (c, idx + 1) else none
    | none => none)

/-- `_pick_candidate`: prefer unused∧uncompleted, then unused, then
uncompleted (even if used), then anything. -/
def pick_candidate (used completed : List Int) (cand : List Int) (start : Nat) :
    Option Int × Nat :=
  if cand.isEmpty then (none, start)
  else
    match scan_cyclic cand start (fun c => ¬ used.contains c && ¬ completed.contains c) with
    | some (c, k) => (some c, k)
    | none =>
      match scan_cyclic cand start (fun c => ¬ used.contains c) with
      | some (c, k) => (some c, k)
      | none =>
        match scan_cyclic cand start (fun c => ¬ completed.contains c) with
        | some (c, k) => (some c, k)
        | none => (some (cand.getD (start % cand.length) 0), start + 1)

/-- `_can_reuse_existing`. -/
def can_reuse_existing (tests_by_id used completed : List Int) (current : Int)
    (skill_candidate_ids : List Int) : Bool :=
  if ¬ tests_by_id.contains current || used.contains current then false
  else if ¬ completed.contains current then true
  else if skill_candidate_ids.isEmpty then true
  else ¬ skill_candidate_ids.any (fun c => c ≠ current && ¬ completed.contains c)

/-- Fold state of the assignment loop. -/
structure AssignState where
  mapping : List (String × Int)
  used : List Int
  usage_cursor : List (String × Nat)
  fallback_cursor : Nat
deriving Repr, DecidableEq

/-- `used_ids.add`. -/
def used_add (used : List Int) (v : Int) : List Int :=
  if used.contains v then used else v :: used

/-- The body of `for material in materials` in `_assign_tests_to_materials`. -/
def assign_step (tests : List Test) (completed_ids : List Int)
    (existing_map : List (String × Int)) (st : AssignState) (m : MaterialDict) :
    AssignState :=
  let material_id := pyStrip m.id
  if material_id = "" then st
  else
    let current := existing_map.lookup material_id
    let skill := pyLower (pyStrip m.skill)
    let candidate_ids := tests_by_skill tests skill
    let reuse :=
      match current with
      | some cid =>
        if can_reuse_existing ((filtered_tests tests).map (fun t => t.id)) st.used
            completed_ids cid candidate_ids then some cid else none
      | none => none
    match reuse with
    | some cid =>
      { st with mapping := assocSet st.mapping material_id cid, used := used_add st.used cid }
    | none =>
      let (sel1, st1) :=
        if ¬ candidate_ids.isEmpty then
          let (s, next_cursor) := pick_candidate st.used completed_ids candidate_ids
            ((st.usage_cursor.lookup skill).getD 0)
          (s, { st with usage_cursor := assocSet st.usage_cursor skill next_cursor })
        else (none, st)
      let (sel2, st2) :=
        match sel1 with
        | some s => (some s, st1)
        | none =>
          if ¬ (fallback_ids tests).isEmpty then
            let (s, fc) := pick_candidate st1.used completed_ids (fallback_ids tests)
              st1.fallback_cursor
            (s, { st1 with fallback_cursor := fc })
          else (none, st1)
      match sel2 with
      | some s =>
        { st2 with mapping := assocSet st2.mapping material_id s, used := used_add st2.used s }
      | none => st2

/-- `_assign_tests_to_materials`. -/
def assign_tests_to_materials (materials : List MaterialDict) (tests : List Test)
    (existing_map : List (String × Int)) (completed_test_ids : List Int) :
    List (String × Int) :=
  let completed_ids := completed_test_ids.filter (fun i => 0 < i)
  (materials.foldl (assign_step tests completed_ids existing_map) ⟨[], [], [], 0⟩).mapping

/-! ## Database state

One user's slice of the database.  Completion events carry integer
timestamps; the `Question` table is not tracked (its synchronization never
touches the plan document, the `Test` rows, the profile, or any view field
a claim observes). -/

structure Db where
  plans : List Plan
  tests : List Test
  test_results : List (Int × Int)
  case_solutions : List (Int × Int)
  profile : Option ScoreProfile
  profile_history : List ScoreProfile
deriving Repr, DecidableEq

/-- Does an event list contain a completion of test `i` inside the given
half-open window (`completed_at >= after`, `completed_at < before`)? -/
def completion_hit (events : List (Int × Int)) (aft bef : Option Int) (i : Int) : Bool :=
  events.any (fun e => e.1 = i
    && (match aft with | some a => decide (a ≤ e.2) | none => true)
    && (match bef with | some b => decide (e.2 < b) | none => true))

/-- `_get_completion_test_ids` (as the list of queried ids that have a
matching `UserTestResult` or `CaseSolution` row; used only through
membership). -/
def get_completion_test_ids (db : Db) (test_ids : List Int)
    (completed_after completed_before : Option Int) : List Int :=
  (test_ids.filter (fun i => 0 < i)).filter (fun i =>
    completion_hit db.test_results completed_after completed_before i
    || completion_hit db.case_solutions completed_after completed_before i)

/-- `ORDER BY Test.id ASC`. -/
def sort_tests_by_id (ts : List Test) : List Test :=
  List.insertionSort (fun a b => a.id ≤ b.id) ts

/-- The modelled autoincrement primary key of the `Test` table. -/
def next_test_id (ts : List Test) : Int :=
  1 + ts.foldl (fun acc t => max acc t.id) 0

/-- `final_test.title = strip_final_marker(str(title or default)) or default`. -/
def refreshed_final_title (stored default_title : String) : String :=
  let base := if stored = "" then default_title else stored
  let stripped := strip_final_marker base
  if stripped = "" then default_title else stripped

/-- The final-test (quiz) resolution step of `_ensure_final_stage_tests`:
resolve by stored id, else by title, refresh it, or create it.  Returns
the final test together with the rewritten `Test` table. -/
def ensure_quiz_pair (content : PlanContent) (tests : List Test) : Test × List Test :=
  let target := normalize_difficulty content.target_difficulty
  let fs := content.final_stage.getD {}
  let ftitle := final_test_title (some target)
  let lftitle := legacy_final_test_title (some target)
  let by_id : Option Test :=
    match fs.final_test_id with
    | some i =>
      match tests.find? (fun t => t.id = i) with
      | some cand => if pyLower cand.ttype ≠ "simulation" then some cand else none
      | none => none
    | none => none
  let found : Option Test :=
    match by_id with
    | some t => some t
    | none => tests.find? (fun t => t.ttype = "quiz" && (t.title = ftitle || t.title = lftitle))
  match found with
  | none =>
    let newT : Test := { id := next_test_id tests, title := ftitle,
                         description := final_test_description (some target), ttype := "quiz" }
    (newT, tests ++ [newT])
  | some t =>
    let upd : Test := { t with title := refreshed_final_title t.title ftitle,
                               description := final_test_description (some target) }
    (upd, tests.map (fun x => if x.id = t.id then upd else x))

/-- The final-simulation resolution step of `_ensure_final_stage_tests`,
run on the table already rewritten by the quiz step. -/
def ensure_sim_pair (content : PlanContent) (tests1 : List Test) : Test × List Test :=
  let target := normalize_difficulty content.target_difficulty
  let fs := content.final_stage.getD {}
  let stitle := final_simulation_title (some target)
  let lstitle := legacy_final_simulation_title (some target)
  let sim_by_id : Option Test :=
    match fs.final_simulation_id with
    | some i =>
      match tests1.find? (fun t => t.id = i) with
      | some cand => if pyLower cand.ttype = "simulation" then some cand else none
      | none => none
    | none => none
  let sim_found : Option Test :=
    match sim_by_id with
    | some t => some t
    | none => tests1.find? (fun t => t.ttype = "simulation"
        && (t.title = stitle || t.title = lstitle))
  match sim_found with
  | none =>
    let newT : Test := { id := next_test_id tests1, title := stitle,
                         description := final_simulation_description (some target),
                         ttype := "simulation" }
    (newT, tests1 ++ [newT])
  | some t =>
    let upd : Test := { t with title := refreshed_final_title t.title stitle,
                               description := final_simulation_description (some target) }
    (upd, tests1.map (fun x => if x.id = t.id then upd else x))

/-- `_ensure_final_stage_tests`, without the `Question`-table writes (see
`Db`).  Returns the content with its `target_difficulty` normalized, the
`final_stage` dict with both ids resolved, and the updated `Test` table. -/
def ensure_final_stage_tests (content : PlanContent) (tests : List Test) :
    PlanContent × FinalStage × List Test :=
  let p2 := ensure_sim_pair content (ensure_quiz_pair content tests).2
  ({ content with target_difficulty := some (normalize_difficulty content.target_difficulty) },
   { content.final_stage.getD {} with
       final_test_id := some (ensure_quiz_pair content tests).1.id,
       final_simulation_id := some p2.1.id },
   p2.2)

/-! ## Progress synchronizer (`sync_plan_tracking`) -/

/-- Python dict equality between the engine-built association lists
(both sides have unique keys, so key-set + per-key value equality). -/
def dict_beq {α : Type} [DecidableEq α] (a b : List (String × α)) : Bool :=
  a.all (fun kv => b.lookup kv.1 = some kv.2) && b.all (fun kv => a.lookup kv.1 = some kv.2)

/-- The view of one sync pass (the dict `sync_plan_tracking` returns). -/
structure SyncView where
  material_progress : List (String × MatEntry)
  progress : ProgressOut
  final_stage : FinalStage
  block_achievements : List AchItem
deriving Repr, DecidableEq

/-- The full outcome of one sync pass: the (possibly) rewritten content,
the updated `Test` table, the change flag, and the returned view. -/
structure SyncOutcome where
  content : PlanContent
  tests : List Test
  changed : Bool
  view : SyncView
deriving Repr, DecidableEq

/-- The normalized `material_progress` entry built for `material_id`. -/
def normalized_entry (material_progress : List (String × MatEntry))
    (material_test_map : List (String × Int)) (completed_test_ids : List Int)
    (now_iso : String) (material_id : String) : MatEntry :=
  let entry := (material_progress.lookup material_id).getD {}
  let article_opened := entry.article_opened
  let article_opened_at := entry.article_opened_at
  let linked_test_id := material_test_map.lookup material_id
  let test_completed :=
    match linked_test_id with
    | some l => completed_test_ids.contains l
    | none => false
  let tca0 := entry.test_completed_at
  let tca1 := if test_completed = true ∧ (tca0 = none ∨ tca0 = some "") then some now_iso
              else tca0
  let tca2 := if test_completed = false then none else tca1
  { linked_test_id := linked_test_id,
    article_opened := article_opened,
    article_opened_at := article_opened_at,
    test_completed := test_completed,
    test_completed_at := tca2,
    percentage := material_progress_percentage article_opened test_completed }

/-! The stages of `sync_plan_tracking`, in execution order.  Each stage is
a function of the database, the plan and (for the timestamping stage) the
current time, so the final definition assembles them exactly as the source
body does. -/

/-- The eligible regular tests: non-simulation (SQL filter), non-final, in
id order. -/
def sync_regular_tests (db : Db) : List Test :=
  ((sort_tests_by_id db.tests).filter
    (fun t => t.ttype ≠ "simulation")).filter (fun t => ¬ is_final_test t)

/-- Regular-test completions strictly before the plan's generation time. -/
def sync_completed_before (db : Db) (plan : Plan) : List Int :=
  get_completion_test_ids db
    (((sync_regular_tests db).map (fun t => t.id)).filter (fun i => 0 < i))
    none (some plan.generated_at)

/-- Stage (1): the recomputed `material_test_map`. -/
def sync_computed_map (db : Db) (plan : Plan) : List (String × Int) :=
  assign_tests_to_materials (plan.content.materials.getD []) (sync_regular_tests db)
    (plan.content.material_test_map.getD []) (sync_completed_before db plan)

/-- Did stage (1) change the stored map? -/
def sync_map_changed (db : Db) (plan : Plan) : Bool :=
  ¬ dict_beq (sync_computed_map db plan) (plan.content.material_test_map.getD [])

/-- The map used by the rest of the pass. -/
def sync_map2 (db : Db) (plan : Plan) : List (String × Int) :=
  if sync_map_changed db plan then sync_computed_map db plan
  else plan.content.material_test_map.getD []

/-- The stripped nonempty material ids, in order. -/
def sync_material_ids (plan : Plan) : List String :=
  ((plan.content.materials.getD []).map (fun m => pyStrip m.id)).filter (fun i => i ≠ "")

/-- Completions of the mapped tests after the plan's generation time. -/
def sync_completed_after (db : Db) (plan : Plan) : List Int :=
  get_completion_test_ids db
    ((sync_material_ids plan).filterMap (fun mid =>
      match (sync_map2 db plan).lookup mid with
      | some tid => if 0 < tid then some tid else none
      | none => none))
    (some plan.generated_at) none

/-- Stage (2): rebuild `material_progress` over the material ids. -/
def build_material_progress (ids : List String) (mp : List (String × MatEntry))
    (map : List (String × Int)) (comp : List Int) (now_iso : String) :
    List (String × MatEntry) :=
  ids.foldl (fun acc mid => assocSet acc mid (normalized_entry mp map comp now_iso mid)) []

/-- The normalized `material_progress` of this pass. -/
def sync_normalized (db : Db) (plan : Plan) (now_iso : String) : List (String × MatEntry) :=
  build_material_progress (sync_material_ids plan) (plan.content.material_progress.getD [])
    (sync_map2 db plan) (sync_completed_after db plan) now_iso

/-- Did stage (2) change the stored `material_progress`? -/
def sync_mp_changed (db : Db) (plan : Plan) (now_iso : String) : Bool :=
  ¬ dict_beq (sync_normalized db plan now_iso) (plan.content.material_progress.getD [])

/-- The `material_progress` returned in the view. -/
def sync_mp2 (db : Db) (plan : Plan) (now_iso : String) : List (String × MatEntry) :=
  if sync_mp_changed db plan now_iso then sync_normalized db plan now_iso
  else plan.content.material_progress.getD []

/-- Stage (3): the aggregate progress. -/
def sync_progress (db : Db) (plan : Plan) (now_iso : String) : ProgressOut :=
  compute_components_progress (plan.content.tasks.getD [])
    (plan.content.materials.getD []) (sync_mp2 db plan now_iso)

/-- The content handed to `_ensure_final_stage_tests` (map and progress
keys rewritten only when they changed). -/
def sync_contentA (db : Db) (plan : Plan) (now_iso : String) : PlanContent :=
  { plan.content with
    material_test_map := if sync_map_changed db plan then some (sync_computed_map db plan)
      else plan.content.material_test_map,
    material_progress := if sync_mp_changed db plan now_iso
      then some (sync_normalized db plan now_iso)
      else plan.content.material_progress }

/-- Stage (4): the final-stage provisioning result. -/
def sync_ensure (db : Db) (plan : Plan) (now_iso : String) :
    PlanContent × FinalStage × List Test :=
  ensure_final_stage_tests (sync_contentA db plan now_iso) db.tests

/-- Completions of the two final items after the plan's generation time. -/
def sync_completion_set (db : Db) (plan : Plan) (now_iso : String) : List Int :=
  let fs0 := (sync_ensure db plan now_iso).2.1
  get_completion_test_ids db
    ((match fs0.final_test_id with | some i => [i] | none => []) ++
     (match fs0.final_simulation_id with | some i => [i] | none => []))
    (some plan.generated_at) none

/-- The fully recomputed `final_stage` dict. -/
def sync_final_stage (db : Db) (plan : Plan) (now_iso : String) : FinalStage :=
  let fs0 := (sync_ensure db plan now_iso).2.1
  let contentB := (sync_ensure db plan now_iso).1
  let completion_set := sync_completion_set db plan now_iso
  let final_test_completed :=
    match fs0.final_test_id with
    | some i => completion_set.contains i
    | none => false
  let final_simulation_completed :=
    match fs0.final_simulation_id with
    | some i => completion_set.contains i
    | none => false
  { fs0 with
    unlocked := some (decide (100 ≤ (sync_progress db plan now_iso).percentage)),
    final_test_completed := some final_test_completed,
    final_simulation_completed := some final_simulation_completed,
    completed := some (final_test_completed && final_simulation_completed),
    level_up_applied := some (fs0.level_up_applied.getD false),
    achievement_title := some (build_block_achievement_title contentB) }

/-- `sync_plan_tracking`.  `now_iso` models `datetime.now().isoformat()`;
the assembled stages mirror the body of the source function line by line. -/
def sync_plan_tracking (db : Db) (plan : Plan) (now_iso : String) : SyncOutcome :=
  let contentB := (sync_ensure db plan now_iso).1
  let tests2 := (sync_ensure db plan now_iso).2.2
  let fs1 := sync_final_stage db plan now_iso
  let previous_final_stage := plan.content.final_stage.getD {}
  let achievements := contentB.block_achievements.getD []
  let previous_achievements := contentB.block_achievements.getD []
  let fs_changed : Bool := fs1 ≠ previous_final_stage
  let ach_changed : Bool := achievements ≠ previous_achievements
  let contentC := { contentB with final_stage := some fs1,
                                  block_achievements := some achievements }
  let changed := sync_map_changed db plan || sync_mp_changed db plan now_iso
    || fs_changed || ach_changed
  { content := contentC,
    tests := tests2,
    changed := changed,
    view := { material_progress := sync_mp2 db plan now_iso,
              progress := sync_progress db plan now_iso,
              final_stage := fs1, block_achievements := achievements } }

/-- Run one sync pass and commit its effects: the `Test`-table writes are
flushed unconditionally; the plan content is written only when the change
flag is set (`await db.commit()` inside the `if changed` block). -/
def run_sync (db : Db) (plan : Plan) (now_iso : String) : Db × SyncOutcome :=
  let o := sync_plan_tracking db plan now_iso
  let db1 := { db with
    tests := o.tests,
    plans := if o.changed then
        db.plans.map (fun p => if p.id = plan.id then { p with content := o.content } else p)
      else db.plans }
  (db1, o)

/-! ## Plan generation and the level-up orchestrator -/

/-- `get_active_plan`: the sole non-archived plan of the user.  The data
model keeps at most one (`scalar_one_or_none`); `none` also covers the
exceptional multi-active state. -/
def get_active_plan (db : Db) : Option Plan :=
  match db.plans.filter (fun p => ¬ p.is_archived) with
  | [p] => some p
  | _ => none

/-- `ORDER BY generated_at DESC` on plans (stable). -/
def sort_plans_desc (ps : List Plan) : List Plan :=
  List.insertionSort (fun a b => b.generated_at ≤ a.generated_at) ps

/-- The modelled autoincrement primary key of the plan table. -/
def next_plan_id (ps : List Plan) : Int :=
  1 + ps.foldl (fun acc p => max acc p.id) 0

/-- `_resolve_skill` inside `_select_recommended_tests`. -/
def resolve_skill_for_weakness (w : String) : Option String :=
  if w = "" then none
  else
    let normalized := ((pyLower w).replace "-" " ").replace "_" " "
    (skill_keywords.find? (fun kv => kv.2.any (fun k => strContains normalized k))).map
      (fun kv => kv.1)

/-- `_pick_from_candidates` inside `_select_recommended_tests`. -/
def pick_from_candidates (candidates current : List Test) (completed : List Int) :
    Option Test :=
  match candidates.filter (fun t => ¬ current.contains t && ¬ completed.contains t.id) with
  | t :: _ => some t
  | [] =>
    match candidates.filter (fun t => ¬ current.contains t) with
    | t :: _ => some t
    | [] => none

/-- `_select_recommended_tests`. -/
def select_recommended_tests (db : Db) (weaknesses : List String)
    (target_difficulty : String) : List TestRec :=
  let tests0 := ((sort_tests_by_id db.tests).filter
    (fun t => t.ttype ≠ "simulation")).filter (fun t => ¬ is_final_test t)
  if tests0.isEmpty then []
  else
    let preferred_type := if pyLower target_difficulty = "advanced" then "case" else "quiz"
    let preferred := tests0.filter (fun t => pyLower t.ttype = preferred_type)
    let others := tests0.filter (fun t => ¬ preferred.contains t)
    let tests := preferred ++ others
    let all_test_ids := (tests.map (fun t => t.id)).filter (fun i => 0 < i)
    let completed := get_completion_test_ids db all_test_ids none none
    let picked := weaknesses.foldl (fun picked w =>
      if 3 ≤ picked.length then picked
      else
        match resolve_skill_for_weakness w with
        | none => picked
        | some skill =>
          match pick_from_candidates
              (tests.filter (fun t => first_matched_skill t = some skill)) picked completed with
          | some t => picked ++ [t]
          | none => picked) []
    let picked := tests.foldl (fun picked t =>
      if 3 ≤ picked.length || picked.contains t || completed.contains t.id then picked
      else picked ++ [t]) picked
    let picked := tests.foldl (fun picked t =>
      if 3 ≤ picked.length || picked.contains t then picked
      else picked ++ [t]) picked
    let reason := if weaknesses.isEmpty then rec_reason_empty else rec_reason_weak
    (picked.take 3).map (fun t => { test_id := t.id, title := t.title, reason := reason })

/-- `_generate_new_plan`.  External content generation (`UpstreamUnavailable`)
is absorbed by the engine; the model takes the static-fallback branch, whose
`materials` and `recommended_tests` are overwritten by the selectors either
way (only the fallback tasks survive into the stored plan). -/
def generate_new_plan (db : Db) (profile : ScoreProfile) (gen_time : Int) : Db × Plan :=
  let db1 := { db with plans := db.plans.map (fun p =>
    if ¬ p.is_archived then { p with is_archived := true } else p) }
  let weaknesses := identify_weaknesses profile
  let target_difficulty := resolve_target_difficulty profile
  let previous_plans := (sort_plans_desc db1.plans).take 3
  let achievement_plans := (sort_plans_desc db1.plans).take 100
  let materials := select_curated_materials weaknesses target_difficulty previous_plans
  let recommended := select_recommended_tests db1 weaknesses target_difficulty
  let payload : PlanContent :=
    { weaknesses := weaknesses,
      materials := some materials,
      tasks := some fallback_tasks,
      recommended_tests := recommended,
      target_difficulty := some target_difficulty,
      material_test_map := none,
      material_progress := none,
      final_stage := none,
      block_achievements := some (collect_block_achievements achievement_plans) }
  let new_plan : Plan := { id := next_plan_id db1.plans, generated_at := gen_time,
                           is_archived := false, content := payload }
  ({ db1 with plans := db1.plans ++ [new_plan] }, new_plan)

/-- The dict `advance_to_next_level` returns. -/
structure AdvanceOut where
  level_up_applied : Bool
  already_applied : Bool
  new_plan_generated : Bool
  new_plan_id : Int
  achievement_title : String
deriving Repr, DecidableEq

/-- `advance_to_next_level`.  Returns the database state after the call
together with the result (or the raised `ValueError` message).  `gen_time`
is the `generated_at` stamp of the regenerated plan. -/
def advance_to_next_level (db : Db) (now_iso : String) (gen_time : Int) :
    Db × Except String AdvanceOut :=
  match get_active_plan db with
  | none => (db, Except.error advance_err0)
  | some plan =>
    match db.profile with
    | none => (db, Except.error advance_err1)
    | some profile =>
      let so := run_sync db plan now_iso
      let db1 := so.1
      let o := so.2
      let plan1 := ((db1.plans.find? (fun p => p.id = plan.id)).getD plan)
      let content := plan1.content
      let fs := o.view.final_stage
      if ¬ fs.unlocked.getD false then (db1, Except.error advance_err2)
      else if ¬ fs.completed.getD false then (db1, Except.error advance_err3)
      else
        let target_difficulty := content_target_or_beginner content
        let achievement_title := build_block_achievement_title content
        let level_up_was_applied := fs.level_up_applied.getD false
        let stepped :=
          if level_up_was_applied then (db1, profile)
          else
            let profile2 := apply_final_level_up profile target_difficulty
            let fs2 := { fs with level_up_applied := some true,
                                 completed_at := some now_iso,
                                 achievement_title := some achievement_title }
            let achievements := content.block_achievements.getD []
            let achievement_id := "block_" ++ toString plan.id ++ "_" ++ target_difficulty
            let achievements :=
              if achievements.any (fun it => it.id = achievement_id) then achievements
              else achievements ++
                [{ id := achievement_id, title := achievement_title,
                   achieved_at := some now_iso }]
            let content2 := { content with final_stage := some fs2,
                                           block_achievements := some achievements }
            ({ db1 with profile := some profile2,
                        profile_history := db1.profile_history ++ [profile2],
                        plans := db1.plans.map (fun p =>
                          if p.id = plan.id then { p with content := content2 } else p) },
             profile2)
        let db2 := stepped.1
        let profile2 := stepped.2
        let gen := generate_new_plan db2 profile2 gen_time
        (gen.1, Except.ok
          { level_up_applied := true,
            already_applied := level_up_was_applied,
            new_plan_generated := true,
            new_plan_id := gen.2.id,
            achievement_title := achievement_title })

/-! ## Definitions supporting the theorems: spec-worded variants and
concrete fixtures -/

/-- The skill key a material is matched under in
`_assign_tests_to_materials`. -/
def skill_of (m : MaterialDict) : String := pyLower (pyStrip m.skill)

/-- The Weakness Identifier as the claim words it: the same stable
ascending sort, but with the five skills declared in the order
(communication, emotional_intelligence, critical_thinking,
time_management, leadership). -/
def identify_weaknesses_claim_order (p : ScoreProfile) : List String :=
  ((List.insertionSort (fun a b => a.2 ≤ b.2)
    [(comm_name, p.communication_score),
     (ei_name, p.emotional_intelligence_score),
     (ct_name, p.critical_thinking_score),
     (tm_name, p.time_management_score),
     (lead_name, p.leadership_score)]).take 3).map (fun s => s.1)


/-- The ids of the whole curated catalog. -/
def lib_all_ids : List String := curated_material_library.map (fun m => m.id)

/-- The ids of the catalog's `communication` subset. -/
def lib_comm_ids : List String :=
  (curated_material_library.filter (fun m => m.skill = "communication")).map (fun m => m.id)

/-- The catalog minus five `4brain.ru` communication articles. -/
def lib_all_but_five_ids : List String :=
  lib_all_ids.filter (fun i =>
    ¬ (["ru_4brain_comm_communication", "ru_4brain_comm_nonverbal",
        "ru_4brain_comm_listening", "ru_4brain_comm_negotiation",
        "ru_4brain_comm_rhetoric"] : List String).contains i)


/-- Witness materials for the amended assignment-injectivity statement:
two communication materials. -/
def c4w_mats : List MaterialDict :=
  [{ id := "m1", skill := "communication" }, { id := "m2", skill := "communication" }]

/-- Witness tests: two distinct communication assessments, enough to serve
both materials. -/
def c4w_ts : List Test :=
  [{ id := 1, title := "communication quiz a", description := "", ttype := "quiz" },
   { id := 2, title := "communication quiz b", description := "", ttype := "quiz" }]

/-- Witness final stage for the achievement aggregator: level-up applied
with a stored achievement title. -/
def c8_f : FinalStage :=
  { level_up_applied := some true, achievement_title := some "Great",
    completed_at := some "5" }

/-- Witness plan: the block appears both in `block_achievements` and as a
legacy `final_stage` record carrying the same fallback id
`block_7_unknown`, so aggregation must keep exactly one entry. -/
def c8_ach : AchItem :=
  { id := "block_7_unknown", title := "Great", achieved_at := some "3" }

def c8_p : Plan :=
  { id := 7, generated_at := 1, is_archived := true,
    content := { block_achievements := some [c8_ach], final_stage := some c8_f } }

/-! Counterexample fixture for sync idempotence: four communication
quizzes, two communication materials, three completions recorded before
the plan's generation time. -/

def c3_tests : List Test :=
  [{ id := 1, title := "communication quiz a", description := "", ttype := "quiz" },
   { id := 2, title := "communication quiz b", description := "", ttype := "quiz" },
   { id := 3, title := "communication quiz c", description := "", ttype := "quiz" },
   { id := 4, title := "communication quiz d", description := "", ttype := "quiz" }]

def c3_mat1 : MaterialDict := { id := "m1", skill := "communication" }

def c3_mat2 : MaterialDict := { id := "m2", skill := "communication" }

def c3_plan : Plan :=
  { id := 10, generated_at := 5, is_archived := false,
    content := { materials := some [c3_mat1, c3_mat2],
                 target_difficulty := some "beginner" } }

def c3_db : Db :=
  { plans := [c3_plan], tests := c3_tests,
    test_results := [(1, 0), (3, 0), (4, 0)], case_solutions := [],
    profile := none, profile_history := [] }

/-- The database after the first committed sync pass. -/
def c3_db1 : Db := (run_sync c3_db c3_plan "t1").1

/-- The (rewritten) plan row the second pass runs on. -/
def c3_plan1 : Plan := ((c3_db1.plans.find? (fun p => p.id = c3_plan.id)).getD c3_plan)

/-! Fixed-point fixture: a fully synchronized, not-yet-unlocked plan on
which a sync pass is a no-op. -/

def fxs_final_stage : FinalStage :=
  { final_test_id := some 1, final_simulation_id := some 2,
    unlocked := some false, final_test_completed := some false,
    final_simulation_completed := some false, completed := some false,
    level_up_applied := some false, completed_at := none,
    achievement_title := some (block_achievement_title_pre ++ difficulty_ru_beginner
      ++ block_achievement_title_suf) }

def fxs_plan : Plan :=
  { id := 10, generated_at := 5, is_archived := false,
    content := { tasks := some [{ id := "t1", status := "pending" }],
                 target_difficulty := some "beginner",
                 material_test_map := none,
                 material_progress := none,
                 final_stage := some fxs_final_stage,
                 block_achievements := some [] } }

def fxs_tests : List Test :=
  [{ id := 1, title := "quiz one",
     description := final_test_description (some "beginner"), ttype := "quiz" },
   { id := 2, title := "sim one",
     description := final_simulation_description (some "beginner"), ttype := "simulation" }]

def fxs_db : Db :=
  { plans := [fxs_plan], tests := fxs_tests, test_results := [], case_solutions := [],
    profile := some ⟨10, 20, 30, 40, 95⟩, profile_history := [] }

/-! Completed-block fixture: one completed task, no materials, both final
items completed after generation time; `lua` sets the stored
`level_up_applied` flag. -/

def fxc_final_stage (lua : Bool) : FinalStage :=
  { final_test_id := some 1, final_simulation_id := some 2, level_up_applied := some lua }

def fxc_plan (lua : Bool) : Plan :=
  { id := 10, generated_at := 5, is_archived := false,
    content := { tasks := some [{ id := "t1", status := "completed" }],
                 target_difficulty := some "beginner",
                 final_stage := some (fxc_final_stage lua) } }

def fxc_tests : List Test :=
  [{ id := 1, title := "[final] quiz one", description := "", ttype := "quiz" },
   { id := 2, title := "[final] sim one", description := "", ttype := "simulation" }]

def fxc_profile : ScoreProfile := ⟨10, 20, 30, 40, 95⟩

def fxc_db (lua : Bool) : Db :=
  { plans := [fxc_plan lua], tests := fxc_tests,
    test_results := [(1, 7), (2, 8)], case_solutions := [],
    profile := some fxc_profile, profile_history := [] }

/-! # Theorems

The claims of the specification, settled against the embedding above. -/

/-! ## Generic association-list lemmas -/

theorem lookup_mem {α : Type} {l : List (String × α)} {k : String} {v : α}
    (h : l.lookup k = some v) : (k, v) ∈ l := by
  induction l with
  | nil => simp [List.lookup] at h
  | cons kv rest ih =>
    rw [List.lookup] at h
    cases hbe : (k == kv.1)
    · simp only [hbe] at h
      exact List.mem_cons_of_mem _ (ih h)
    · simp only [hbe] at h
      have hk : k = kv.1 := beq_iff_eq.mp hbe
      cases kv
      cases h
      simp_all

theorem assocSet_lookup_eq {α : Type} (l : List (String × α)) (k : String) (v : α) :
    (assocSet l k v).lookup k = some v := by
  induction l with
  | nil => simp [assocSet, List.lookup]
  | cons kv rest ih =>
    rw [assocSet]
    by_cases hk : kv.1 = k
    · simp [hk, List.lookup]
    · simp only [if_neg hk, List.lookup]
      rw [beq_false_of_ne (fun he => hk he.symm)]
      exact ih

theorem assocSet_lookup_ne {α : Type} (l : List (String × α)) (k k' : String) (v : α)
    (h : k' ≠ k) : (assocSet l k v).lookup k' = l.lookup k' := by
  induction l with
  | nil => simp [assocSet, List.lookup, beq_false_of_ne h]
  | cons kv rest ih =>
    rw [assocSet]
    by_cases hk : kv.1 = k
    · subst hk
      simp [List.lookup, beq_false_of_ne h]
    · simp only [if_neg hk, List.lookup]
      cases hbe : (k' == kv.1) <;> simp [ih]

/-! ## C7 — aggregate and material progress formulas -/

/-- **C7.**  For every task list, material list and material-progress map,
the aggregate progress is (completed tasks + opened materials + completed
material tests) over (tasks + 2 × materials), expressed as a rounded
percentage, and each material's own percentage is
50·opened + 50·completed. -/
theorem C7_progress_formula (tasks : List TaskDict) (materials : List MaterialDict)
    (mp : List (String × MatEntry)) :
    (compute_components_progress tasks materials mp).completed
      = tasks.countP (fun t => pyLower t.status = "completed")
        + materials.countP (fun m => ((mp.lookup m.id).getD {}).article_opened)
        + materials.countP (fun m => ((mp.lookup m.id).getD {}).test_completed)
    ∧ (compute_components_progress tasks materials mp).total
      = tasks.length + 2 * materials.length
    ∧ (compute_components_progress tasks materials mp).percentage
      = round2 (if 0 < (compute_components_progress tasks materials mp).total
          then ((compute_components_progress tasks materials mp).completed : ℚ)
            / ((compute_components_progress tasks materials mp).total : ℚ) * 100
          else 0)
    ∧ (∀ o c : Bool, material_progress_percentage o c
        = 50 * (if o then (1 : ℚ) else 0) + 50 * (if c then (1 : ℚ) else 0)) := by
  have hopen : (fun m : MaterialDict =>
      (match mp.lookup m.id with
        | some e => e.article_opened
        | none => false)) = fun m => ((mp.lookup m.id).getD {}).article_opened := by
    funext m
    cases mp.lookup m.id <;> rfl
  have htest : (fun m : MaterialDict =>
      (match mp.lookup m.id with
        | some e => e.test_completed
        | none => false)) = fun m => ((mp.lookup m.id).getD {}).test_completed := by
    funext m
    cases mp.lookup m.id <;> rfl
  refine ⟨?_, ?_, ?_, ?_⟩
  · simp only [compute_components_progress, List.countP_eq_length_filter, hopen, htest]
  · simp only [compute_components_progress]
    ring
  · simp only [compute_components_progress]
  · intro o c
    cases o <;> cases c <;> norm_num [material_progress_percentage]

/-! ## C9 — weakness identifier -/

instance skillLE_total : IsTotal (String × ℚ) (fun a b => a.2 ≤ b.2) :=
  ⟨fun a b => le_total a.2 b.2⟩

instance skillLE_trans : IsTrans (String × ℚ) (fun a b => a.2 ≤ b.2) :=
  ⟨fun _ _ _ h1 h2 => le_trans h1 h2⟩

/-- **C9 counterexample.**  On the all-equal profile the engine returns the
first three names of *its* declaration order (time management, critical
thinking, communication), not the first three of the order the claim
states, so the claimed tie-breaking is false. -/
theorem C9_counterexample :
    identify_weaknesses ⟨50, 50, 50, 50, 50⟩ = [tm_name, ct_name, comm_name]
    ∧ identify_weaknesses_claim_order ⟨50, 50, 50, 50, 50⟩ = [comm_name, ei_name, ct_name]
    ∧ identify_weaknesses ⟨50, 50, 50, 50, 50⟩
      ≠ identify_weaknesses_claim_order ⟨50, 50, 50, 50, 50⟩ := by
  refine ⟨by decide, by decide, by decide⟩

/-- **C9 (amended).**  The Weakness Identifier returns exactly 3 distinct
display names, the 3 lowest-scoring of the five skills; ties are broken by
the code's declaration order (time_management, critical_thinking,
communication, emotional_intelligence, leadership), witnessed on all-equal
scores. -/
theorem C9_weakness_identifier (p : ScoreProfile) :
    (identify_weaknesses p).length = 3
    ∧ (identify_weaknesses p).Nodup
    ∧ (sorted_skills p).Perm (identify_weaknesses_skills p)
    ∧ (∀ x ∈ (sorted_skills p).take 3, ∀ y ∈ (sorted_skills p).drop 3, x.2 ≤ y.2)
    ∧ identify_weaknesses p = ((sorted_skills p).take 3).map (fun s => s.1)
    ∧ (∀ q : ℚ, identify_weaknesses ⟨q, q, q, q, q⟩ = [tm_name, ct_name, comm_name]) := by
  have hperm : (sorted_skills p).Perm (identify_weaknesses_skills p) :=
    List.perm_insertionSort _ _
  refine ⟨?_, ?_, hperm, ?_, rfl, ?_⟩
  · simp [identify_weaknesses, List.length_take, hperm.length_eq, identify_weaknesses_skills]
  · have hmap : ((sorted_skills p).map (fun s => s.1)).Perm
        ((identify_weaknesses_skills p).map (fun s => s.1)) := hperm.map _
    have hnd : ((identify_weaknesses_skills p).map (fun s => s.1)).Nodup := by
      simp only [identify_weaknesses_skills, List.map]
      decide
    have hnd2 : ((sorted_skills p).map (fun s => s.1)).Nodup := hmap.nodup_iff.mpr hnd
    have hsub : (identify_weaknesses p).Sublist ((sorted_skills p).map (fun s => s.1)) := by
      simpa [identify_weaknesses, List.map_take] using
        (List.take_sublist 3 ((sorted_skills p).map (fun s => s.1)))
    exact hnd2.sublist hsub
  · have hs : List.Pairwise (fun a b : String × ℚ => a.2 ≤ b.2) (sorted_skills p) :=
      List.sorted_insertionSort _ _
    rw [← List.take_append_drop 3 (sorted_skills p)] at hs
    exact fun x hx y hy => (List.pairwise_append.mp hs).2.2 x hx y hy
  · intro q
    simp [identify_weaknesses, sorted_skills, identify_weaknesses_skills,
      List.insertionSort, List.orderedInsert, le_refl]

/-! ## C10 — difficulty normalization -/

/-- **C10 counterexample.**  `" advanced"` (leading blank) is neither
missing, empty, nor case-insensitively `"advanced"`/`"intermediate"`, so
the claim says it is treated as `"beginner"`; the engine strips whitespace
first and treats it as `"advanced"`. -/
theorem C10_counterexample :
    pyLower " advanced" ≠ "advanced"
    ∧ pyLower " advanced" ≠ "intermediate"
    ∧ (" advanced" : String) ≠ ""
    ∧ normalize_difficulty (some " advanced") = "advanced" := by
  refine ⟨by decide, by decide, by decide, by decide⟩

/-- **C10 (amended).**  For every plan whose `content.target_difficulty`
is missing, empty, or — after stripping whitespace — case-insensitively
neither `"advanced"` nor `"intermediate"`, the synchronization pass treats
the difficulty as `"beginner"`, overwrites `content.target_difficulty`
with it, and the final-stage titles, question sets and the level-up floor
are those of the beginner difficulty. -/
theorem C10_beginner_default (v : Option String)
    (h1 : pyLower (pyStrip (v.getD "")) ≠ "advanced")
    (h2 : pyLower (pyStrip (v.getD "")) ≠ "intermediate") :
    normalize_difficulty v = "beginner"
    ∧ (∀ content : PlanContent, content.target_difficulty = v →
        ∀ tests, ((ensure_final_stage_tests content tests).1).target_difficulty
          = some "beginner")
    ∧ final_test_title v = final_test_title (some "beginner")
    ∧ final_simulation_title v = final_simulation_title (some "beginner")
    ∧ final_test_questions v = final_test_questions (some "beginner")
    ∧ final_test_description v = final_test_description (some "beginner")
    ∧ next_level_floor_for_difficulty (normalize_difficulty v) = 45 := by
  have hb : normalize_difficulty v = "beginner" := by
    simp [normalize_difficulty, h1, h2]
  have hbb : normalize_difficulty (some "beginner") = "beginner" := by decide
  refine ⟨hb, ?_, ?_, ?_, ?_, ?_, ?_⟩
  · intro content hc tests
    simp only [ensure_final_stage_tests, hc, hb]
  · simp [final_test_title, hb, hbb]
  · simp [final_simulation_title, hb, hbb]
  · simp [final_test_questions, hb, hbb]
  · simp [final_test_description, hb, hbb]
  · rw [hb]
    decide

/-- **C10 witness.**  The amended theorem applied at `some "expert"`. -/
theorem C10_beginner_default_witness :
    normalize_difficulty (some "expert") = "beginner"
    ∧ final_test_questions (some "expert") = final_test_questions (some "beginner") :=
  ⟨(C10_beginner_default (some "expert") (by decide) (by decide)).1,
   (C10_beginner_default (some "expert") (by decide) (by decide)).2.2.2.2.1⟩


/-! ## C5 — curated material selector -/

theorem can_take_not_used {used_ids : List String} {st : SelState} {c : LibEntry}
    {ig : Bool} (h : can_take used_ids st c ig = true) : used_ids.contains c.id = false := by
  unfold can_take at h
  by_cases h1 : used_ids.contains c.id = true
  · rw [if_pos h1] at h
    exact absurd h (by simp)
  · simpa using h1

theorem take_entry_picked (st : SelState) (c : LibEntry) :
    (take_entry st c).picked = st.picked ++ [c] := rfl

theorem mem_of_mem_set {α : Type} {l : List α} {n : Nat} {b a : α}
    (h : a ∈ l.set n b) : a ∈ l ∨ a = b := by
  induction l generalizing n with
  | nil => simp [List.set] at h
  | cons x xs ih =>
    cases n with
    | zero =>
      rcases List.mem_cons.mp h with h | h
      · right; exact h
      · left; exact List.mem_cons_of_mem _ h
    | succ n =>
      rcases List.mem_cons.mp h with h | h
      · left; exact h ▸ List.mem_cons_self _ _
      · rcases ih h with h | h
        · left; exact List.mem_cons_of_mem _ h
        · right; exact h

theorem scan_take_not_used (used_ids : List String) (lim : Nat) (ig : Bool) :
    ∀ (cs : List LibEntry) (st : SelState),
    (∀ m ∈ st.picked, used_ids.contains m.id = false) →
    ∀ m ∈ (scan_take used_ids lim ig cs st).picked, used_ids.contains m.id = false := by
  intro cs
  induction cs with
  | nil => intro st h; simpa [scan_take] using h
  | cons c cs ih =>
    intro st h
    rw [scan_take]
    by_cases hl : lim ≤ st.picked.length
    · rw [if_pos hl]; exact h
    · rw [if_neg hl]
      by_cases hc : can_take used_ids st c ig = true
      · rw [if_pos hc]
        refine ih _ ?_
        intro m hm
        rw [take_entry_picked] at hm
        rcases List.mem_append.mp hm with hm | hm
        · exact h m hm
        · rcases List.mem_singleton.mp hm with rfl
          exact can_take_not_used hc
      · rw [if_neg hc]
        exact ih _ h

theorem type_swap_step_not_used (used_ids : List String) (lim : Nat) (st : SelState)
    (t : String) (h : ∀ m ∈ st.picked, used_ids.contains m.id = false) :
    ∀ m ∈ (type_swap_step used_ids lim st t).picked, used_ids.contains m.id = false := by
  unfold type_swap_step
  cases hf : curated_material_library.find?
      (fun m => m.mtype = t && can_take used_ids st m false) with
  | none => exact h
  | some replacement =>
    have hrep : used_ids.contains replacement.id = false := by
      have := List.find?_some hf
      exact can_take_not_used (by
        cases hct : can_take used_ids st replacement false
        · rw [hct, Bool.and_false] at this; exact absurd this (by simp)
        · rfl)
    by_cases hl : st.picked.length < lim
    · simp only [if_pos hl]
      intro m hm
      rw [take_entry_picked] at hm
      rcases List.mem_append.mp hm with hm | hm
      · exact h m hm
      · rcases List.mem_singleton.mp hm with rfl
        exact hrep
    · simp only [if_neg hl]
      cases last_article_idx st.picked with
      | none => exact h
      | some idx =>
        intro m hm
        rcases mem_of_mem_set hm with hm | rfl
        · exact h m hm
        · exact hrep

theorem type_swap_fold_not_used (used_ids : List String) (lim : Nat) :
    ∀ (need : List String) (st : SelState),
    (∀ m ∈ st.picked, used_ids.contains m.id = false) →
    ∀ m ∈ (need.foldl (type_swap_step used_ids lim) st).picked,
      used_ids.contains m.id = false := by
  intro need
  induction need with
  | nil => intro st h; exact h
  | cons t ts ih =>
    intro st h
    exact ih _ (type_swap_step_not_used used_ids lim st t h)


theorem selector_pass1_not_used (weaknesses used_ids : List String) (lim : Nat) :
    ∀ m ∈ (selector_pass1 weaknesses used_ids lim).picked,
      used_ids.contains m.id = false := by
  unfold selector_pass1
  generalize selector_skill_order weaknesses = skills
  have : ∀ (skills : List String) (st : SelState),
      (∀ x ∈ st.picked, used_ids.contains x.id = false) →
      ∀ x ∈ (skills.foldl (fun st skill =>
          if lim ≤ st.picked.length then st
          else scan_take used_ids lim false
            (curated_material_library.filter (fun m => m.skill = skill)) st) st).picked,
        used_ids.contains x.id = false := by
    intro skills
    induction skills with
    | nil => intro st h; exact h
    | cons s ss ih =>
      intro st h
      simp only [List.foldl]
      by_cases hl : lim ≤ st.picked.length
      · exact ih _ (by simpa [hl] using h)
      · simp only [if_neg hl]
        exact ih _ (scan_take_not_used used_ids lim false _ st h)
  exact this skills ⟨[], []⟩ (by intro x hx; simp [SelState.mk] at hx)

theorem selector_pass3_not_used (weaknesses used_ids : List String) (lim : Nat) :
    ∀ m ∈ (selector_pass3 weaknesses used_ids lim).picked,
      used_ids.contains m.id = false := by
  have h1 := selector_pass1_not_used weaknesses used_ids lim
  have h2 : ∀ m ∈ (selector_pass2 weaknesses used_ids lim).picked,
      used_ids.contains m.id = false := by
    unfold selector_pass2
    by_cases hl : (selector_pass1 weaknesses used_ids lim).picked.length < lim
    · simp only [if_pos hl]
      exact scan_take_not_used used_ids lim false curated_material_library _ h1
    · simpa [if_neg hl] using h1
  unfold selector_pass3
  by_cases hl : (selector_pass2 weaknesses used_ids lim).picked.length < lim
  · simp only [if_pos hl]
    exact scan_take_not_used used_ids lim true curated_material_library _ h2
  · simpa [if_neg hl] using h2

theorem select_curated_not_used (weaknesses : List String) (target_difficulty : String)
    (used_ids : List String) (lim : Nat) :
    ∀ m ∈ select_curated_with weaknesses target_difficulty used_ids lim,
      used_ids.contains m.id = false := by
  intro m hm
  unfold select_curated_with at hm
  rcases List.mem_map.mp hm with ⟨e, he, hme⟩
  have he2 := List.mem_of_mem_take he
  have h4 : ∀ x ∈ (type_swap_pass used_ids lim
      (selector_pass3 weaknesses used_ids lim)).picked,
      used_ids.contains x.id = false := by
    unfold type_swap_pass
    exact type_swap_fold_not_used used_ids lim _ _
      (selector_pass3_not_used weaknesses used_ids lim)
  have := h4 e he2
  rw [← hme]
  exact this

set_option maxRecDepth 100000 in
/-- **C5 counterexample.**  The claim says that when the un-excluded
catalog cannot fill 7 items the selector relaxes the exclusion set, so an
exclusion set that covers an entire skill's catalog subset still yields 7
items.  Excluding the whole catalog covers every skill's subset, yet the
selector returns 0 items: the exclusion set is never relaxed. -/
theorem C5_counterexample :
    (∀ m ∈ curated_material_library, lib_all_ids.contains m.id = true)
    ∧ select_curated_with [] "beginner" lib_all_ids 7 = [] := by
  exact ⟨by decide, by decide⟩

set_option maxRecDepth 100000 in
/-- **C5 (amended).**  The Curated Material Selector returns at most 7
items and never an excluded id (even when the catalog is exhausted); when
the un-excluded catalog cannot fill 7 items it relaxes only the per-domain
cap of 3 — never the exclusion set.  An exclusion set covering one entire
skill's catalog subset still yields 7 items because the other skills'
un-excluded entries fill the quota; an exclusion set leaving only five
same-domain entries yields those five, exceeding the domain cap. -/
theorem C5_curated_selector :
    (∀ (w : List String) (td : String) (used : List String),
      (select_curated_with w td used 7).length ≤ 7)
    ∧ (∀ (w : List String) (td : String) (used : List String),
        ∀ m ∈ select_curated_with w td used 7, used.contains m.id = false)
    ∧ (select_curated_with [] "beginner" lib_comm_ids 7).length = 7
    ∧ (select_curated_with [] "beginner" lib_all_but_five_ids 7).length = 5
    ∧ ((select_curated_with [] "beginner" lib_all_but_five_ids 7).filter
        (fun m => material_domain m.url = "4brain.ru")).length = 5 := by
  refine ⟨?_, ?_, by decide, by decide, by decide⟩
  · intro w td used
    unfold select_curated_with
    simp only [List.length_map]
    exact List.length_take_le _ _
  · intro w td used
    exact select_curated_not_used w td used 7

/-- **C5 witness.**  The amended theorem applied to a concrete exclusion
set: the result for the communication-subset exclusion has length 7 and
omits a concrete excluded id. -/
theorem C5_curated_selector_witness :
    (select_curated_with [] "beginner" lib_comm_ids 7).length ≤ 7
    ∧ (∀ m ∈ select_curated_with [] "beginner" lib_comm_ids 7,
        lib_comm_ids.contains m.id = false) :=
  ⟨C5_curated_selector.1 [] "beginner" lib_comm_ids,
   C5_curated_selector.2.1 [] "beginner" lib_comm_ids⟩

/-! ## C4 — material–test assignment -/

theorem scan_cyclic_sound {cand : List Int} {start : Nat} {p : Int → Bool} {c : Int}
    {k : Nat} (h : scan_cyclic cand start p = some (c, k)) : c ∈ cand ∧ p c = true := by
  unfold scan_cyclic at h
  obtain ⟨off, _, hsome⟩ := List.exists_of_findSome?_eq_some h
  simp only at hsome
  cases hg : cand.get? ((start + off) % cand.length) with
  | none => rw [hg] at hsome; simp at hsome
  | some c0 =>
    rw [hg] at hsome
    have hsome2 : (if p c0 = true then some (c0, (start + off) % cand.length + 1)
        else none) = some (c, k) := hsome
    by_cases hp : p c0 = true
    · rw [if_pos hp] at hsome2
      have hc0 : c0 = c := by
        have := congrArg (fun o => Option.map Prod.fst o) hsome2
        simpa using this
      subst hc0
      have hge : cand[(start + off) % cand.length]? = some c0 := by
        simpa [List.get?_eq_getElem?] using hg
      exact ⟨List.getElem?_mem hge, hp⟩
    · rw [if_neg hp] at hsome2
      simp at hsome2

theorem mod_cycle_hit (start i n : Nat) (hi : i < n) :
    (start + (i + n - start % n) % n) % n = i := by
  have hn : 0 < n := Nat.lt_of_le_of_lt (Nat.zero_le i) hi
  have hs : start % n < n := Nat.mod_lt _ hn
  calc (start + (i + n - start % n) % n) % n
      = (start % n + (i + n - start % n) % n) % n := by
        rw [Nat.mod_add_mod]
    _ = (start % n + (i + n - start % n)) % n := by
        rw [Nat.add_mod_mod]
    _ = (i + n) % n := by
        congr 1
        omega
    _ = i := by
        rw [Nat.add_mod_right]
        exact Nat.mod_eq_of_lt hi

theorem scan_cyclic_none {cand : List Int} {start : Nat} {p : Int → Bool}
    (h : scan_cyclic cand start p = none) : ∀ c ∈ cand, p c = false := by
  intro c hc
  obtain ⟨i, hlt, hget⟩ := List.mem_iff_getElem.mp hc
  unfold scan_cyclic at h
  rw [List.findSome?_eq_none] at h
  have hoff : (i + cand.length - start % cand.length) % cand.length ∈
      List.range cand.length := by
    rw [List.mem_range]
    exact Nat.mod_lt _ (Nat.lt_of_le_of_lt (Nat.zero_le _) hlt)
  have hnone := h _ hoff
  simp only at hnone
  rw [mod_cycle_hit start i cand.length hlt] at hnone
  rw [List.get?_eq_getElem?] at hnone
  rw [List.getElem?_eq_getElem hlt] at hnone
  rw [hget] at hnone
  have hnone2 : (if p c = true then some (c, i + 1) else none) = none := hnone
  by_cases hp : p c = true
  · rw [if_pos hp] at hnone2
    simp at hnone2
  · simpa using hp

theorem pick_candidate_unused {used completed cand : List Int} {start : Nat}
    (h : ∃ c ∈ cand, used.contains c = false) :
    ∃ c k, pick_candidate used completed cand start = (some c, k)
      ∧ c ∈ cand ∧ used.contains c = false := by
  obtain ⟨c0, hc0, hu0⟩ := h
  have hne : cand.isEmpty = false := by
    cases cand
    · simp at hc0
    · rfl
  unfold pick_candidate
  rw [hne]
  simp only [Bool.false_eq_true, if_false]
  cases h1 : scan_cyclic cand start
      (fun c => ¬ used.contains c && ¬ completed.contains c) with
  | some ck =>
    obtain ⟨hmem, hp⟩ := scan_cyclic_sound h1
    refine ⟨ck.1, ck.2, ?_, hmem, ?_⟩
    · simp
    · cases hcu : used.contains ck.1
      · rfl
      · rw [hcu] at hp
        simp at hp
  | none =>
    cases h2 : scan_cyclic cand start (fun c => ¬ used.contains c) with
    | some ck =>
      obtain ⟨hmem, hp⟩ := scan_cyclic_sound h2
      refine ⟨ck.1, ck.2, ?_, hmem, ?_⟩
      · simp
      · cases hcu : used.contains ck.1
        · rfl
        · rw [hcu] at hp
          simp at hp
    | none =>
      exfalso
      have := scan_cyclic_none h2 c0 hc0
      rw [hu0] at this
      simp at this

theorem can_reuse_unused {tests_by_id used completed : List Int} {current : Int}
    {cands : List Int} (h : can_reuse_existing tests_by_id used completed current cands
      = true) : used.contains current = false ∧ tests_by_id.contains current = true := by
  unfold can_reuse_existing at h
  by_cases h1 : (¬ tests_by_id.contains current || used.contains current) = true
  · rw [if_pos h1] at h
    simp at h
  · have hx : (¬ tests_by_id.contains current || used.contains current) = false := by
      cases hx : (¬ tests_by_id.contains current || used.contains current)
      · rfl
      · exact absurd hx h1
    rcases Bool.or_eq_false_iff.mp hx with ⟨hn, hu⟩
    refine ⟨hu, ?_⟩
    cases ht : tests_by_id.contains current
    · rw [ht] at hn
      simp at hn
    · rfl

/-- **C4 counterexample.**  Two communication materials and a single
communication assessment: the second material is bound to the same
assessment as the first (the pool-exhaustion fallbacks of
`_pick_candidate` reuse already-used tests), so the mapping is not
injective. -/
theorem C4_counterexample :
    (assign_tests_to_materials
      [{ id := "m1", skill := "communication" }, { id := "m2", skill := "communication" }]
      [{ id := 1, title := "communication quiz a", description := "", ttype := "quiz" }]
      [] []).lookup "m1" = some 1
    ∧ (assign_tests_to_materials
      [{ id := "m1", skill := "communication" }, { id := "m2", skill := "communication" }]
      [{ id := 1, title := "communication quiz a", description := "", ttype := "quiz" }]
      [] []).lookup "m2" = some 1
    ∧ ("m1" : String) ≠ "m2" := by
  exact ⟨by decide, by decide, by decide⟩

theorem contains_eq_true_iff {l : List Int} {a : Int} :
    l.contains a = true ↔ a ∈ l := by
  simp [List.contains_iff_exists_mem_beq, beq_iff_eq, eq_comm]

theorem contains_eq_false_iff {l : List Int} {a : Int} :
    l.contains a = false ↔ a ∉ l := by
  constructor
  · intro h hm
    rw [← contains_eq_true_iff] at hm
    rw [h] at hm
    exact Bool.false_ne_true hm
  · intro h
    cases hc : l.contains a
    · rfl
    · exact absurd (contains_eq_true_iff.mp hc) h

theorem exists_unused_of_filter_lt {l : List Int} {p : Int → Bool}
    (h : (l.filter p).length < l.length) : ∃ c ∈ l, p c = false := by
  induction l with
  | nil => simp at h
  | cons x xs ih =>
    by_cases hp : p x = true
    · rw [List.filter_cons_of_pos hp] at h
      simp only [List.length_cons, Nat.add_lt_add_iff_right] at h
      obtain ⟨c, hc, hpc⟩ := ih h
      exact ⟨c, List.mem_cons_of_mem _ hc, hpc⟩
    · exact ⟨x, List.mem_cons_self _ _, by simpa using hp⟩

theorem filter_orb_length_le {l : List Int} {p : Int → Bool} {v : Int} (hnd : l.Nodup) :
    (l.filter (fun x => (x == v) || p x)).length ≤ (l.filter p).length + 1 := by
  induction l with
  | nil => simp
  | cons x xs ih =>
    have hxs := (List.nodup_cons.mp hnd).2
    have hx : x ∉ xs := (List.nodup_cons.mp hnd).1
    by_cases hv : x = v
    · subst hv
      rw [List.filter_cons_of_pos (by simp)]
      have hcong : xs.filter (fun y => (y == x) || p y) = xs.filter p := by
        refine List.filter_congr ?_
        intro y hy
        have : y ≠ x := fun he => hx (he ▸ hy)
        simp [this]
      rw [List.length_cons, hcong]
      by_cases hp : p x = true
      · have h1 := List.filter_cons_of_pos (l := xs) hp
        simp only [h1, List.length_cons]
        omega
      · have h1 := List.filter_cons_of_neg (l := xs) (by simpa using hp)
        simp only [h1]
        omega
    · by_cases hp : p x = true
      · rw [List.filter_cons_of_pos (by simp [hp]), List.filter_cons_of_pos hp]
        simpa using ih hxs
      · rw [List.filter_cons_of_neg (by simp [hv, hp]), List.filter_cons_of_neg
          (by simpa using hp)]
        exact ih hxs

theorem assocSet_mem_cases {α : Type} {l : List (String × α)} {k : String} {v : α}
    {kv : String × α} (h : kv ∈ assocSet l k v) : kv ∈ l ∨ kv = (k, v) := by
  induction l with
  | nil => simpa [assocSet] using h
  | cons hd tl ih =>
    rw [assocSet] at h
    by_cases hk : hd.1 = k
    · rw [if_pos hk] at h
      rcases List.mem_cons.mp h with h | h
      · right; exact h
      · left; exact List.mem_cons_of_mem _ h
    · rw [if_neg hk] at h
      rcases List.mem_cons.mp h with h | h
      · left; exact h ▸ List.mem_cons_self _ _
      · rcases ih h with h | h
        · left; exact List.mem_cons_of_mem _ h
        · right; exact h

theorem assocSet_values_nodup {α : Type} [DecidableEq α] {l : List (String × α)}
    {k : String} {v : α} (hnd : (l.map (fun kv => kv.2)).Nodup)
    (hv : ∀ kv ∈ l, kv.2 ≠ v) :
    ((assocSet l k v).map (fun kv => kv.2)).Nodup := by
  induction l with
  | nil => simp [assocSet]
  | cons hd tl ih =>
    rw [assocSet]
    simp only [List.map_cons, List.nodup_cons] at hnd
    by_cases hk : hd.1 = k
    · rw [if_pos hk]
      simp only [List.map_cons, List.nodup_cons]
      refine ⟨?_, hnd.2⟩
      intro hmem
      rcases List.mem_map.mp hmem with ⟨kv, hkv, hkv2⟩
      exact hv kv (List.mem_cons_of_mem _ hkv) hkv2
    · rw [if_neg hk]
      simp only [List.map_cons, List.nodup_cons]
      constructor
      · intro hmem
        rcases List.mem_map.mp hmem with ⟨kv, hkv, hkv2⟩
        rcases assocSet_mem_cases hkv with hkv | hkv
        · exact hnd.1 (hkv2 ▸ List.mem_map_of_mem _ hkv)
        · exact hv hd (List.mem_cons_self _ _) (by rw [hkv] at hkv2; exact hkv2.symm ▸ rfl)
      · exact ih hnd.2 (fun kv hkv => hv kv (List.mem_cons_of_mem _ hkv))

theorem tests_by_skill_nodup {ts : List Test}
    (hid : ((filtered_tests ts).map (fun t => t.id)).Nodup) (s : String) :
    (tests_by_skill ts s).Nodup := by
  unfold tests_by_skill
  have hsub : ((filtered_tests ts).filter
      (fun t => first_matched_skill t = some s)).map (fun t => t.id)
      |>.Sublist ((filtered_tests ts).map (fun t => t.id)) :=
    List.Sublist.map _ (List.filter_sublist _)
  exact hid.sublist hsub

theorem tests_by_skill_disjoint {ts : List Test}
    (hid : ((filtered_tests ts).map (fun t => t.id)).Nodup) {v : Int} {s s' : String}
    (h1 : v ∈ tests_by_skill ts s) (h2 : v ∈ tests_by_skill ts s') : s = s' := by
  unfold tests_by_skill at h1 h2
  rcases List.mem_map.mp h1 with ⟨t1, ht1, hid1⟩
  rcases List.mem_map.mp h2 with ⟨t2, ht2, hid2⟩
  have hm1 := List.mem_of_mem_filter ht1
  have hm2 := List.mem_of_mem_filter ht2
  have heq : t1 = t2 :=
    List.inj_on_of_nodup_map hid hm1 hm2 (by rw [hid1, hid2])
  have hp1 := List.of_mem_filter ht1
  have hp2 := List.of_mem_filter ht2
  rw [heq] at hp1
  have hss := (decide_eq_true_eq.mp hp1).symm.trans (decide_eq_true_eq.mp hp2)
  injection hss

theorem tests_by_skill_subset_ids {ts : List Test} {s : String} {v : Int}
    (h : v ∈ tests_by_skill ts s) :
    v ∈ (filtered_tests ts).map (fun t => t.id) := by
  unfold tests_by_skill at h
  rcases List.mem_map.mp h with ⟨t, ht, hidv⟩
  exact hidv ▸ List.mem_map_of_mem _ (List.mem_of_mem_filter ht)

theorem used_add_not_contained {used : List Int} {v : Int}
    (h : used.contains v = false) : used_add used v = v :: used := by
  unfold used_add
  rw [h]
  simp

theorem assign_step_spec (ts : List Test) (comp : List Int) (E : List (String × Int)) (st : AssignState)
    (m : MaterialDict)
    (hmid : pyStrip m.id ≠ "")
    (hcand : tests_by_skill ts (skill_of m) ≠ [])
    (hprior : ∀ cid, E.lookup (pyStrip m.id) = some cid →
        ((filtered_tests ts).map (fun t => t.id)).contains cid = true →
        (tests_by_skill ts (skill_of m)).contains cid = true)
    (hunused : ∃ c ∈ tests_by_skill ts (skill_of m), st.used.contains c = false) :
    ∃ v, v ∈ tests_by_skill ts (skill_of m) ∧ st.used.contains v = false
      ∧ (assign_step ts comp E st m).mapping = assocSet st.mapping (pyStrip m.id) v
      ∧ (assign_step ts comp E st m).used = v :: st.used := by
  unfold skill_of at hcand hprior hunused
  have hpickgen : ∀ (cursor : Nat), ∃ v k,
      pick_candidate st.used comp (tests_by_skill ts (pyLower (pyStrip m.skill))) cursor
        = (some v, k)
      ∧ v ∈ tests_by_skill ts (pyLower (pyStrip m.skill))
      ∧ st.used.contains v = false := by
    intro cursor
    obtain ⟨v, k, h1, h2, h3⟩ := @pick_candidate_unused st.used comp
      (tests_by_skill ts (pyLower (pyStrip m.skill))) cursor hunused
    exact ⟨v, k, h1, h2, h3⟩
  have hne : (tests_by_skill ts (pyLower (pyStrip m.skill))).isEmpty = false := by
    cases hc : tests_by_skill ts (pyLower (pyStrip m.skill))
    · exact absurd hc hcand
    · rfl
  cases hE : E.lookup (pyStrip m.id) with
  | some cid =>
    by_cases hr : can_reuse_existing ((filtered_tests ts).map (fun t => t.id)) st.used comp
        cid (tests_by_skill ts (pyLower (pyStrip m.skill))) = true
    · obtain ⟨hu, hin⟩ := can_reuse_unused hr
      refine ⟨cid, ?_, hu, ?_, ?_⟩
      · exact contains_eq_true_iff.mp (hprior cid hE hin)
      · simp only [assign_step, if_neg hmid, hE, hr, if_true]
      · simp only [assign_step, if_neg hmid, hE, hr, if_true]
        exact used_add_not_contained hu
    · obtain ⟨v, k, hpick, hv, hvu⟩ :=
        hpickgen ((st.usage_cursor.lookup (pyLower (pyStrip m.skill))).getD 0)
      have hrf : can_reuse_existing ((filtered_tests ts).map (fun t => t.id)) st.used comp
          cid (tests_by_skill ts (pyLower (pyStrip m.skill))) = false := by
        cases hx : can_reuse_existing ((filtered_tests ts).map (fun t => t.id)) st.used
            comp cid (tests_by_skill ts (pyLower (pyStrip m.skill)))
        · rfl
        · exact absurd hx hr
      refine ⟨v, hv, hvu, ?_, ?_⟩
      · simp only [assign_step, if_neg hmid, hE, hrf, Bool.false_eq_true, if_false, hne,
          Bool.not_false, Bool.false_eq_true, not_false_eq_true, if_true, if_false, hpick]
      · simp only [assign_step, if_neg hmid, hE, hrf, Bool.false_eq_true, if_false, hne,
          Bool.not_false, Bool.false_eq_true, not_false_eq_true, if_true, if_false, hpick]
        exact used_add_not_contained hvu
  | none =>
    obtain ⟨v, k, hpick, hv, hvu⟩ :=
      hpickgen ((st.usage_cursor.lookup (pyLower (pyStrip m.skill))).getD 0)
    refine ⟨v, hv, hvu, ?_, ?_⟩
    · simp only [assign_step, if_neg hmid, hE, hne, Bool.not_false, Bool.false_eq_true, not_false_eq_true, if_true, if_false, hpick]
    · simp only [assign_step, if_neg hmid, hE, hne, Bool.not_false, Bool.false_eq_true, not_false_eq_true, if_true, if_false, hpick]
      exact used_add_not_contained hvu

theorem contains_cons_eq (v c : Int) (l : List Int) :
    (v :: l).contains c = ((c == v) || l.contains c) := by
  rw [List.contains_cons]

theorem assign_fold_inv (ts : List Test) (comp : List Int) (E : List (String × Int))
    (hid : ((filtered_tests ts).map (fun t => t.id)).Nodup) :
    ∀ (mats : List MaterialDict) (st : AssignState),
    (∀ m ∈ mats, pyStrip m.id ≠ "") →
    (∀ m ∈ mats, ∀ cid, E.lookup (pyStrip m.id) = some cid →
        ((filtered_tests ts).map (fun t => t.id)).contains cid = true →
        (tests_by_skill ts (skill_of m)).contains cid = true) →
    (st.mapping.map (fun kv => kv.2)).Nodup →
    (∀ kv ∈ st.mapping, kv.2 ∈ st.used) →
    (∀ s, ((tests_by_skill ts s).filter (fun c => st.used.contains c)).length
        + (mats.filter (fun m => skill_of m = s)).length ≤ (tests_by_skill ts s).length) →
    ((mats.foldl (assign_step ts comp E) st).mapping.map (fun kv => kv.2)).Nodup := by
  intro mats
  induction mats with
  | nil => intro st _ _ hnd _ _; simpa using hnd
  | cons m rest ih =>
    intro st hmid hprior hnd hsub hcount
    have hm0 : skill_of m = skill_of m := rfl
    have hcnt0 := hcount (skill_of m)
    have hfcons : ((m :: rest).filter (fun x => skill_of x = skill_of m)).length
        = (rest.filter (fun x => skill_of x = skill_of m)).length + 1 := by
      rw [List.filter_cons_of_pos (by simp)]
      simp [Nat.add_comm]
    rw [hfcons] at hcnt0
    have hlt : (((tests_by_skill ts (skill_of m)).filter
        (fun c => st.used.contains c)).length) < (tests_by_skill ts (skill_of m)).length := by
      omega
    have hunused : ∃ c ∈ tests_by_skill ts (skill_of m), st.used.contains c = false :=
      exists_unused_of_filter_lt hlt
    have hcand : tests_by_skill ts (skill_of m) ≠ [] := by
      obtain ⟨c, hc, _⟩ := hunused
      intro hnil
      rw [hnil] at hc
      exact List.not_mem_nil c hc
    obtain ⟨v, hv, hvu, hmap, hused⟩ := assign_step_spec ts comp E st m
      (hmid m (List.mem_cons_self m rest)) hcand
      (hprior m (List.mem_cons_self m rest)) hunused
    have hstep : (m :: rest).foldl (assign_step ts comp E) st
        = rest.foldl (assign_step ts comp E) (assign_step ts comp E st m) := rfl
    rw [hstep]
    refine ih (assign_step ts comp E st m) ?_ ?_ ?_ ?_ ?_
    · intro x hx; exact hmid x (List.mem_cons_of_mem m hx)
    · intro x hx; exact hprior x (List.mem_cons_of_mem m hx)
    · rw [hmap]
      refine assocSet_values_nodup hnd ?_
      intro kv hkv hkv2
      have : kv.2 ∈ st.used := hsub kv hkv
      rw [hkv2] at this
      rw [contains_eq_false_iff] at hvu
      exact hvu this
    · intro kv hkv
      rw [hused]
      rw [hmap] at hkv
      rcases assocSet_mem_cases hkv with h | h
      · exact List.mem_cons_of_mem v (hsub kv h)
      · rw [h]
        exact List.mem_cons_self v st.used
    · intro s
      rw [hused]
      by_cases hs : s = skill_of m
      · subst hs
        have hcg : (tests_by_skill ts (skill_of m)).filter
            (fun c => (v :: st.used).contains c)
            = (tests_by_skill ts (skill_of m)).filter
              (fun c => (c == v) || st.used.contains c) := by
          apply List.filter_congr
          intro c _
          rw [contains_cons_eq]
        have hstep2 : ((tests_by_skill ts (skill_of m)).filter
            (fun c => (v :: st.used).contains c)).length
            ≤ ((tests_by_skill ts (skill_of m)).filter
              (fun c => st.used.contains c)).length + 1 := by
          rw [hcg]
          exact filter_orb_length_le (tests_by_skill_nodup hid (skill_of m))
        omega
      · have hnv : v ∉ tests_by_skill ts s := by
          intro hvs
          exact hs (tests_by_skill_disjoint hid hvs hv)
        have hcg : (tests_by_skill ts s).filter (fun c => (v :: st.used).contains c)
            = (tests_by_skill ts s).filter (fun c => st.used.contains c) := by
          apply List.filter_congr
          intro c hc
          rw [contains_cons_eq]
          have hcv : (c == v) = false := by
            rw [beq_eq_false_iff_ne]
            intro hcveq
            rw [hcveq] at hc
            exact hnv hc
          rw [hcv, Bool.false_or]
        rw [hcg]
        have hrest : ((m :: rest).filter (fun x => skill_of x = s)).length
            = (rest.filter (fun x => skill_of x = s)).length := by
          rw [List.filter_cons_of_neg]
          simp
          exact fun hcontra => hs hcontra.symm
        have := hcount s
        rw [hrest] at this
        exact this

/-- **C4** (amended).  The claim as stated is false (`C4_counterexample`):
when a skill pool is exhausted, `_pick_candidate`'s third and fourth
fallbacks return already-used assessments, double-binding them.  Amended:
whenever every referenced material id is non-empty, eligible assessment ids
are distinct, every prior binding that survives the eligibility filter lies
in its material's skill pool, and each skill has at least as many eligible
assessments as it has materials, the returned material→assessment mapping
is injective: one assessment id is never bound to two material ids. -/
theorem C4_assignment_injective
    (materials : List MaterialDict) (ts : List Test) (E : List (String × Int))
    (completed : List Int)
    (hid : ((filtered_tests ts).map (fun t => t.id)).Nodup)
    (hmid : ∀ m ∈ materials, pyStrip m.id ≠ "")
    (hprior : ∀ m ∈ materials, ∀ cid, E.lookup (pyStrip m.id) = some cid →
        ((filtered_tests ts).map (fun t => t.id)).contains cid = true →
        (tests_by_skill ts (skill_of m)).contains cid = true)
    (hcount : ∀ s, (materials.filter (fun m => skill_of m = s)).length
        ≤ (tests_by_skill ts s).length) :
    ∀ k1 k2 v,
      (assign_tests_to_materials materials ts E completed).lookup k1 = some v →
      (assign_tests_to_materials materials ts E completed).lookup k2 = some v →
      k1 = k2 := by
  intro k1 k2 v h1 h2
  have hnd : ((assign_tests_to_materials materials ts E completed).map
      (fun kv => kv.2)).Nodup := by
    unfold assign_tests_to_materials
    refine assign_fold_inv ts (completed.filter (fun i => 0 < i)) E hid materials
      ⟨[], [], [], 0⟩ hmid hprior (by simp) (by simp) ?_
    intro s
    simpa using hcount s
  have hm1 := lookup_mem h1
  have hm2 := lookup_mem h2
  have hpair : (k1, v) = (k2, v) :=
    List.inj_on_of_nodup_map hnd hm1 hm2 rfl
  exact congrArg Prod.fst hpair

set_option maxRecDepth 10000 in
theorem C4_assignment_injective_witness :
    (∀ s, (c4w_mats.filter (fun m => skill_of m = s)).length
        ≤ (tests_by_skill c4w_ts s).length)
    ∧ ∀ k1 k2 v,
      (assign_tests_to_materials c4w_mats c4w_ts [] []).lookup k1 = some v →
      (assign_tests_to_materials c4w_mats c4w_ts [] []).lookup k2 = some v →
      k1 = k2 := by
  have hcount : ∀ s, (c4w_mats.filter (fun m => skill_of m = s)).length
      ≤ (tests_by_skill c4w_ts s).length := by
    intro s
    by_cases hs : "communication" = s
    · subst hs
      decide
    · have h1 : skill_of ({ id := "m1", skill := "communication" } : MaterialDict)
          = "communication" := by decide
      have h2 : skill_of ({ id := "m2", skill := "communication" } : MaterialDict)
          = "communication" := by decide
      simp [c4w_mats, List.filter_cons, h1, h2, hs]
  refine ⟨hcount, C4_assignment_injective c4w_mats c4w_ts [] [] (by decide) (by decide)
    ?_ hcount⟩
  intro m hm cid hcid hh
  simp [List.lookup] at hcid

theorem mem_dropWhile_of_not {α : Type} {p : α → Bool} {c : α} :
    ∀ {l : List α}, c ∈ l → p c = false → c ∈ l.dropWhile p
  | [], h, _ => absurd h (List.not_mem_nil c)
  | a :: as, h, hw => by
    cases hpa : p a
    · rw [List.dropWhile_cons_of_neg (by simp [hpa])]
      exact h
    · rw [List.dropWhile_cons_of_pos hpa]
      rcases List.mem_cons.mp h with h | h
      · subst h
        rw [hpa] at hw
        cases hw
      · exact mem_dropWhile_of_not h hw

theorem mem_pyStrip {s : String} {c : Char} (hc : c ∈ s.toList)
    (hw : c.isWhitespace = false) : c ∈ (pyStrip s).toList := by
  unfold pyStrip
  have h1 : c ∈ s.toList.dropWhile Char.isWhitespace := mem_dropWhile_of_not hc hw
  have h2 : c ∈ (s.toList.dropWhile Char.isWhitespace).reverse :=
    List.mem_reverse.mpr h1
  have h3 := mem_dropWhile_of_not h2 hw
  simpa using List.mem_reverse.mpr h3

theorem pyStrip_all_ws {s : String}
    (h : ∀ c ∈ s.toList, c.isWhitespace = true) : pyStrip s = "" := by
  unfold pyStrip
  have h1 : s.toList.dropWhile Char.isWhitespace = [] := by
    rw [List.dropWhile_eq_nil_iff]
    exact fun c hc => h c hc
  rw [h1]
  rfl

theorem pyStrip_pyStrip_ne {s : String} (h : pyStrip s ≠ "") :
    pyStrip (pyStrip s) ≠ "" := by
  have hex : ∃ c ∈ s.toList, c.isWhitespace = false := by
    by_contra hno
    push_neg at hno
    refine h (pyStrip_all_ws ?_)
    intro c hc
    cases hcw : c.isWhitespace
    · exact absurd hcw (hno c hc)
    · rfl
  obtain ⟨c, hc, hw⟩ := hex
  have h1 : c ∈ (pyStrip s).toList := mem_pyStrip hc hw
  have h2 : c ∈ (pyStrip (pyStrip s)).toList := mem_pyStrip h1 hw
  intro hcontra
  rw [hcontra] at h2
  exact List.not_mem_nil c h2

theorem dropWhile_append_singleton {α : Type} {p : α → Bool} {c : α}
    (hc : p c = false) : ∀ (xs : List α), ∃ ys, (xs ++ [c]).dropWhile p = ys ++ [c]
  | [] => ⟨[], by simp [List.dropWhile_cons, hc]⟩
  | x :: xs => by
    cases hpx : p x
    · exact ⟨x :: xs, by simp [List.dropWhile_cons, hpx]⟩
    · obtain ⟨ys, hys⟩ := dropWhile_append_singleton hc xs
      exact ⟨ys, by rw [List.cons_append, List.dropWhile_cons_of_pos hpx]; exact hys⟩

theorem pyStrip_head {s : String} {c : Char} {l : List Char}
    (hs : s.toList = c :: l) (hw : c.isWhitespace = false) :
    ∃ t, (pyStrip s).toList = c :: t := by
  unfold pyStrip
  rw [hs, List.dropWhile_cons_of_neg (by simp [hw])]
  have : (c :: l).reverse = l.reverse ++ [c] := by simp
  rw [this]
  obtain ⟨ys, hys⟩ := dropWhile_append_singleton (p := Char.isWhitespace) hw l.reverse
  rw [hys]
  exact ⟨ys.reverse, by simp⟩

theorem listPrefixB_append_self : ∀ (l m : List Char), listPrefixB l (l ++ m) = true
  | [], _ => rfl
  | a :: as, m => by
    rw [List.cons_append, listPrefixB]
    simp [listPrefixB_append_self as m]

theorem fallback_id_shape (p : Plan) :
    ∃ t, (pyStrip (fallback_achievement_id p)).toList = 'b' :: t := by
  have hdata : (fallback_achievement_id p).toList
      = 'b' :: ("lock_" ++ toString p.id ++ "_"
        ++ content_target_or_unknown p.content).toList := by
    show (fallback_achievement_id p).data = 'b' :: ("lock_" ++ toString p.id ++ "_"
        ++ content_target_or_unknown p.content).data
    unfold fallback_achievement_id
    simp only [String.data_append]
    rfl
  exact pyStrip_head hdata (by decide)

theorem fallback_id_ne_empty (p : Plan) :
    pyStrip (fallback_achievement_id p) ≠ "" := by
  obtain ⟨t, ht⟩ := fallback_id_shape p
  intro h
  rw [h] at ht
  cases ht

theorem fallback_id_not_legacy (p : Plan) :
    strStartsWith (pyStrip (fallback_achievement_id p)) "legacy_" = false := by
  obtain ⟨t, ht⟩ := fallback_id_shape p
  unfold strStartsWith
  rw [ht]
  rfl

theorem legacy_starts (r : String) :
    strStartsWith ("legacy_" ++ r) "legacy_" = true := by
  unfold strStartsWith
  show listPrefixB "legacy_".data ("legacy_" ++ r).data = true
  rw [String.data_append]
  exact listPrefixB_append_self _ _

theorem string_contains_cons_eq (v c : String) (l : List String) :
    (v :: l).contains c = ((c == v) || l.contains c) := by
  rw [List.contains_cons]

/-- The invariant carried through the merge loop of
`_collect_block_achievements` for a fixed id `x` (non-empty, not of the
generated `legacy_` shape): `x` occurs in `merged` exactly when it is in
`seen_ids`, at most once, and always with the title `T` forced by `hT`. -/
def CollectInv (x T : String) (st : CollectState) : Prop :=
  st.merged.countP (fun en => en.id = x) = (if st.seen_ids.contains x then 1 else 0)
  ∧ ∀ en ∈ st.merged, en.id = x → en.title = T

theorem collect_step_inv {x T : String} (hx : x ≠ "")
    (hleg : strStartsWith x "legacy_" = false)
    (pid : Int) (st : CollectState) (item : AchItem)
    (hT : pyStrip item.id = x → pyStrip item.title = T)
    (hinv : CollectInv x T st) : CollectInv x T (collect_step pid st item) := by
  obtain ⟨hcnt, httl⟩ := hinv
  unfold collect_step
  by_cases ht : pyStrip item.title = ""
  · rw [if_pos ht]
    exact ⟨hcnt, httl⟩
  · rw [if_neg ht]
    by_cases hid : pyStrip item.id ≠ ""
    · rw [if_pos hid]
      by_cases hseen : st.seen_ids.contains (pyStrip item.id) = true
      · simp only [hseen, if_true]
        exact ⟨hcnt, httl⟩
      · have hseen' : st.seen_ids.contains (pyStrip item.id) = false :=
          Bool.eq_false_iff.mpr hseen
        simp only [hseen', Bool.false_eq_true, if_false]
        constructor
        · rw [List.countP_append]
          by_cases hxid : pyStrip item.id = x
          · have hx0 : st.seen_ids.contains x = false := hxid ▸ hseen'
            rw [hcnt, hx0]
            rw [string_contains_cons_eq]
            have : (x == pyStrip item.id) = true := by
              rw [beq_iff_eq]; exact hxid.symm
            rw [this]
            simp [hxid]
          · rw [hcnt]
            rw [string_contains_cons_eq]
            have hbe : (x == pyStrip item.id) = false := by
              rw [beq_eq_false_iff_ne]
              exact fun hcontra => hxid hcontra.symm
            rw [hbe, Bool.false_or]
            have : (fun en : AchItem => decide (en.id = x))
                ⟨pyStrip item.id, pyStrip item.title, item.achieved_at⟩ = false := by
              simp [hxid]
            simp [List.countP_cons, this]
        · intro en hen henx
          rcases List.mem_append.mp hen with h | h
          · exact httl en h henx
          · rcases List.mem_singleton.mp h with rfl
            simp only at henx
            exact hT henx
    · rw [if_neg hid]
      by_cases hfb : st.seen_fallback.contains
          (pyStrip item.title, item.achieved_at.getD "") = true
      · simp only [hfb, if_true]
        exact ⟨hcnt, httl⟩
      · have hfb' : st.seen_fallback.contains
            (pyStrip item.title, item.achieved_at.getD "") = false :=
          Bool.eq_false_iff.mpr hfb
        simp only [hfb', Bool.false_eq_true, if_false]
        have hlegne : ("legacy_" ++ toString pid ++ "_"
            ++ toString (st.merged.length + 1)) ≠ x := by
          intro hcontra
          have : strStartsWith x "legacy_" = true := by
            rw [← hcontra]
            have : "legacy_" ++ toString pid ++ "_" ++ toString (st.merged.length + 1)
                = "legacy_" ++ (toString pid ++ "_" ++ toString (st.merged.length + 1)) := by
              simp [String.append_assoc]
            rw [this]
            exact legacy_starts _
          rw [hleg] at this
          cases this
        constructor
        · rw [List.countP_append, hcnt]
          have : (fun en : AchItem => decide (en.id = x))
              ⟨"legacy_" ++ toString pid ++ "_" ++ toString (st.merged.length + 1),
                pyStrip item.title, item.achieved_at⟩ = false := by
            simp [hlegne]
          simp [List.countP_cons, this]
        · intro en hen henx
          rcases List.mem_append.mp hen with h | h
          · exact httl en h henx
          · rcases List.mem_singleton.mp h with rfl
            simp only at henx
            exact absurd henx hlegne

theorem collect_step_seen_mono {a : String} (pid : Int) (st : CollectState)
    (item : AchItem) (h : a ∈ st.seen_ids) :
    a ∈ (collect_step pid st item).seen_ids := by
  unfold collect_step
  by_cases ht : pyStrip item.title = ""
  · rw [if_pos ht]; exact h
  · rw [if_neg ht]
    by_cases hid : pyStrip item.id ≠ ""
    · rw [if_pos hid]
      by_cases hseen : st.seen_ids.contains (pyStrip item.id) = true
      · simp only [hseen, if_true]; exact h
      · simp only [Bool.eq_false_iff.mpr hseen, Bool.false_eq_true, if_false]
        exact List.mem_cons_of_mem _ h
    · rw [if_neg hid]
      by_cases hfb : st.seen_fallback.contains
          (pyStrip item.title, item.achieved_at.getD "") = true
      · simp only [hfb, if_true]; exact h
      · simp only [Bool.eq_false_iff.mpr hfb, Bool.false_eq_true, if_false]; exact h

theorem collect_step_seen_mem {x : String} (pid : Int) (st : CollectState)
    (item : AchItem) (ht : pyStrip item.title ≠ "") (hid : pyStrip item.id = x)
    (hx : x ≠ "") : x ∈ (collect_step pid st item).seen_ids := by
  unfold collect_step
  rw [if_neg ht, hid, if_pos hx]
  by_cases hseen : st.seen_ids.contains x = true
  · simp only [hseen, if_true]
    obtain ⟨a, ha, hbe⟩ := List.contains_iff_exists_mem_beq.mp hseen
    exact (beq_iff_eq.mp hbe : x = a) ▸ ha
  · simp only [Bool.eq_false_iff.mpr hseen, Bool.false_eq_true, if_false]
    exact List.mem_cons_self x st.seen_ids

theorem collect_items_inv {x T : String} (hx : x ≠ "")
    (hleg : strStartsWith x "legacy_" = false) (pid : Int) :
    ∀ (items : List AchItem) (st : CollectState),
    (∀ item ∈ items, pyStrip item.id = x → pyStrip item.title = T) →
    CollectInv x T st → CollectInv x T (items.foldl (collect_step pid) st)
  | [], st, _, hinv => hinv
  | item :: rest, st, hT, hinv => by
    rw [List.foldl_cons]
    exact collect_items_inv hx hleg pid rest (collect_step pid st item)
      (fun i hi => hT i (List.mem_cons_of_mem item hi))
      (collect_step_inv hx hleg pid st item (hT item (List.mem_cons_self item rest)) hinv)

theorem collect_items_seen_mono {a : String} (pid : Int) :
    ∀ (items : List AchItem) (st : CollectState), a ∈ st.seen_ids →
    a ∈ (items.foldl (collect_step pid) st).seen_ids
  | [], _, h => h
  | item :: rest, st, h => by
    rw [List.foldl_cons]
    exact collect_items_seen_mono pid rest _ (collect_step_seen_mono pid st item h)

theorem collect_plans_inv {x T : String} (hx : x ≠ "")
    (hleg : strStartsWith x "legacy_" = false) :
    ∀ (plans : List Plan) (st : CollectState),
    (∀ q ∈ plans, ∀ item ∈ plan_raw_achievements q,
        pyStrip item.id = x → pyStrip item.title = T) →
    CollectInv x T st →
    CollectInv x T (plans.foldl
      (fun st p => (plan_raw_achievements p).foldl (collect_step p.id) st) st)
  | [], _, _, hinv => hinv
  | q :: rest, st, hT, hinv => by
    rw [List.foldl_cons]
    exact collect_plans_inv hx hleg rest _
      (fun r hr => hT r (List.mem_cons_of_mem q hr))
      (collect_items_inv hx hleg q.id (plan_raw_achievements q) st
        (hT q (List.mem_cons_self q rest)) hinv)

theorem collect_plans_seen_mono {a : String} :
    ∀ (plans : List Plan) (st : CollectState), a ∈ st.seen_ids →
    a ∈ (plans.foldl
      (fun st p => (plan_raw_achievements p).foldl (collect_step p.id) st) st).seen_ids
  | [], _, h => h
  | q :: rest, st, h => by
    rw [List.foldl_cons]
    exact collect_plans_seen_mono rest _
      (collect_items_seen_mono q.id (plan_raw_achievements q) st h)

/-- **C8.**  Achievement aggregation: for a plan `p` whose `final_stage`
has `level_up_applied = true` and a non-empty (stripped) achievement
title, the aggregated output contains exactly one entry whose id is the
stripped legacy fallback id of `p` — so the legacy achievement is never
dropped (also when `block_achievements` is absent, the case where the raw
item list is just the synthesized fallback entry), and a block recorded
both in a `block_achievements` list and as a legacy `final_stage` record
(both carrying the fallback id) is never double-counted.  The hypothesis
`huniq` says every raw item carrying that id carries the achievement
title, which pins down the surviving entry's title. -/
theorem C8_achievement_aggregator (plans : List Plan) (p : Plan) (f : FinalStage)
    (hp : p ∈ plans)
    (hfs : p.content.final_stage = some f)
    (hlua : f.level_up_applied = some true)
    (htitle : pyStrip (f.achievement_title.getD "") ≠ "")
    (huniq : ∀ q ∈ plans, ∀ item ∈ plan_raw_achievements q,
        pyStrip item.id = pyStrip (fallback_achievement_id p) →
        pyStrip item.title = pyStrip (f.achievement_title.getD "")) :
    (collect_block_achievements plans).countP
        (fun en => en.id = pyStrip (fallback_achievement_id p)) = 1
    ∧ ∀ en ∈ collect_block_achievements plans,
        en.id = pyStrip (fallback_achievement_id p) →
        en.title = pyStrip (f.achievement_title.getD "") := by
  have hx : pyStrip (fallback_achievement_id p) ≠ "" := fallback_id_ne_empty p
  have hleg := fallback_id_not_legacy p
  have hraw : plan_raw_achievements p
      = p.content.block_achievements.getD []
        ++ [{ id := fallback_achievement_id p,
              title := pyStrip (f.achievement_title.getD ""),
              achieved_at := f.completed_at }] := by
    simp only [plan_raw_achievements, hfs, Option.getD_some, hlua, ne_eq, htitle,
      not_false_eq_true, if_true]
  obtain ⟨l1, l2, hsplit⟩ := List.append_of_mem hp
  have hfinal_seen : pyStrip (fallback_achievement_id p) ∈
      (plans.foldl (fun st q => (plan_raw_achievements q).foldl (collect_step q.id) st)
        (⟨[], [], []⟩ : CollectState)).seen_ids := by
    rw [hsplit, List.foldl_append, List.foldl_cons]
    apply collect_plans_seen_mono l2
    rw [hraw, List.foldl_append, List.foldl_cons, List.foldl_nil]
    apply collect_step_seen_mem
    · exact pyStrip_pyStrip_ne htitle
    · rfl
    · exact hx
  have hinv : CollectInv (pyStrip (fallback_achievement_id p))
      (pyStrip (f.achievement_title.getD ""))
      (plans.foldl (fun st q => (plan_raw_achievements q).foldl (collect_step q.id) st)
        (⟨[], [], []⟩ : CollectState)) := by
    apply collect_plans_inv hx hleg plans _ huniq
    unfold CollectInv
    exact ⟨by simp, by simp⟩
  obtain ⟨hcount, htitles⟩ := hinv
  have hcontains : (plans.foldl
      (fun st q => (plan_raw_achievements q).foldl (collect_step q.id) st)
        (⟨[], [], []⟩ : CollectState)).seen_ids.contains
      (pyStrip (fallback_achievement_id p)) = true :=
    List.contains_iff_exists_mem_beq.mpr ⟨_, hfinal_seen, beq_self_eq_true _⟩
  rw [hcontains, if_pos rfl] at hcount
  have hperm : collect_block_achievements plans
      |>.Perm (plans.foldl
        (fun st q => (plan_raw_achievements q).foldl (collect_step q.id) st)
        (⟨[], [], []⟩ : CollectState)).merged := by
    unfold collect_block_achievements
    exact List.perm_insertionSort _ _
  constructor
  · rw [hperm.countP_eq]
    exact hcount
  · intro en hen henx
    exact htitles en (hperm.mem_iff.mp hen) henx

set_option maxRecDepth 10000 in
theorem C8_achievement_aggregator_witness :
    pyStrip (c8_f.achievement_title.getD "") ≠ ""
    ∧ (collect_block_achievements [c8_p]).countP
        (fun en => en.id = pyStrip (fallback_achievement_id c8_p)) = 1
    ∧ ∀ en ∈ collect_block_achievements [c8_p],
        en.id = pyStrip (fallback_achievement_id c8_p) →
        en.title = pyStrip (c8_f.achievement_title.getD "") := by
  have h := C8_achievement_aggregator [c8_p] c8_p c8_f (List.mem_cons_self c8_p [])
    rfl rfl (by decide) (by decide)
  exact ⟨by decide, h.1, h.2⟩

theorem build_fold_lookup {β : Type} (f : String → β) :
    ∀ (ids : List String) (acc : List (String × β)) (mid : String),
    (ids.foldl (fun acc m => assocSet acc m (f m)) acc).lookup mid
      = if mid ∈ ids then some (f mid) else acc.lookup mid
  | [], acc, mid => by simp
  | i :: ids, acc, mid => by
    rw [List.foldl_cons, build_fold_lookup f ids _ mid]
    by_cases hin : mid ∈ ids
    · rw [if_pos hin, if_pos (List.mem_cons_of_mem i hin)]
    · rw [if_neg hin]
      by_cases hmi : mid = i
      · subst hmi
        rw [if_pos (List.mem_cons_self mid ids), assocSet_lookup_eq]
      · rw [assocSet_lookup_ne _ _ _ _ hmi,
          if_neg (by simp [hmi, hin])]

theorem fold_assocSet_congr {β : Type} (f g : String → β) :
    ∀ (ids : List String) (acc : List (String × β)),
    (∀ m ∈ ids, f m = g m) →
    ids.foldl (fun acc m => assocSet acc m (f m)) acc
      = ids.foldl (fun acc m => assocSet acc m (g m)) acc
  | [], _, _ => rfl
  | i :: ids, acc, h => by
    rw [List.foldl_cons, List.foldl_cons, h i (List.mem_cons_self i ids)]
    exact fold_assocSet_congr f g ids _ (fun m hm => h m (List.mem_cons_of_mem i hm))

/-- The shape of one normalized `material_progress` entry, with all `let`s
substituted away. -/
theorem normalized_entry_shape (mp : List (String × MatEntry))
    (map : List (String × Int)) (comp : List Int) (now : String) (mid : String) :
    normalized_entry mp map comp now mid =
      { linked_test_id := map.lookup mid,
        article_opened := ((mp.lookup mid).getD {}).article_opened,
        article_opened_at := ((mp.lookup mid).getD {}).article_opened_at,
        test_completed :=
          (match map.lookup mid with | some l => comp.contains l | none => false),
        test_completed_at :=
          (if (match map.lookup mid with
               | some l => comp.contains l | none => false) = false
           then none
           else if (match map.lookup mid with
                    | some l => comp.contains l | none => false) = true
               ∧ (((mp.lookup mid).getD {}).test_completed_at = none
                  ∨ ((mp.lookup mid).getD {}).test_completed_at = some "")
             then some now
             else ((mp.lookup mid).getD {}).test_completed_at),
        percentage := material_progress_percentage
          ((mp.lookup mid).getD {}).article_opened
          (match map.lookup mid with | some l => comp.contains l | none => false) } :=
  rfl

/-- At a fixed point of the normalization (the stored entry equals the
rebuilt one) with a non-empty first timestamp, the rebuilt entry does not
depend on the current time: the timestamping branch cannot fire again. -/
theorem normalized_entry_now_indep {mp : List (String × MatEntry)}
    {map : List (String × Int)} {comp : List Int} {now1 : String} {mid : String}
    (hfix : mp.lookup mid = some (normalized_entry mp map comp now1 mid))
    (hnow : now1 ≠ "") (now2 : String) :
    normalized_entry mp map comp now2 mid = normalized_entry mp map comp now1 mid := by
  have htca : ((mp.lookup mid).getD {}).test_completed_at
      = (normalized_entry mp map comp now1 mid).test_completed_at := by
    rw [hfix]
    rfl
  have key : (if (match map.lookup mid with
        | some l => comp.contains l | none => false) = false
      then (none : Option String)
      else if (match map.lookup mid with
           | some l => comp.contains l | none => false) = true
          ∧ (((mp.lookup mid).getD {}).test_completed_at = none
             ∨ ((mp.lookup mid).getD {}).test_completed_at = some "")
        then some now2
        else ((mp.lookup mid).getD {}).test_completed_at)
      = (if (match map.lookup mid with
          | some l => comp.contains l | none => false) = false
        then none
        else if (match map.lookup mid with
             | some l => comp.contains l | none => false) = true
            ∧ (((mp.lookup mid).getD {}).test_completed_at = none
               ∨ ((mp.lookup mid).getD {}).test_completed_at = some "")
          then some now1
          else ((mp.lookup mid).getD {}).test_completed_at) := by
    by_cases htc : (match map.lookup mid with
        | some l => comp.contains l | none => false) = false
    · rw [if_pos htc, if_pos htc]
    · rw [if_neg htc, if_neg htc]
      by_cases hcond : (match map.lookup mid with
          | some l => comp.contains l | none => false) = true
          ∧ (((mp.lookup mid).getD {}).test_completed_at = none
             ∨ ((mp.lookup mid).getD {}).test_completed_at = some "")
      · exfalso
        have hval : ((mp.lookup mid).getD {}).test_completed_at = some now1 := by
          rw [htca, normalized_entry_shape]
          simp only [if_neg htc, if_pos hcond]
        rcases hcond.2 with h | h
        · rw [hval] at h
          cases h
        · rw [hval] at h
          exact hnow (Option.some.injEq now1 "" ▸ h)
      · rw [if_neg hcond, if_neg hcond]
  rw [normalized_entry_shape, normalized_entry_shape, key]

/-- If a sync pass reports no change, the normalization it computed is a
genuine fixed point: the stored `material_progress` resolves every
material id to exactly the entry the pass rebuilt. -/
theorem sync_fixed_point {db : Db} {plan : Plan} {now1 : String}
    (hmp : sync_mp_changed db plan now1 = false) :
    ∀ mid ∈ sync_material_ids plan,
    (plan.content.material_progress.getD []).lookup mid
      = some (normalized_entry (plan.content.material_progress.getD [])
          (sync_map2 db plan) (sync_completed_after db plan) now1 mid) := by
  intro mid hmid
  have hbeq : dict_beq (sync_normalized db plan now1)
      (plan.content.material_progress.getD []) = true := by
    have h := hmp
    unfold sync_mp_changed at h
    simpa using h
  have hlk : (sync_normalized db plan now1).lookup mid
      = some (normalized_entry (plan.content.material_progress.getD [])
          (sync_map2 db plan) (sync_completed_after db plan) now1 mid) := by
    have := build_fold_lookup
      (fun m => normalized_entry (plan.content.material_progress.getD [])
        (sync_map2 db plan) (sync_completed_after db plan) now1 m)
      (sync_material_ids plan) [] mid
    rw [if_pos hmid] at this
    exact this
  have hmem := lookup_mem hlk
  have hfwd := (Bool.and_eq_true _ _ |>.mp hbeq).1
  have := List.all_eq_true.mp hfwd _ hmem
  exact of_decide_eq_true this

/-- **C3** (amended).  The claim as stated is false (`C3_counterexample`):
a pass that itself rewrote the bindings can leave a state the next pass
rewrites again.  Amended to the property the change flag is built for:
once a pass over a plan is a no-op (`changed = false` and the `Test` rows
untouched), the committed state equals the input state, and any later
pass over the same state — at any later clock value — is again a no-op
returning the identical view. -/
theorem C3_sync_idempotent (db : Db) (plan : Plan) (now1 now2 : String)
    (hch : (sync_plan_tracking db plan now1).changed = false)
    (htests : (sync_plan_tracking db plan now1).tests = db.tests)
    (hnow : now1 ≠ "") :
    (run_sync db plan now1).1 = db
    ∧ (sync_plan_tracking db plan now2).changed = false
    ∧ (sync_plan_tracking db plan now2).view = (sync_plan_tracking db plan now1).view := by
  have hch2 : (sync_map_changed db plan || sync_mp_changed db plan now1
      || decide (sync_final_stage db plan now1 ≠ plan.content.final_stage.getD {})
      || decide (((sync_ensure db plan now1).1.block_achievements.getD [])
          ≠ ((sync_ensure db plan now1).1.block_achievements.getD []))) = false := hch
  rw [Bool.or_eq_false_iff, Bool.or_eq_false_iff, Bool.or_eq_false_iff] at hch2
  have hmp1 : sync_mp_changed db plan now1 = false := hch2.1.1.2
  have hfix := sync_fixed_point hmp1
  have h_norm : sync_normalized db plan now2 = sync_normalized db plan now1 := by
    unfold sync_normalized build_material_progress
    exact fold_assocSet_congr _ _ (sync_material_ids plan) []
      (fun mid hmid => normalized_entry_now_indep (hfix mid hmid) hnow now2)
  have h_mpch : sync_mp_changed db plan now2 = sync_mp_changed db plan now1 := by
    unfold sync_mp_changed
    rw [h_norm]
  have h_mp2 : sync_mp2 db plan now2 = sync_mp2 db plan now1 := by
    unfold sync_mp2
    rw [h_norm, h_mpch]
  have h_prog : sync_progress db plan now2 = sync_progress db plan now1 := by
    unfold sync_progress
    rw [h_mp2]
  have h_contentA : sync_contentA db plan now2 = sync_contentA db plan now1 := by
    unfold sync_contentA
    rw [h_norm, h_mpch]
  have h_ensure : sync_ensure db plan now2 = sync_ensure db plan now1 := by
    unfold sync_ensure
    rw [h_contentA]
  have h_compset : sync_completion_set db plan now2 = sync_completion_set db plan now1 := by
    unfold sync_completion_set
    rw [h_ensure]
  have h_fs : sync_final_stage db plan now2 = sync_final_stage db plan now1 := by
    unfold sync_final_stage
    rw [h_ensure, h_compset, h_prog]
  have h_out : sync_plan_tracking db plan now2 = sync_plan_tracking db plan now1 := by
    unfold sync_plan_tracking
    rw [h_ensure, h_fs, h_mpch, h_mp2, h_prog]
  refine ⟨?_, ?_, ?_⟩
  · show ({ db with tests := (sync_plan_tracking db plan now1).tests, plans := if (sync_plan_tracking db plan now1).changed then db.plans.map (fun p => if p.id = plan.id then { p with content := (sync_plan_tracking db plan now1).content } else p) else db.plans } : Db) = db
    rw [htests, hch]
    simp only [Bool.false_eq_true, if_false]
  · rw [h_out]
    exact hch
  · rw [h_out]

set_option maxRecDepth 100000 in
/-- **C3 counterexample.**  Four communication quizzes (three already
completed before the plan), two communication materials: the first sync
pass binds and commits a map, yet the second pass — with no intervening
completion events or content changes — flips the second material's
binding again and reports `changed = true` with a different view, so the
synchronizer is not idempotent. -/
theorem C3_counterexample :
    (run_sync c3_db c3_plan "t1").2.changed = true
    ∧ get_active_plan c3_db1 = some c3_plan1
    ∧ c3_db1.test_results = c3_db.test_results
    ∧ c3_db1.case_solutions = c3_db.case_solutions
    ∧ (sync_plan_tracking c3_db1 c3_plan1 "t2").changed = true
    ∧ (sync_plan_tracking c3_db1 c3_plan1 "t2").view
        ≠ (run_sync c3_db c3_plan "t1").2.view := by
  have hm1 : sync_map_changed c3_db c3_plan = true := by with_unfolding_all decide
  have hm2 : sync_map_changed c3_db1 c3_plan1 = true := by with_unfolding_all decide
  have hv2 : ((sync_plan_tracking c3_db1 c3_plan1 "t2").view.material_progress.lookup
      "m2").map (fun e => e.linked_test_id) = some (some 1) := by
    with_unfolding_all decide
  have hv1 : ((run_sync c3_db c3_plan "t1").2.view.material_progress.lookup
      "m2").map (fun e => e.linked_test_id) = some (some 3) := by
    with_unfolding_all decide
  refine ⟨?_, by with_unfolding_all rfl, rfl, rfl, ?_, ?_⟩
  · show (sync_map_changed c3_db c3_plan || sync_mp_changed c3_db c3_plan "t1"
      || decide (sync_final_stage c3_db c3_plan "t1"
          ≠ c3_plan.content.final_stage.getD {})
      || decide (((sync_ensure c3_db c3_plan "t1").1.block_achievements.getD [])
          ≠ ((sync_ensure c3_db c3_plan "t1").1.block_achievements.getD []))) = true
    rw [hm1]
    simp
  · show (sync_map_changed c3_db1 c3_plan1 || sync_mp_changed c3_db1 c3_plan1 "t2"
      || decide (sync_final_stage c3_db1 c3_plan1 "t2"
          ≠ c3_plan1.content.final_stage.getD {})
      || decide (((sync_ensure c3_db1 c3_plan1 "t2").1.block_achievements.getD [])
          ≠ ((sync_ensure c3_db1 c3_plan1 "t2").1.block_achievements.getD []))) = true
    rw [hm2]
    simp
  · intro h
    have hpr := congrArg (fun v : SyncView =>
      (v.material_progress.lookup "m2").map (fun e => e.linked_test_id)) h
    simp only at hpr
    rw [hv2, hv1] at hpr
    exact absurd hpr (by decide)

set_option maxRecDepth 100000 in
theorem fxs_sync_changed_false :
    (sync_plan_tracking fxs_db fxs_plan "now").changed = false := by
  have hmap : sync_map_changed fxs_db fxs_plan = false := by with_unfolding_all decide
  have hmp : sync_mp_changed fxs_db fxs_plan "now" = false := by with_unfolding_all decide
  have hfs : sync_final_stage fxs_db fxs_plan "now" = fxs_final_stage := by
    with_unfolding_all rfl
  show (sync_map_changed fxs_db fxs_plan || sync_mp_changed fxs_db fxs_plan "now"
    || decide (sync_final_stage fxs_db fxs_plan "now"
        ≠ fxs_plan.content.final_stage.getD {})
    || decide (((sync_ensure fxs_db fxs_plan "now").1.block_achievements.getD [])
        ≠ ((sync_ensure fxs_db fxs_plan "now").1.block_achievements.getD []))) = false
  rw [hmap, hmp, hfs]
  have hprev : fxs_plan.content.final_stage.getD {} = fxs_final_stage := rfl
  rw [hprev]
  simp

set_option maxRecDepth 100000 in
theorem fxs_sync_tests_eq :
    (sync_plan_tracking fxs_db fxs_plan "now").tests = fxs_db.tests := by
  with_unfolding_all rfl

set_option maxRecDepth 100000 in
theorem C3_sync_idempotent_witness :
    (sync_plan_tracking fxs_db fxs_plan "now").changed = false
    ∧ (sync_plan_tracking fxs_db fxs_plan "now").tests = fxs_db.tests
    ∧ (run_sync fxs_db fxs_plan "now").1 = fxs_db
    ∧ (sync_plan_tracking fxs_db fxs_plan "later").changed = false
    ∧ (sync_plan_tracking fxs_db fxs_plan "later").view
        = (sync_plan_tracking fxs_db fxs_plan "now").view := by
  have h := C3_sync_idempotent fxs_db fxs_plan "now" "later" fxs_sync_changed_false
    fxs_sync_tests_eq (by decide)
  exact ⟨fxs_sync_changed_false, fxs_sync_tests_eq, h.1, h.2.1, h.2.2⟩

/-- **C1.**  Calling the level-up orchestrator on a block whose final
stage is unlocked, completed, and already has `level_up_applied = true`
skips the score mutation entirely — the profile and its history are
returned untouched — while still reporting success with
`already_applied = true` and regenerating the next plan. -/
theorem C1_advance_idempotent (db : Db) (plan : Plan) (now_iso : String)
    (gen_time : Int) (pr : ScoreProfile)
    (hap : get_active_plan db = some plan)
    (hpr : db.profile = some pr)
    (hunl : (sync_plan_tracking db plan now_iso).view.final_stage.unlocked.getD false
      = true)
    (hcomp : (sync_plan_tracking db plan now_iso).view.final_stage.completed.getD false
      = true)
    (hlua : (sync_plan_tracking db plan now_iso).view.final_stage.level_up_applied.getD
      false = true) :
    (advance_to_next_level db now_iso gen_time).1.profile = db.profile
    ∧ (advance_to_next_level db now_iso gen_time).1.profile_history = db.profile_history
    ∧ ∃ r, (advance_to_next_level db now_iso gen_time).2 = Except.ok r
        ∧ r.already_applied = true ∧ r.new_plan_generated = true := by
  have hunl' : (run_sync db plan now_iso).2.view.final_stage.unlocked.getD false
      = true := hunl
  have hcomp' : (run_sync db plan now_iso).2.view.final_stage.completed.getD false
      = true := hcomp
  have hlua' : (run_sync db plan now_iso).2.view.final_stage.level_up_applied.getD false
      = true := hlua
  have hadv : advance_to_next_level db now_iso gen_time
      = ((generate_new_plan (run_sync db plan now_iso).1 pr gen_time).1,
         Except.ok
           { level_up_applied := true, already_applied := true, new_plan_generated := true,
             new_plan_id := (generate_new_plan (run_sync db plan now_iso).1 pr gen_time).2.id,
             achievement_title := build_block_achievement_title
               (((run_sync db plan now_iso).1.plans.find?
                 (fun p => p.id = plan.id)).getD plan).content }) := by
    unfold advance_to_next_level
    simp only [hap, hpr, hunl', hcomp', hlua', eq_self_iff_true, not_true, if_false,
      if_true, not_false_eq_true]
  refine ⟨?_, ?_, ?_⟩
  · rw [hadv]
    with_unfolding_all rfl
  · rw [hadv]
    with_unfolding_all rfl
  · exact ⟨{ level_up_applied := true, already_applied := true, new_plan_generated := true, new_plan_id := (generate_new_plan (run_sync db plan now_iso).1 pr gen_time).2.id, achievement_title := build_block_achievement_title (((run_sync db plan now_iso).1.plans.find? (fun p => p.id = plan.id)).getD plan).content }, by rw [hadv], rfl, rfl⟩

set_option maxRecDepth 100000 in
theorem C1_advance_idempotent_witness :
    get_active_plan (fxc_db true) = some (fxc_plan true)
    ∧ (sync_plan_tracking (fxc_db true) (fxc_plan true)
        "now").view.final_stage.level_up_applied.getD false = true
    ∧ (advance_to_next_level (fxc_db true) "now" 20).1.profile = (fxc_db true).profile
    ∧ ∃ r, (advance_to_next_level (fxc_db true) "now" 20).2 = Except.ok r
        ∧ r.already_applied = true ∧ r.new_plan_generated = true := by
  have hap : get_active_plan (fxc_db true) = some (fxc_plan true) := by
    with_unfolding_all rfl
  have hunl : (sync_plan_tracking (fxc_db true) (fxc_plan true)
      "now").view.final_stage.unlocked.getD false = true := by
    with_unfolding_all rfl
  have hcomp : (sync_plan_tracking (fxc_db true) (fxc_plan true)
      "now").view.final_stage.completed.getD false = true := by
    with_unfolding_all rfl
  have hlua : (sync_plan_tracking (fxc_db true) (fxc_plan true)
      "now").view.final_stage.level_up_applied.getD false = true := by
    with_unfolding_all rfl
  have h := C1_advance_idempotent (fxc_db true) (fxc_plan true) "now" 20 fxc_profile
    hap rfl hunl hcomp hlua
  exact ⟨hap, hlua, h.1, h.2.2⟩

/-- **C2.**  On a synchronized active plan (the sync pass is a no-op on
it) whose final stage is not unlocked, the orchestrator raises the
InvalidState error for a locked final stage and mutates nothing: the
returned database equals the input database exactly. -/
theorem C2_invalid_state_no_mutation (db : Db) (plan : Plan) (now_iso : String)
    (gen_time : Int) (pr : ScoreProfile)
    (hap : get_active_plan db = some plan)
    (hpr : db.profile = some pr)
    (hch : (sync_plan_tracking db plan now_iso).changed = false)
    (htests : (sync_plan_tracking db plan now_iso).tests = db.tests)
    (hunl : (sync_plan_tracking db plan now_iso).view.final_stage.unlocked.getD false
      = false) :
    advance_to_next_level db now_iso gen_time = (db, Except.error advance_err2) := by
  have hdb1 : (run_sync db plan now_iso).1 = db := by
    show ({ db with tests := (sync_plan_tracking db plan now_iso).tests, plans := if (sync_plan_tracking db plan now_iso).changed then db.plans.map (fun p => if p.id = plan.id then { p with content := (sync_plan_tracking db plan now_iso).content } else p) else db.plans } : Db) = db
    rw [htests, hch]
    simp only [Bool.false_eq_true, if_false]
  have hunl' : (run_sync db plan now_iso).2.view.final_stage.unlocked.getD false
      = false := hunl
  unfold advance_to_next_level
  simp only [hap, hpr, hunl', Bool.false_eq_true, not_false_eq_true, if_true, hdb1]

set_option maxRecDepth 100000 in
theorem C2_invalid_state_no_mutation_witness :
    get_active_plan fxs_db = some fxs_plan
    ∧ (sync_plan_tracking fxs_db fxs_plan "now").view.final_stage.unlocked.getD false
        = false
    ∧ advance_to_next_level fxs_db "now" 20 = (fxs_db, Except.error advance_err2) := by
  have hap : get_active_plan fxs_db = some fxs_plan := by with_unfolding_all rfl
  have hunl : (sync_plan_tracking fxs_db fxs_plan "now").view.final_stage.unlocked.getD
      false = false := by with_unfolding_all rfl
  exact ⟨hap, hunl, C2_invalid_state_no_mutation fxs_db fxs_plan "now" 20 ⟨10, 20, 30, 40, 95⟩
    hap rfl fxs_sync_changed_false fxs_sync_tests_eq hunl⟩

/-- **C6.**  The applied level-up sets each of the five scores to
`min(100, max(current + 8, floor))`, the floor table is 45/75/85 for
beginner/intermediate/advanced, and the orchestrator keys the floor by
the *current* (just-completed, post-sync) plan's `target_difficulty` —
the profile it stores is `apply_final_level_up` of that plan's target,
computed before the next plan (with its own recomputed difficulty) is
generated. -/
theorem C6_level_up_formula (db : Db) (plan : Plan) (now_iso : String)
    (gen_time : Int) (pr : ScoreProfile)
    (hap : get_active_plan db = some plan)
    (hpr : db.profile = some pr)
    (hunl : (sync_plan_tracking db plan now_iso).view.final_stage.unlocked.getD false
      = true)
    (hcomp : (sync_plan_tracking db plan now_iso).view.final_stage.completed.getD false
      = true)
    (hlua : (sync_plan_tracking db plan now_iso).view.final_stage.level_up_applied.getD
      false = false) :
    (∀ (q : ScoreProfile) (d : String),
      (apply_final_level_up q d).communication_score
          = min 100 (max (q.communication_score + 8)
              ((next_level_floor_for_difficulty d : ℤ) : ℚ))
        ∧ (apply_final_level_up q d).emotional_intelligence_score
          = min 100 (max (q.emotional_intelligence_score + 8)
              ((next_level_floor_for_difficulty d : ℤ) : ℚ))
        ∧ (apply_final_level_up q d).critical_thinking_score
          = min 100 (max (q.critical_thinking_score + 8)
              ((next_level_floor_for_difficulty d : ℤ) : ℚ))
        ∧ (apply_final_level_up q d).time_management_score
          = min 100 (max (q.time_management_score + 8)
              ((next_level_floor_for_difficulty d : ℤ) : ℚ))
        ∧ (apply_final_level_up q d).leadership_score
          = min 100 (max (q.leadership_score + 8)
              ((next_level_floor_for_difficulty d : ℤ) : ℚ)))
    ∧ next_level_floor_for_difficulty "beginner" = 45
    ∧ next_level_floor_for_difficulty "intermediate" = 75
    ∧ next_level_floor_for_difficulty "advanced" = 85
    ∧ (advance_to_next_level db now_iso gen_time).1.profile
        = some (apply_final_level_up pr (content_target_or_beginner
            (((run_sync db plan now_iso).1.plans.find?
              (fun p => p.id = plan.id)).getD plan).content)) := by
  have hunl' : (run_sync db plan now_iso).2.view.final_stage.unlocked.getD false
      = true := hunl
  have hcomp' : (run_sync db plan now_iso).2.view.final_stage.completed.getD false
      = true := hcomp
  have hlua' : (run_sync db plan now_iso).2.view.final_stage.level_up_applied.getD false
      = false := hlua
  refine ⟨fun q d => ⟨rfl, rfl, rfl, rfl, rfl⟩, by decide, by decide, by decide, ?_⟩
  unfold advance_to_next_level
  simp only [hap, hpr, hunl', hcomp', hlua', eq_self_iff_true, not_true, if_false,
    if_true, not_false_eq_true, Bool.false_eq_true]
  rfl

set_option maxRecDepth 100000 in
theorem C6_level_up_formula_witness :
    get_active_plan (fxc_db false) = some (fxc_plan false)
    ∧ (sync_plan_tracking (fxc_db false) (fxc_plan false)
        "now").view.final_stage.level_up_applied.getD false = false
    ∧ (advance_to_next_level (fxc_db false) "now" 20).1.profile
        = some (apply_final_level_up fxc_profile "beginner")
    ∧ apply_final_level_up fxc_profile "beginner"
        = ⟨45, 45, 45, 48, 100⟩ := by
  have hap : get_active_plan (fxc_db false) = some (fxc_plan false) := by
    with_unfolding_all rfl
  have hunl : (sync_plan_tracking (fxc_db false) (fxc_plan false)
      "now").view.final_stage.unlocked.getD false = true := by
    with_unfolding_all rfl
  have hcomp : (sync_plan_tracking (fxc_db false) (fxc_plan false)
      "now").view.final_stage.completed.getD false = true := by
    with_unfolding_all rfl
  have hlua : (sync_plan_tracking (fxc_db false) (fxc_plan false)
      "now").view.final_stage.level_up_applied.getD false = false := by
    with_unfolding_all rfl
  have h := C6_level_up_formula (fxc_db false) (fxc_plan false) "now" 20 fxc_profile
    hap rfl hunl hcomp hlua
  have htarget : content_target_or_beginner
      ((((run_sync (fxc_db false) (fxc_plan false) "now").1.plans.find?
        (fun p => p.id = (fxc_plan false).id)).getD (fxc_plan false)).content)
      = "beginner" := by with_unfolding_all rfl
  have hkey := h.2.2.2.2
  rw [htarget] at hkey
  exact ⟨hap, hlua, hkey, by with_unfolding_all decide⟩

end PlanSpec
